import Mathlib

/-!
AS7265x spectral-sensor driver: the virtual-register protocol.

A shallow embedding of `Src/AS7265x.c`.  The driver talks to the sensor through
`readRegister`, `writeRegister` and `systickDelayMs` only, so a run of a driver
function is a function of the bytes the bus returns to its successive reads.
The embedding makes that explicit:

* the device is a *script*, the list of bytes answered to the successive
  `readRegister` calls (whatever register they address);
* every function returns a `Run`: its result (`none` when the script ended while
  the function was still waiting for a byte), the bus operations it performed, in
  order, and the part of the script it did not consume.

The macros of `AS7265X.h` (register addresses, flag masks, device identifiers)
are parameters, collected in `Consts`.  The only global of the file,
`maxWaitTime`, is neither read nor written by any function, so a run has no state
besides the script.
-/

namespace AS7265x

/-- The macros of `AS7265X.h` used by `AS7265x.c`.  All of them are passed where a
`uint8_t` is expected. -/
structure Consts where
  AS7265X_STATUS_REG : Nat
  AS7265X_WRITE_REG : Nat
  AS7265X_READ_REG : Nat
  AS7265X_TX_VALID : Nat
  AS7265X_RX_VALID : Nat
  AS7265X_POLLING_DELAY : Nat
  AS7265X_DEV_SELECT_CONTROL : Nat
  AS7265X_RAW_R_G_A : Nat
  AS7265X_RAW_S_H_B : Nat
  AS7265X_RAW_T_I_C : Nat
  AS7265X_RAW_U_J_D : Nat
  AS7265X_RAW_V_K_E : Nat
  AS7265X_RAW_W_L_F : Nat
  AS7265X_CAL_R_G_A : Nat
  AS7265X_CAL_S_H_B : Nat
  AS7265X_CAL_T_I_C : Nat
  AS7265X_CAL_U_J_D : Nat
  AS7265X_CAL_V_K_E : Nat
  AS7265X_CAL_W_L_F : Nat
  AS72651_NIR : Nat
  AS72652_VISIBLE : Nat
  AS72653_UV : Nat
deriving Repr, DecidableEq

/-- One valuation of the macros (the register map of the AS7265x data sheet),
used to evaluate the driver on concrete inputs. -/
def sampleConsts : Consts where
  AS7265X_STATUS_REG := 0x00
  AS7265X_WRITE_REG := 0x01
  AS7265X_READ_REG := 0x02
  AS7265X_TX_VALID := 0x02
  AS7265X_RX_VALID := 0x01
  AS7265X_POLLING_DELAY := 5
  AS7265X_DEV_SELECT_CONTROL := 0x4F
  AS7265X_RAW_R_G_A := 0x08
  AS7265X_RAW_S_H_B := 0x0A
  AS7265X_RAW_T_I_C := 0x0C
  AS7265X_RAW_U_J_D := 0x0E
  AS7265X_RAW_V_K_E := 0x10
  AS7265X_RAW_W_L_F := 0x12
  AS7265X_CAL_R_G_A := 0x14
  AS7265X_CAL_S_H_B := 0x18
  AS7265X_CAL_T_I_C := 0x1C
  AS7265X_CAL_U_J_D := 0x20
  AS7265X_CAL_V_K_E := 0x24
  AS7265X_CAL_W_L_F := 0x28
  AS72651_NIR := 0x00
  AS72652_VISIBLE := 0x01
  AS72653_UV := 0x02

/-- One operation on the bus, or one call of the delay routine, as seen from
outside the driver. -/
inductive BusOp where
  | read (addr val : Nat)
  | write (addr val : Nat)
  | delay (ms : Nat)
deriving Repr, DecidableEq

/-- The outcome of running a driver function against a script. -/
structure Run (α : Type) where
  /-- The returned value; `none` when the script ran out first. -/
  result : Option α
  /-- The operations performed, oldest first. -/
  trace : List BusOp
  /-- The bytes of the script not yet consumed. -/
  rest : List Nat
deriving Repr, DecidableEq

/-- Return `a` without touching the bus. -/
def Run.pure {α : Type} (a : α) (script : List Nat) : Run α :=
  ⟨some a, [], script⟩

/-- Sequencing of two pieces of driver code: the second runs on what the first
left of the script, and only if the first returned. -/
def Run.bind {α β : Type} (r : Run α) (f : α → List Nat → Run β) : Run β :=
  match r.result with
  | none => ⟨none, r.trace, r.rest⟩
  | some a => ⟨(f a r.rest).result, r.trace ++ (f a r.rest).trace, (f a r.rest).rest⟩

/-- `readRegister(addr)`: one single-byte bus read.  The byte is the next one of
the script, as a `uint8_t`. -/
def readRegister (addr : Nat) : List Nat → Run Nat
  | [] => ⟨none, [], []⟩
  | b :: rest => ⟨some (b % 256), [BusOp.read addr (b % 256)], rest⟩

/-- `writeRegister(addr, val)`: one single-byte bus write. -/
def writeRegister (addr val : Nat) (script : List Nat) : Run Unit :=
  ⟨some (), [BusOp.write addr val], script⟩

/-- `systickDelayMs(ms)`. -/
def systickDelayMs (ms : Nat) (script : List Nat) : Run Unit :=
  ⟨some (), [BusOp.delay ms], script⟩

/-- The polling loop of the driver,
`while(1) { status = readRegister(AS7265X_STATUS_REG); if (ready(status)) break;
systickDelayMs(AS7265X_POLLING_DELAY); }`, for an exit test `ready`. -/
def pollStatus (k : Consts) (ready : Nat → Bool) : List Nat → Run Unit
  | [] => ⟨none, [], []⟩
  | b :: rest =>
    if ready (b % 256) then
      ⟨some (), [BusOp.read k.AS7265X_STATUS_REG (b % 256)], rest⟩
    else
      ⟨(pollStatus k ready rest).result,
        BusOp.read k.AS7265X_STATUS_REG (b % 256)
          :: BusOp.delay k.AS7265X_POLLING_DELAY :: (pollStatus k ready rest).trace,
        (pollStatus k ready rest).rest⟩

/-- The exit test `(status & AS7265X_TX_VALID) == 0`. -/
def txClear (k : Consts) (status : Nat) : Bool :=
  status &&& k.AS7265X_TX_VALID == 0

/-- The exit test `(status & AS7265X_RX_VALID) != 0`. -/
def rxSet (k : Consts) (status : Nat) : Bool :=
  status &&& k.AS7265X_RX_VALID != 0

/-- `virtualReadRegister(virtualAddr)`, lines 46-85. -/
def virtualReadRegister (k : Consts) (virtualAddr : Nat) (script : List Nat) : Run Nat :=
  (readRegister k.AS7265X_STATUS_REG script).bind fun status s1 =>
  (if status &&& k.AS7265X_RX_VALID ≠ 0 then
      (readRegister k.AS7265X_READ_REG s1).bind fun _ s => Run.pure () s
    else Run.pure () s1).bind fun _ s2 =>
  (pollStatus k (txClear k) s2).bind fun _ s3 =>
  (writeRegister k.AS7265X_WRITE_REG virtualAddr s3).bind fun _ s4 =>
  (pollStatus k (rxSet k) s4).bind fun _ s5 =>
  readRegister k.AS7265X_READ_REG s5

/-- `virtualWriteRegister(virtualAddr, dataToWrite)`, lines 88-121.  The first
argument of the first write is the `int` `virtualAddr | 1 << 7`, converted to
`uint8_t`. -/
def virtualWriteRegister (k : Consts) (virtualAddr dataToWrite : Nat)
    (script : List Nat) : Run Unit :=
  (pollStatus k (txClear k) script).bind fun _ s1 =>
  (writeRegister k.AS7265X_WRITE_REG ((virtualAddr ||| 1 <<< 7) % 256) s1).bind fun _ s2 =>
  (pollStatus k (txClear k) s2).bind fun _ s3 =>
  writeRegister k.AS7265X_WRITE_REG dataToWrite s3

/-- `selectDevice(device)`, lines 124-127. -/
def selectDevice (k : Consts) (device : Nat) (script : List Nat) : Run Unit :=
  virtualWriteRegister k k.AS7265X_DEV_SELECT_CONTROL device script

/-- A C `float`, represented by its 32 bits of storage. -/
structure F32 where
  bits : Nat
deriving Repr, DecidableEq

/-- `convertBytesToFloat(myLong)`, lines 130-135: `memcpy` of the four bytes of
the `uint32_t` into a `float`. -/
def convertBytesToFloat (myLong : Nat) : F32 :=
  ⟨myLong % 2 ^ 32⟩

/-- `getChannel(channelRegister, device)`, lines 138-145.  `colorData` is a
`uint16_t`; the argument `channelRegister + 1` is an `int` converted to
`uint8_t`. -/
def getChannel (k : Consts) (channelRegister device : Nat) (script : List Nat) : Run Nat :=
  (selectDevice k device script).bind fun _ s1 =>
  (virtualReadRegister k channelRegister s1).bind fun high s2 =>
  (virtualReadRegister k ((channelRegister + 1) % 256) s2).bind fun low s3 =>
  Run.pure (((high <<< 8) % 65536 ||| low) % 65536) s3

/-- `getCalibratedValue(calAddress, device)`, lines 148-165. -/
def getCalibratedValue (k : Consts) (calAddress device : Nat) (script : List Nat) : Run F32 :=
  (selectDevice k device script).bind fun _ s1 =>
  (virtualReadRegister k ((calAddress + 0) % 256) s1).bind fun chan0 s2 =>
  (virtualReadRegister k ((calAddress + 1) % 256) s2).bind fun chan1 s3 =>
  (virtualReadRegister k ((calAddress + 2) % 256) s3).bind fun chan2 s4 =>
  (virtualReadRegister k ((calAddress + 3) % 256) s4).bind fun chan3 s5 =>
  let calBytes0 := 0
  let calBytes1 := calBytes0 ||| (chan0 <<< (8 * 3)) % 2 ^ 32
  let calBytes2 := calBytes1 ||| (chan1 <<< (8 * 2)) % 2 ^ 32
  let calBytes3 := calBytes2 ||| (chan2 <<< (8 * 1)) % 2 ^ 32
  let calBytes4 := calBytes3 ||| (chan3 <<< (8 * 0)) % 2 ^ 32
  Run.pure (convertBytesToFloat calBytes4) s5

/-! ## The named accessors, lines 194-348 -/

/-- `getRawA()`. -/
def getRawA (k : Consts) (script : List Nat) : Run Nat :=
  getChannel k k.AS7265X_RAW_R_G_A k.AS72653_UV script

/-- `getRawB()`. -/
def getRawB (k : Consts) (script : List Nat) : Run Nat :=
  getChannel k k.AS7265X_RAW_S_H_B k.AS72653_UV script

/-- `getRawC()`. -/
def getRawC (k : Consts) (script : List Nat) : Run Nat :=
  getChannel k k.AS7265X_RAW_T_I_C k.AS72653_UV script

/-- `getRawD()`. -/
def getRawD (k : Consts) (script : List Nat) : Run Nat :=
  getChannel k k.AS7265X_RAW_U_J_D k.AS72653_UV script

/-- `getRawE()`. -/
def getRawE (k : Consts) (script : List Nat) : Run Nat :=
  getChannel k k.AS7265X_RAW_V_K_E k.AS72653_UV script

/-- `getRawF()`. -/
def getRawF (k : Consts) (script : List Nat) : Run Nat :=
  getChannel k k.AS7265X_RAW_W_L_F k.AS72653_UV script

/-- `getRawG()`. -/
def getRawG (k : Consts) (script : List Nat) : Run Nat :=
  getChannel k k.AS7265X_RAW_R_G_A k.AS72652_VISIBLE script

/-- `getRawH()`. -/
def getRawH (k : Consts) (script : List Nat) : Run Nat :=
  getChannel k k.AS7265X_RAW_S_H_B k.AS72652_VISIBLE script

/-- `getRawI()`. -/
def getRawI (k : Consts) (script : List Nat) : Run Nat :=
  getChannel k k.AS7265X_RAW_T_I_C k.AS72652_VISIBLE script

/-- `getRawJ()`. -/
def getRawJ (k : Consts) (script : List Nat) : Run Nat :=
  getChannel k k.AS7265X_RAW_U_J_D k.AS72652_VISIBLE script

/-- `getRawK()`. -/
def getRawK (k : Consts) (script : List Nat) : Run Nat :=
  getChannel k k.AS7265X_RAW_V_K_E k.AS72652_VISIBLE script

/-- `getRawL()`. -/
def getRawL (k : Consts) (script : List Nat) : Run Nat :=
  getChannel k k.AS7265X_RAW_W_L_F k.AS72652_VISIBLE script

/-- `getRawR()`. -/
def getRawR (k : Consts) (script : List Nat) : Run Nat :=
  getChannel k k.AS7265X_RAW_R_G_A k.AS72651_NIR script

/-- `getRawS()`. -/
def getRawS (k : Consts) (script : List Nat) : Run Nat :=
  getChannel k k.AS7265X_RAW_S_H_B k.AS72651_NIR script

/-- `getRawT()`. -/
def getRawT (k : Consts) (script : List Nat) : Run Nat :=
  getChannel k k.AS7265X_RAW_T_I_C k.AS72651_NIR script

/-- `getRawU()`. -/
def getRawU (k : Consts) (script : List Nat) : Run Nat :=
  getChannel k k.AS7265X_RAW_U_J_D k.AS72651_NIR script

/-- `getRawV()`. -/
def getRawV (k : Consts) (script : List Nat) : Run Nat :=
  getChannel k k.AS7265X_RAW_V_K_E k.AS72651_NIR script

/-- `getRawW()`. -/
def getRawW (k : Consts) (script : List Nat) : Run Nat :=
  getChannel k k.AS7265X_RAW_W_L_F k.AS72651_NIR script

/-- `getCalibratedA()`. -/
def getCalibratedA (k : Consts) (script : List Nat) : Run F32 :=
  getCalibratedValue k k.AS7265X_CAL_R_G_A k.AS72653_UV script

/-- `getCalibratedB()`. -/
def getCalibratedB (k : Consts) (script : List Nat) : Run F32 :=
  getCalibratedValue k k.AS7265X_CAL_S_H_B k.AS72653_UV script

/-- `getCalibratedC()`. -/
def getCalibratedC (k : Consts) (script : List Nat) : Run F32 :=
  getCalibratedValue k k.AS7265X_CAL_T_I_C k.AS72653_UV script

/-- `getCalibratedD()`. -/
def getCalibratedD (k : Consts) (script : List Nat) : Run F32 :=
  getCalibratedValue k k.AS7265X_CAL_U_J_D k.AS72653_UV script

/-- `getCalibratedE()`. -/
def getCalibratedE (k : Consts) (script : List Nat) : Run F32 :=
  getCalibratedValue k k.AS7265X_CAL_V_K_E k.AS72653_UV script

/-- `getCalibratedF()`. -/
def getCalibratedF (k : Consts) (script : List Nat) : Run F32 :=
  getCalibratedValue k k.AS7265X_CAL_W_L_F k.AS72653_UV script

/-- `getCalibratedG()`. -/
def getCalibratedG (k : Consts) (script : List Nat) : Run F32 :=
  getCalibratedValue k k.AS7265X_CAL_R_G_A k.AS72652_VISIBLE script

/-- `getCalibratedH()`. -/
def getCalibratedH (k : Consts) (script : List Nat) : Run F32 :=
  getCalibratedValue k k.AS7265X_CAL_S_H_B k.AS72652_VISIBLE script

/-- `getCalibratedI()`. -/
def getCalibratedI (k : Consts) (script : List Nat) : Run F32 :=
  getCalibratedValue k k.AS7265X_CAL_T_I_C k.AS72652_VISIBLE script

/-- `getCalibratedJ()`. -/
def getCalibratedJ (k : Consts) (script : List Nat) : Run F32 :=
  getCalibratedValue k k.AS7265X_CAL_U_J_D k.AS72652_VISIBLE script

/-- `getCalibratedK()`. -/
def getCalibratedK (k : Consts) (script : List Nat) : Run F32 :=
  getCalibratedValue k k.AS7265X_CAL_V_K_E k.AS72652_VISIBLE script

/-- `getCalibratedL()`. -/
def getCalibratedL (k : Consts) (script : List Nat) : Run F32 :=
  getCalibratedValue k k.AS7265X_CAL_W_L_F k.AS72652_VISIBLE script

/-- `getCalibratedR()`. -/
def getCalibratedR (k : Consts) (script : List Nat) : Run F32 :=
  getCalibratedValue k k.AS7265X_CAL_R_G_A k.AS72651_NIR script

/-- `getCalibratedS()`. -/
def getCalibratedS (k : Consts) (script : List Nat) : Run F32 :=
  getCalibratedValue k k.AS7265X_CAL_S_H_B k.AS72651_NIR script

/-- `getCalibratedT()`. -/
def getCalibratedT (k : Consts) (script : List Nat) : Run F32 :=
  getCalibratedValue k k.AS7265X_CAL_T_I_C k.AS72651_NIR script

/-- `getCalibratedU()`. -/
def getCalibratedU (k : Consts) (script : List Nat) : Run F32 :=
  getCalibratedValue k k.AS7265X_CAL_U_J_D k.AS72651_NIR script

/-- `getCalibratedV()`. -/
def getCalibratedV (k : Consts) (script : List Nat) : Run F32 :=
  getCalibratedValue k k.AS7265X_CAL_V_K_E k.AS72651_NIR script

/-- `getCalibratedW()`. -/
def getCalibratedW (k : Consts) (script : List Nat) : Run F32 :=
  getCalibratedValue k k.AS7265X_CAL_W_L_F k.AS72651_NIR script

/-! ## Reading a trace -/

/-- The writes of a trace, as (register, byte) pairs, in order. -/
def writesOf : List BusOp → List (Nat × Nat)
  | [] => []
  | BusOp.write a v :: t => (a, v) :: writesOf t
  | _ :: t => writesOf t

/-- The bytes read from register `addr` in a trace, in order. -/
def readsFrom (addr : Nat) : List BusOp → List Nat
  | [] => []
  | BusOp.read a v :: t => if a = addr then v :: readsFrom addr t else readsFrom addr t
  | _ :: t => readsFrom addr t

/-- A trace made of STATUS reads and polling delays only. -/
def PollOnly (k : Consts) (tr : List BusOp) : Prop :=
  ∀ op ∈ tr, (∃ s, op = BusOp.read k.AS7265X_STATUS_REG s) ∨
    op = BusOp.delay k.AS7265X_POLLING_DELAY

/-- Every write of the trace goes to the WRITE register and the operation right
before it is a STATUS read whose TX_VALID bit is clear. -/
def WriteGated (k : Consts) (tr : List BusOp) : Prop :=
  ∀ i a v, tr[i]? = some (BusOp.write a v) →
    a = k.AS7265X_WRITE_REG ∧
    ∃ s, 0 < i ∧ tr[i - 1]? = some (BusOp.read k.AS7265X_STATUS_REG s) ∧ txClear k s = true

/-- The operation right before every read of the READ register is a STATUS read
whose RX_VALID bit is set. -/
def ReadGated (k : Consts) (tr : List BusOp) : Prop :=
  ∀ i v, tr[i]? = some (BusOp.read k.AS7265X_READ_REG v) →
    ∃ s, 0 < i ∧ tr[i - 1]? = some (BusOp.read k.AS7265X_STATUS_REG s) ∧ rxSet k s = true

/-- Traces built from the four steps of the handshake: a STATUS read, a delay, a
write right after a STATUS read with TX_VALID clear, a READ-register read right
after a STATUS read with RX_VALID set. -/
inductive Handshake (k : Consts) : List BusOp → Prop
  | nil : Handshake k []
  | status (s : Nat) (t : List BusOp) :
      Handshake k t → Handshake k (BusOp.read k.AS7265X_STATUS_REG s :: t)
  | delay (ms : Nat) (t : List BusOp) : Handshake k t → Handshake k (BusOp.delay ms :: t)
  | write (s v : Nat) (t : List BusOp) : txClear k s = true → Handshake k t →
      Handshake k (BusOp.read k.AS7265X_STATUS_REG s :: BusOp.write k.AS7265X_WRITE_REG v :: t)
  | read (s v : Nat) (t : List BusOp) : rxSet k s = true → Handshake k t →
      Handshake k (BusOp.read k.AS7265X_STATUS_REG s :: BusOp.read k.AS7265X_READ_REG v :: t)

/-- The run `r` with `u` appended to the script it was given. -/
def Run.extend {α : Type} (r : Run α) (u : List Nat) : Run α :=
  ⟨r.result, r.trace, r.rest ++ u⟩

/-- A piece of driver code that returns on a script behaves the same on every
longer script and leaves the added bytes untouched. -/
def Framed {α : Type} (f : List Nat → Run α) : Prop :=
  ∀ s u a, (f s).result = some a → f (s ++ u) = (f s).extend u

/-! ## The steps of the two handshakes -/

/-- Wait for TX_VALID to clear, then write `val` to the WRITE register. -/
def waitThenWrite (k : Consts) (val : Nat) (script : List Nat) : Run Unit :=
  (pollStatus k (txClear k) script).bind fun _ s => writeRegister k.AS7265X_WRITE_REG val s

/-- Wait for RX_VALID to be set, then read the READ register. -/
def waitThenRead (k : Consts) (script : List Nat) : Run Nat :=
  (pollStatus k (rxSet k) script).bind fun _ s => readRegister k.AS7265X_READ_REG s

/-- The preliminary check of `virtualReadRegister`, lines 51-55. -/
def drainStale (k : Consts) (script : List Nat) : Run Unit :=
  (readRegister k.AS7265X_STATUS_REG script).bind fun status s1 =>
  if status &&& k.AS7265X_RX_VALID ≠ 0 then
    (readRegister k.AS7265X_READ_REG s1).bind fun _ s => Run.pure () s
  else Run.pure () s1

/-- The rational number denoted by an IEEE-754 binary32 pattern: sign in bit 31,
biased exponent in bits 30-23, fraction in bits 22-0.  `none` for the infinities
and NaN. -/
def F32.toRat? (x : F32) : Option ℚ :=
  let sign : Nat := x.bits / 2 ^ 31 % 2
  let e : Nat := x.bits / 2 ^ 23 % 256
  let m : Nat := x.bits % 2 ^ 23
  if e = 255 then none
  else if e = 0 then some ((-1) ^ sign * m * (2 : ℚ) ^ (-149 : ℤ))
  else some ((-1) ^ sign * (2 ^ 23 + m) * (2 : ℚ) ^ ((e : ℤ) - 150))

/-- The trace opens with the complete virtual write of `device` to the
device-select register: a wait, the byte `AS7265X_DEV_SELECT_CONTROL | 0x80`
written right after a STATUS read with TX_VALID clear, a wait, `device` written
right after a STATUS read with TX_VALID clear; `later` is what follows.  Up to
and including the second write there is no other write and no read of the READ
register. -/
def SelectsFirst (k : Consts) (device : Nat) (tr later : List BusOp) : Prop :=
  ∃ p1 s1 p2 s2,
    tr = p1 ++ [BusOp.read k.AS7265X_STATUS_REG s1,
                 BusOp.write k.AS7265X_WRITE_REG (k.AS7265X_DEV_SELECT_CONTROL ||| 0x80)] ++
          (p2 ++ [BusOp.read k.AS7265X_STATUS_REG s2,
                   BusOp.write k.AS7265X_WRITE_REG device]) ++ later ∧
    PollOnly k p1 ∧ txClear k s1 = true ∧ PollOnly k p2 ∧ txClear k s2 = true ∧
    readsFrom k.AS7265X_READ_REG
      (p1 ++ [BusOp.read k.AS7265X_STATUS_REG s1,
               BusOp.write k.AS7265X_WRITE_REG (k.AS7265X_DEV_SELECT_CONTROL ||| 0x80)] ++
        (p2 ++ [BusOp.read k.AS7265X_STATUS_REG s2,
                 BusOp.write k.AS7265X_WRITE_REG device])) = []

/-! ## The table of accessors: letters, bands, positions -/

/-- The eighteen channel letters. -/
inductive Channel where
  | A | B | C | D | E | F | G | H | I | J | K | L | R | S | T | U | V | W
deriving DecidableEq, Repr

/-- The three sub-devices. -/
inductive Band where
  | UV | VISIBLE | NIR
deriving DecidableEq, Repr

/-- The six positions of a channel within its band, named after the suffix shared
by the register macros of that position. -/
inductive Slot where
  | R_G_A | S_H_B | T_I_C | U_J_D | V_K_E | W_L_F
deriving DecidableEq, Repr

/-- The raw accessor named by a letter. -/
def Channel.getRaw : Channel → Consts → List Nat → Run Nat
  | Channel.A => getRawA
  | Channel.B => getRawB
  | Channel.C => getRawC
  | Channel.D => getRawD
  | Channel.E => getRawE
  | Channel.F => getRawF
  | Channel.G => getRawG
  | Channel.H => getRawH
  | Channel.I => getRawI
  | Channel.J => getRawJ
  | Channel.K => getRawK
  | Channel.L => getRawL
  | Channel.R => getRawR
  | Channel.S => getRawS
  | Channel.T => getRawT
  | Channel.U => getRawU
  | Channel.V => getRawV
  | Channel.W => getRawW

/-- The calibrated accessor named by a letter. -/
def Channel.getCalibrated : Channel → Consts → List Nat → Run F32
  | Channel.A => getCalibratedA
  | Channel.B => getCalibratedB
  | Channel.C => getCalibratedC
  | Channel.D => getCalibratedD
  | Channel.E => getCalibratedE
  | Channel.F => getCalibratedF
  | Channel.G => getCalibratedG
  | Channel.H => getCalibratedH
  | Channel.I => getCalibratedI
  | Channel.J => getCalibratedJ
  | Channel.K => getCalibratedK
  | Channel.L => getCalibratedL
  | Channel.R => getCalibratedR
  | Channel.S => getCalibratedS
  | Channel.T => getCalibratedT
  | Channel.U => getCalibratedU
  | Channel.V => getCalibratedV
  | Channel.W => getCalibratedW

/-- The band of a letter as the specification gives it: A-F are UV, G-L are
visible, R-W are NIR. -/
def Channel.band : Channel → Band
  | Channel.A | Channel.B | Channel.C | Channel.D | Channel.E | Channel.F => Band.UV
  | Channel.G | Channel.H | Channel.I | Channel.J | Channel.K | Channel.L => Band.VISIBLE
  | Channel.R | Channel.S | Channel.T | Channel.U | Channel.V | Channel.W => Band.NIR

/-- The position of a letter within its band as the specification gives it:
A/G/R, B/H/S, C/I/T, D/J/U, E/K/V, F/L/W. -/
def Channel.slot : Channel → Slot
  | Channel.A | Channel.G | Channel.R => Slot.R_G_A
  | Channel.B | Channel.H | Channel.S => Slot.S_H_B
  | Channel.C | Channel.I | Channel.T => Slot.T_I_C
  | Channel.D | Channel.J | Channel.U => Slot.U_J_D
  | Channel.E | Channel.K | Channel.V => Slot.V_K_E
  | Channel.F | Channel.L | Channel.W => Slot.W_L_F

/-- The device identifier of a band. -/
def Band.device (k : Consts) : Band → Nat
  | Band.UV => k.AS72653_UV
  | Band.VISIBLE => k.AS72652_VISIBLE
  | Band.NIR => k.AS72651_NIR

/-- The raw-data register of a position. -/
def Slot.raw (k : Consts) : Slot → Nat
  | Slot.R_G_A => k.AS7265X_RAW_R_G_A
  | Slot.S_H_B => k.AS7265X_RAW_S_H_B
  | Slot.T_I_C => k.AS7265X_RAW_T_I_C
  | Slot.U_J_D => k.AS7265X_RAW_U_J_D
  | Slot.V_K_E => k.AS7265X_RAW_V_K_E
  | Slot.W_L_F => k.AS7265X_RAW_W_L_F

/-- The calibrated-data register of a position. -/
def Slot.cal (k : Consts) : Slot → Nat
  | Slot.R_G_A => k.AS7265X_CAL_R_G_A
  | Slot.S_H_B => k.AS7265X_CAL_S_H_B
  | Slot.T_I_C => k.AS7265X_CAL_T_I_C
  | Slot.U_J_D => k.AS7265X_CAL_U_J_D
  | Slot.V_K_E => k.AS7265X_CAL_V_K_E
  | Slot.W_L_F => k.AS7265X_CAL_W_L_F

/-- The part of a trace that answers one virtual read: the request `addr` written
to the WRITE register (nothing written before it), then STATUS reads and delays
only, then a STATUS read with RX_VALID set and right after it the read of the
READ register that yields `v`. -/
def AnswerOf (k : Consts) (addr v : Nat) (t : List BusOp) : Prop :=
  ∃ pre post st,
    t = pre ++ BusOp.write k.AS7265X_WRITE_REG addr ::
          (post ++ [BusOp.read k.AS7265X_STATUS_REG st, BusOp.read k.AS7265X_READ_REG v]) ∧
    writesOf pre = [] ∧ PollOnly k post ∧ rxSet k st = true

/-- The operations of the driver: the five protocol functions and the thirty-six
named accessors. -/
inductive DriverOp where
  | virtualWriteRegister (virtualAddr dataToWrite : Nat)
  | virtualReadRegister (virtualAddr : Nat)
  | selectDevice (device : Nat)
  | getChannel (channelRegister device : Nat)
  | getCalibratedValue (calAddress device : Nat)
  | getRaw (c : Channel)
  | getCalibrated (c : Channel)
deriving DecidableEq, Repr

/-- The bus trace of a driver operation run against a script, whether or not the
operation returns before the script ends. -/
def DriverOp.trace (k : Consts) : DriverOp → List Nat → List BusOp
  | DriverOp.virtualWriteRegister a d, s => (AS7265x.virtualWriteRegister k a d s).trace
  | DriverOp.virtualReadRegister a, s => (AS7265x.virtualReadRegister k a s).trace
  | DriverOp.selectDevice d, s => (AS7265x.selectDevice k d s).trace
  | DriverOp.getChannel r d, s => (AS7265x.getChannel k r d s).trace
  | DriverOp.getCalibratedValue r d, s => (AS7265x.getCalibratedValue k r d s).trace
  | DriverOp.getRaw c, s => (c.getRaw k s).trace
  | DriverOp.getCalibrated c, s => (c.getCalibrated k s).trace

/-! ## Polling -/

/-- The trace of unsuccessful turns of the polling loop, one turn per byte of
`busy`: the STATUS read that returns the byte, then the delay. -/
def busyPolls (k : Consts) : List Nat → List BusOp
  | [] => []
  | x :: t => BusOp.read k.AS7265X_STATUS_REG (x % 256)
      :: BusOp.delay k.AS7265X_POLLING_DELAY :: busyPolls k t

/-- The delays of a trace, in milliseconds, in order. -/
def delaysOf : List BusOp → List Nat
  | [] => []
  | BusOp.delay ms :: t => ms :: delaysOf t
  | _ :: t => delaysOf t

/-- The bytes a device must answer for one wait on TX_VALID to end: `busy`, all
with TX_VALID set, then `b` with TX_VALID clear. -/
def TxWait (k : Consts) (busy : List Nat) (b : Nat) : Prop :=
  (∀ x ∈ busy, txClear k (x % 256) = false) ∧ txClear k (b % 256) = true

/-- The bytes a device must answer for one wait on RX_VALID to end: `busy`, all
with RX_VALID clear, then `b` with RX_VALID set. -/
def RxWait (k : Consts) (busy : List Nat) (b : Nat) : Prop :=
  (∀ x ∈ busy, rxSet k (x % 256) = false) ∧ rxSet k (b % 256) = true

/-- The READ-register bytes that follow the first STATUS byte `b0` of a virtual
read: one stale byte when `b0` has RX_VALID set, none otherwise. -/
def DrainBytes (k : Consts) (b0 : Nat) (dr : List Nat) : Prop :=
  dr.length = if rxSet k (b0 % 256) = true then 1 else 0

/-- The script of a device that lets one `virtualReadRegister` return: the first
STATUS byte, the stale bytes drained, the bytes of the wait on TX_VALID, the bytes
of the wait on RX_VALID, the answer `v`, and whatever comes after. -/
def readScript (b0 : Nat) (dr busy1 : List Nat) (b1 : Nat) (busy2 : List Nat) (b2 v : Nat)
    (rest : List Nat) : List Nat :=
  b0 :: (dr ++ (busy1 ++ b1 :: (busy2 ++ b2 :: v :: rest)))

/-- The trace of `virtualReadRegister` on `readScript`. -/
def readTrace (k : Consts) (virtualAddr b0 : Nat) (dr busy1 : List Nat) (b1 : Nat)
    (busy2 : List Nat) (b2 v : Nat) : List BusOp :=
  BusOp.read k.AS7265X_STATUS_REG (b0 % 256) ::
    (dr.map (fun d => BusOp.read k.AS7265X_READ_REG (d % 256)) ++
      (busyPolls k busy1 ++
        [BusOp.read k.AS7265X_STATUS_REG (b1 % 256), BusOp.write k.AS7265X_WRITE_REG virtualAddr] ++
        (busyPolls k busy2 ++
          [BusOp.read k.AS7265X_STATUS_REG (b2 % 256), BusOp.read k.AS7265X_READ_REG (v % 256)])))

/-- The script of a device that lets one `virtualWriteRegister` return. -/
def writeScript (busy1 : List Nat) (b1 : Nat) (busy2 : List Nat) (b2 : Nat) (rest : List Nat) :
    List Nat :=
  busy1 ++ b1 :: (busy2 ++ b2 :: rest)

/-- The trace of `virtualWriteRegister` on `writeScript`. -/
def writeTrace (k : Consts) (virtualAddr dataToWrite : Nat) (busy1 : List Nat) (b1 : Nat)
    (busy2 : List Nat) (b2 : Nat) : List BusOp :=
  busyPolls k busy1 ++
    [BusOp.read k.AS7265X_STATUS_REG (b1 % 256),
     BusOp.write k.AS7265X_WRITE_REG ((virtualAddr ||| 1 <<< 7) % 256)] ++
    (busyPolls k busy2 ++
      [BusOp.read k.AS7265X_STATUS_REG (b2 % 256), BusOp.write k.AS7265X_WRITE_REG dataToWrite])

/-- The operation without the byte the device answered: which register is read,
what is written where, how long the delay is. -/
def BusOp.shape : BusOp → BusOp
  | BusOp.read addr _ => BusOp.read addr 0
  | op => op

/-- Two STATUS bytes that agree on TX_VALID and on RX_VALID. -/
def SameFlags (k : Consts) (b b' : Nat) : Prop :=
  txClear k (b % 256) = txClear k (b' % 256) ∧ rxSet k (b % 256) = rxSet k (b' % 256)

/-- The value of `colorData` returned by `getChannel` (lines 142-144) when the two
virtual reads return `high` and `low`. -/
def colorDataOf (high low : Nat) : Nat :=
  ((high <<< 8) % 65536 ||| low) % 65536

/-- The value of `calBytes` passed to `convertBytesToFloat` by `getCalibratedValue`
(lines 159-165) when the four virtual reads return `chan0 .. chan3`. -/
def calBytesOf (chan0 chan1 chan2 chan3 : Nat) : Nat :=
  ((((0 ||| (chan0 <<< (8 * 3)) % 2 ^ 32) ||| (chan1 <<< (8 * 2)) % 2 ^ 32) |||
    (chan2 <<< (8 * 1)) % 2 ^ 32) ||| (chan3 <<< (8 * 0)) % 2 ^ 32)

/-! ## What a run has written so far -/

/-- The writes of the run `r` are an initial part of the list `L`, and all of `L`
when `r` has returned. -/
def WritesWithin {α : Type} (r : Run α) (L : List (Nat × Nat)) : Prop :=
  writesOf r.trace <+: L ∧ ∀ a, r.result = some a → writesOf r.trace = L

/-- The script lets a virtual read get through its preliminary check and its wait
for TX_VALID: a first STATUS byte, the stale byte if any, then STATUS bytes the
last of which has TX_VALID clear. -/
def SendsRequest (k : Consts) (s : List Nat) : Prop :=
  ∃ b0 dr busy1 b1 rest, s = b0 :: (dr ++ (busy1 ++ b1 :: rest)) ∧
    DrainBytes k b0 dr ∧ TxWait k busy1 b1

/-- The script on which the `i`-th virtual read (counted from 0) of
`getChannel(base, device)` or `getCalibratedValue(base, device)` starts: what the
device selection and the `i` virtual reads before it have left, `none` when one
of them has not returned. -/
def scriptAtRead (k : Consts) (base device : Nat) (script : List Nat) : Nat → Option (List Nat)
  | 0 => (selectDevice k device script).result.map fun _ => (selectDevice k device script).rest
  | i + 1 => (scriptAtRead k base device script i).bind fun s =>
      (virtualReadRegister k ((base + i) % 256) s).result.map fun _ =>
        (virtualReadRegister k ((base + i) % 256) s).rest

/-! ## Sequencing -/

theorem Run.bind_of_some {α β : Type} {r : Run α} {a : α} (h : r.result = some a)
    (f : α → List Nat → Run β) :
    r.bind f = ⟨(f a r.rest).result, r.trace ++ (f a r.rest).trace, (f a r.rest).rest⟩ := by
  simp [Run.bind, h]

theorem Run.bind_of_none {α β : Type} {r : Run α} (h : r.result = none)
    (f : α → List Nat → Run β) : r.bind f = ⟨none, r.trace, r.rest⟩ := by
  simp [Run.bind, h]

theorem Run.bind_done {α β : Type} {r : Run α} {f : α → List Nat → Run β} {b : β}
    (h : (r.bind f).result = some b) :
    ∃ a, r.result = some a ∧ (f a r.rest).result = some b ∧
      (r.bind f).trace = r.trace ++ (f a r.rest).trace ∧ (r.bind f).rest = (f a r.rest).rest := by
  cases hr : r.result with
  | none => simp [Run.bind, hr] at h
  | some a =>
    refine ⟨a, rfl, ?_, ?_, ?_⟩ <;> simp_all [Run.bind]

theorem Run.bind_assoc {α β γ : Type} (r : Run α) (f : α → List Nat → Run β)
    (g : β → List Nat → Run γ) :
    (r.bind f).bind g = r.bind fun a s => (f a s).bind g := by
  cases hr : r.result with
  | none => simp [Run.bind, hr]
  | some a =>
    cases hf : (f a r.rest).result with
    | none => simp [Run.bind, hr, hf]
    | some b => simp [Run.bind, hr, hf]

theorem framed_bind {α β : Type} {f : List Nat → Run α} {g : α → List Nat → Run β}
    (hf : Framed f) (hg : ∀ a, Framed (g a)) : Framed fun s => (f s).bind g := by
  intro s u b h
  obtain ⟨a, ha, hb, -, -⟩ := Run.bind_done h
  have h1 := hf s u a ha
  have h2 := hg a (f s).rest u b hb
  simp only [h1, Run.extend, Run.bind, ha, h2]

theorem framed_pure {α : Type} (a : α) : Framed (Run.pure a) := by
  intro s u b _
  simp [Run.pure, Run.extend]

theorem framed_readRegister (addr : Nat) : Framed (readRegister addr) := by
  intro s u a h
  cases s with
  | nil => simp [readRegister] at h
  | cons b rest => simp [readRegister, Run.extend]

theorem framed_writeRegister (addr val : Nat) : Framed (writeRegister addr val) := by
  intro s u a _
  simp [writeRegister, Run.extend]

/-- One turn of the polling loop, written with the bus primitives. -/
theorem pollStatus_cons (k : Consts) (ready : Nat → Bool) (b : Nat) (rest : List Nat) :
    pollStatus k ready (b :: rest) =
      (readRegister k.AS7265X_STATUS_REG (b :: rest)).bind fun status s1 =>
        if ready status then Run.pure () s1
        else (systickDelayMs k.AS7265X_POLLING_DELAY s1).bind fun _ s2 => pollStatus k ready s2 := by
  by_cases h : ready (b % 256) = true <;>
    simp [pollStatus, readRegister, systickDelayMs, Run.bind, Run.pure, h]

theorem framed_pollStatus (k : Consts) (ready : Nat → Bool) : Framed (pollStatus k ready) := by
  intro s u a h
  induction s with
  | nil => simp [pollStatus] at h
  | cons b rest ih =>
    by_cases hb : ready (b % 256) = true
    · simp [pollStatus, hb, Run.extend]
    · simp only [pollStatus, hb] at h
      simp [pollStatus, hb, Run.extend, ih h]

theorem virtualWriteRegister_eq (k : Consts) (virtualAddr dataToWrite : Nat) (script : List Nat) :
    virtualWriteRegister k virtualAddr dataToWrite script =
      (waitThenWrite k ((virtualAddr ||| 1 <<< 7) % 256) script).bind fun _ s =>
        waitThenWrite k dataToWrite s := by
  simp only [virtualWriteRegister, waitThenWrite, Run.bind_assoc]

theorem virtualReadRegister_eq (k : Consts) (virtualAddr : Nat) (script : List Nat) :
    virtualReadRegister k virtualAddr script =
      (drainStale k script).bind fun _ s2 =>
        (waitThenWrite k virtualAddr s2).bind fun _ s4 => waitThenRead k s4 := by
  simp only [virtualReadRegister, drainStale, waitThenWrite, waitThenRead, Run.bind_assoc]

theorem writesOf_append (t1 t2 : List BusOp) : writesOf (t1 ++ t2) = writesOf t1 ++ writesOf t2 := by
  induction t1 with
  | nil => rfl
  | cons op t ih => cases op <;> simp [writesOf, ih]

theorem readsFrom_append (addr : Nat) (t1 t2 : List BusOp) :
    readsFrom addr (t1 ++ t2) = readsFrom addr t1 ++ readsFrom addr t2 := by
  induction t1 with
  | nil => rfl
  | cons op t ih =>
    cases op with
    | read a v => by_cases h : a = addr <;> simp [readsFrom, ih, h]
    | write a v => simp [readsFrom, ih]
    | delay ms => simp [readsFrom, ih]

theorem PollOnly.nil (k : Consts) : PollOnly k [] := by
  intro op h; simp at h

theorem PollOnly.writesOf {k : Consts} {tr : List BusOp} (h : PollOnly k tr) : writesOf tr = [] := by
  induction tr with
  | nil => rfl
  | cons op t ih =>
    have ht : PollOnly k t := fun o ho => h o (List.mem_cons_of_mem _ ho)
    rcases h op (List.mem_cons_self _ _) with ⟨s, rfl⟩ | rfl <;> simp [AS7265x.writesOf, ih ht]

theorem PollOnly.readsFrom {k : Consts} {tr : List BusOp} (h : PollOnly k tr)
    (hk : k.AS7265X_STATUS_REG ≠ k.AS7265X_READ_REG) : readsFrom k.AS7265X_READ_REG tr = [] := by
  induction tr with
  | nil => rfl
  | cons op t ih =>
    have ht : PollOnly k t := fun o ho => h o (List.mem_cons_of_mem _ ho)
    rcases h op (List.mem_cons_self _ _) with ⟨s, rfl⟩ | rfl <;> simp [AS7265x.readsFrom, ih ht, hk]

theorem PollOnly.handshake {k : Consts} {tr : List BusOp} (h : PollOnly k tr) : Handshake k tr := by
  induction tr with
  | nil => exact Handshake.nil
  | cons op t ih =>
    have ht : PollOnly k t := fun o ho => h o (List.mem_cons_of_mem _ ho)
    rcases h op (List.mem_cons_self _ _) with ⟨s, rfl⟩ | rfl
    · exact Handshake.status s t (ih ht)
    · exact Handshake.delay _ t (ih ht)

theorem Handshake.append {k : Consts} {t1 t2 : List BusOp} (h1 : Handshake k t1)
    (h2 : Handshake k t2) : Handshake k (t1 ++ t2) := by
  induction h1 with
  | nil => simpa using h2
  | status s t _ ih => exact Handshake.status s _ ih
  | delay ms t _ ih => exact Handshake.delay ms _ ih
  | write s v t hs _ ih => exact Handshake.write s v _ hs ih
  | read s v t hs _ ih => exact Handshake.read s v _ hs ih

theorem Handshake.bind {k : Consts} {α β : Type} {r : Run α} {f : α → List Nat → Run β}
    (hr : Handshake k r.trace) (hf : ∀ a s, Handshake k (f a s).trace) :
    Handshake k (r.bind f).trace := by
  cases h : r.result with
  | none => simpa [Run.bind, h] using hr
  | some a => simpa [Run.bind, h] using hr.append (hf a r.rest)

theorem Handshake.writeGated {k : Consts} {tr : List BusOp} (h : Handshake k tr) :
    WriteGated k tr := by
  induction h with
  | nil => intro i a v hi; simp at hi
  | status s t _ ih =>
    intro i a v hi
    cases i with
    | zero => simp at hi
    | succ j =>
      obtain ⟨ha, s', hj, hp, hs⟩ := ih j a v (by simpa using hi)
      refine ⟨ha, s', Nat.succ_pos _, ?_, hs⟩
      obtain ⟨j', rfl⟩ := Nat.exists_eq_succ_of_ne_zero (Nat.pos_iff_ne_zero.mp hj)
      simpa using hp
  | delay ms t _ ih =>
    intro i a v hi
    cases i with
    | zero => simp at hi
    | succ j =>
      obtain ⟨ha, s', hj, hp, hs⟩ := ih j a v (by simpa using hi)
      refine ⟨ha, s', Nat.succ_pos _, ?_, hs⟩
      obtain ⟨j', rfl⟩ := Nat.exists_eq_succ_of_ne_zero (Nat.pos_iff_ne_zero.mp hj)
      simpa using hp
  | write s w t hs _ ih =>
    intro i a v hi
    match i with
    | 0 => simp at hi
    | 1 =>
      simp at hi
      exact ⟨hi.1.symm, s, Nat.one_pos, by simp, hs⟩
    | j + 2 =>
      obtain ⟨ha, s', hj, hp, hs'⟩ := ih j a v (by simpa using hi)
      refine ⟨ha, s', Nat.succ_pos _, ?_, hs'⟩
      obtain ⟨j', rfl⟩ := Nat.exists_eq_succ_of_ne_zero (Nat.pos_iff_ne_zero.mp hj)
      simpa using hp
  | read s w t hs _ ih =>
    intro i a v hi
    match i with
    | 0 => simp at hi
    | 1 => simp at hi
    | j + 2 =>
      obtain ⟨ha, s', hj, hp, hs'⟩ := ih j a v (by simpa using hi)
      refine ⟨ha, s', Nat.succ_pos _, ?_, hs'⟩
      obtain ⟨j', rfl⟩ := Nat.exists_eq_succ_of_ne_zero (Nat.pos_iff_ne_zero.mp hj)
      simpa using hp

theorem Handshake.readGated {k : Consts} {tr : List BusOp} (h : Handshake k tr)
    (hk : k.AS7265X_STATUS_REG ≠ k.AS7265X_READ_REG) : ReadGated k tr := by
  induction h with
  | nil => intro i v hi; simp at hi
  | status s t _ ih =>
    intro i v hi
    cases i with
    | zero => simp at hi; exact absurd hi.1 hk
    | succ j =>
      obtain ⟨s', hj, hp, hs⟩ := ih j v (by simpa using hi)
      refine ⟨s', Nat.succ_pos _, ?_, hs⟩
      obtain ⟨j', rfl⟩ := Nat.exists_eq_succ_of_ne_zero (Nat.pos_iff_ne_zero.mp hj)
      simpa using hp
  | delay ms t _ ih =>
    intro i v hi
    cases i with
    | zero => simp at hi
    | succ j =>
      obtain ⟨s', hj, hp, hs⟩ := ih j v (by simpa using hi)
      refine ⟨s', Nat.succ_pos _, ?_, hs⟩
      obtain ⟨j', rfl⟩ := Nat.exists_eq_succ_of_ne_zero (Nat.pos_iff_ne_zero.mp hj)
      simpa using hp
  | write s w t hs _ ih =>
    intro i v hi
    match i with
    | 0 => simp at hi; exact absurd hi.1 hk
    | 1 => simp at hi
    | j + 2 =>
      obtain ⟨s', hj, hp, hs'⟩ := ih j v (by simpa using hi)
      refine ⟨s', Nat.succ_pos _, ?_, hs'⟩
      obtain ⟨j', rfl⟩ := Nat.exists_eq_succ_of_ne_zero (Nat.pos_iff_ne_zero.mp hj)
      simpa using hp
  | read s w t hs _ ih =>
    intro i v hi
    match i with
    | 0 => simp at hi; exact absurd hi.1 hk
    | 1 => exact ⟨s, Nat.one_pos, by simp, hs⟩
    | j + 2 =>
      obtain ⟨s', hj, hp, hs'⟩ := ih j v (by simpa using hi)
      refine ⟨s', Nat.succ_pos _, ?_, hs'⟩
      obtain ⟨j', rfl⟩ := Nat.exists_eq_succ_of_ne_zero (Nat.pos_iff_ne_zero.mp hj)
      simpa using hp


theorem pollStatus_pollOnly (k : Consts) (ready : Nat → Bool) (s : List Nat) :
    PollOnly k (pollStatus k ready s).trace := by
  induction s with
  | nil => simpa [pollStatus] using PollOnly.nil k
  | cons b rest ih =>
    intro op hop
    by_cases hb : ready (b % 256) = true
    · simp [pollStatus, hb] at hop
      exact Or.inl ⟨_, hop⟩
    · simp only [pollStatus, hb] at hop
      rcases List.mem_cons.mp hop with rfl | hop
      · exact Or.inl ⟨_, rfl⟩
      · rcases List.mem_cons.mp hop with rfl | hop
        · exact Or.inr rfl
        · exact ih op hop

theorem pollStatus_done {k : Consts} {ready : Nat → Bool} {s : List Nat}
    (h : (pollStatus k ready s).result = some ()) :
    ∃ polls st, (pollStatus k ready s).trace = polls ++ [BusOp.read k.AS7265X_STATUS_REG st] ∧
      ready st = true ∧ PollOnly k polls := by
  induction s with
  | nil => simp [pollStatus] at h
  | cons b rest ih =>
    by_cases hb : ready (b % 256) = true
    · exact ⟨[], b % 256, by simp [pollStatus, hb], hb, PollOnly.nil k⟩
    · simp only [pollStatus, hb] at h
      obtain ⟨polls, st, ht, hst, hp⟩ := ih h
      refine ⟨BusOp.read k.AS7265X_STATUS_REG (b % 256)
        :: BusOp.delay k.AS7265X_POLLING_DELAY :: polls, st, by simp [pollStatus, hb, ht], hst, ?_⟩
      intro op hop
      rcases List.mem_cons.mp hop with rfl | hop
      · exact Or.inl ⟨_, rfl⟩
      · rcases List.mem_cons.mp hop with rfl | hop
        · exact Or.inr rfl
        · exact hp op hop

theorem waitThenWrite_done {k : Consts} {val : Nat} {s : List Nat}
    (h : (waitThenWrite k val s).result = some ()) :
    ∃ polls st, (waitThenWrite k val s).trace =
        polls ++ [BusOp.read k.AS7265X_STATUS_REG st, BusOp.write k.AS7265X_WRITE_REG val] ∧
      txClear k st = true ∧ PollOnly k polls := by
  obtain ⟨_, hp, -, ht, -⟩ := Run.bind_done h
  obtain ⟨polls, st, hpt, hst, hpo⟩ := pollStatus_done hp
  exact ⟨polls, st, by rw [waitThenWrite, ht, hpt]; simp [writeRegister], hst, hpo⟩

theorem waitThenRead_done {k : Consts} {v : Nat} {s : List Nat}
    (h : (waitThenRead k s).result = some v) :
    ∃ polls st, (waitThenRead k s).trace =
        polls ++ [BusOp.read k.AS7265X_STATUS_REG st, BusOp.read k.AS7265X_READ_REG v] ∧
      rxSet k st = true ∧ PollOnly k polls ∧ v < 256 := by
  obtain ⟨_, hp, hr, ht, -⟩ := Run.bind_done h
  obtain ⟨polls, st, hpt, hst, hpo⟩ := pollStatus_done hp
  cases hrest : (pollStatus k (rxSet k) s).rest with
  | nil => simp [hrest, readRegister] at hr
  | cons b rest =>
    simp only [hrest, readRegister, Option.some.injEq] at hr
    refine ⟨polls, st, ?_, hst, hpo, ?_⟩
    · rw [waitThenRead, ht, hpt, hrest]; simp [readRegister, hr]
    · omega

theorem waitThenWrite_handshake (k : Consts) (val : Nat) (s : List Nat) :
    Handshake k (waitThenWrite k val s).trace := by
  cases h : (waitThenWrite k val s).result with
  | none =>
    cases hp : (pollStatus k (txClear k) s).result with
    | none =>
      rw [waitThenWrite, Run.bind_of_none hp]
      exact (pollStatus_pollOnly k _ s).handshake
    | some u => simp [waitThenWrite, Run.bind, hp, writeRegister] at h
  | some u =>
    obtain ⟨polls, st, ht, hst, hpo⟩ := waitThenWrite_done h
    rw [ht]
    exact hpo.handshake.append (Handshake.write st val [] hst Handshake.nil)

theorem waitThenRead_handshake (k : Consts) (s : List Nat) :
    Handshake k (waitThenRead k s).trace := by
  cases h : (waitThenRead k s).result with
  | none =>
    cases hp : (pollStatus k (rxSet k) s).result with
    | none =>
      rw [waitThenRead, Run.bind_of_none hp]
      exact (pollStatus_pollOnly k _ s).handshake
    | some u =>
      cases hrest : (pollStatus k (rxSet k) s).rest with
      | nil =>
        rw [waitThenRead, Run.bind_of_some hp, hrest]
        simpa [readRegister] using (pollStatus_pollOnly k _ s).handshake
      | cons b rest => simp [waitThenRead, Run.bind, hp, hrest, readRegister] at h
  | some v =>
    obtain ⟨polls, st, ht, hst, hpo, -⟩ := waitThenRead_done h
    rw [ht]
    exact hpo.handshake.append (Handshake.read st v [] hst Handshake.nil)

theorem lor_128_of_lt {a : Nat} (h : a < 128) : a ||| 128 = a + 128 := by
  have : ∀ b < 128, b ||| 128 = b + 128 := by decide
  exact this a h

theorem virtualWriteRegister_handshake (k : Consts) (virtualAddr dataToWrite : Nat)
    (script : List Nat) : Handshake k (virtualWriteRegister k virtualAddr dataToWrite script).trace := by
  rw [virtualWriteRegister_eq]
  exact Handshake.bind (waitThenWrite_handshake k _ _) fun _ s => waitThenWrite_handshake k _ s

theorem virtualWriteRegister_done {k : Consts} {virtualAddr dataToWrite : Nat} {script : List Nat}
    (h : (virtualWriteRegister k virtualAddr dataToWrite script).result = some ()) :
    ∃ p1 s1 p2 s2, (virtualWriteRegister k virtualAddr dataToWrite script).trace =
        p1 ++ [BusOp.read k.AS7265X_STATUS_REG s1,
                BusOp.write k.AS7265X_WRITE_REG ((virtualAddr ||| 1 <<< 7) % 256)] ++
          (p2 ++ [BusOp.read k.AS7265X_STATUS_REG s2,
                   BusOp.write k.AS7265X_WRITE_REG dataToWrite]) ∧
      PollOnly k p1 ∧ txClear k s1 = true ∧ PollOnly k p2 ∧ txClear k s2 = true := by
  rw [virtualWriteRegister_eq] at h ⊢
  obtain ⟨_, h1, h2, ht, -⟩ := Run.bind_done h
  obtain ⟨p1, s1, ht1, hs1, hp1⟩ := waitThenWrite_done h1
  obtain ⟨p2, s2, ht2, hs2, hp2⟩ := waitThenWrite_done h2
  exact ⟨p1, s1, p2, s2, by rw [ht, ht1, ht2], hp1, hs1, hp2, hs2⟩

/-- C1: for a virtual address in [0,127], a run of `virtualWriteRegister` that
returns has performed exactly two writes, both to the WRITE register: first
`virtualAddr | 0x80`, which is `virtualAddr + 128`, then the data byte unchanged.
The trace is a first wait (STATUS reads and delays only), a STATUS read with
TX_VALID clear, the first write, a second wait, a STATUS read with TX_VALID clear,
the second write; so each write comes right after a STATUS read with TX_VALID
clear, and the READ register is never read. -/
theorem virtualWriteRegister_two_gated_writes (k : Consts) (virtualAddr dataToWrite : Nat)
    (script : List Nat) (hk : k.AS7265X_STATUS_REG ≠ k.AS7265X_READ_REG)
    (haddr : virtualAddr < 128)
    (hterm : (virtualWriteRegister k virtualAddr dataToWrite script).result = some ()) :
    virtualAddr ||| 0x80 = virtualAddr + 128 ∧
    writesOf (virtualWriteRegister k virtualAddr dataToWrite script).trace =
      [(k.AS7265X_WRITE_REG, virtualAddr ||| 0x80), (k.AS7265X_WRITE_REG, dataToWrite)] ∧
    (∃ p1 s1 p2 s2, (virtualWriteRegister k virtualAddr dataToWrite script).trace =
        p1 ++ [BusOp.read k.AS7265X_STATUS_REG s1,
                BusOp.write k.AS7265X_WRITE_REG (virtualAddr ||| 0x80)] ++
          (p2 ++ [BusOp.read k.AS7265X_STATUS_REG s2,
                   BusOp.write k.AS7265X_WRITE_REG dataToWrite]) ∧
      PollOnly k p1 ∧ txClear k s1 = true ∧ PollOnly k p2 ∧ txClear k s2 = true) ∧
    WriteGated k (virtualWriteRegister k virtualAddr dataToWrite script).trace ∧
    readsFrom k.AS7265X_READ_REG (virtualWriteRegister k virtualAddr dataToWrite script).trace = [] := by
  have hor : virtualAddr ||| 0x80 = virtualAddr + 128 := lor_128_of_lt haddr
  have hbyte : (virtualAddr ||| 1 <<< 7) % 256 = virtualAddr ||| 0x80 := by
    have h7 : (1 <<< 7 : Nat) = 128 := by decide
    rw [h7, hor]; omega
  obtain ⟨p1, s1, p2, s2, ht, hp1, hs1, hp2, hs2⟩ := virtualWriteRegister_done hterm
  rw [hbyte] at ht
  refine ⟨hor, ?_, ⟨p1, s1, p2, s2, ht, hp1, hs1, hp2, hs2⟩,
    (virtualWriteRegister_handshake k _ _ _).writeGated, ?_⟩
  · rw [ht]
    simp [writesOf_append, hp1.writesOf, hp2.writesOf, writesOf]
  · rw [ht]
    simp [readsFrom_append, hp1.readsFrom hk, hp2.readsFrom hk, readsFrom, hk]

/-- The statement of C1 on a device that is busy twice before the address byte
and once before the data byte. -/
theorem virtualWriteRegister_two_gated_writes_witness :
    (virtualWriteRegister sampleConsts 0x4F 2 [2, 2, 0, 2, 0]).result = some () ∧
    (0x4F ||| 0x80 = 0x4F + 128 ∧
    writesOf (virtualWriteRegister sampleConsts 0x4F 2 [2, 2, 0, 2, 0]).trace =
      [(sampleConsts.AS7265X_WRITE_REG, 0x4F ||| 0x80), (sampleConsts.AS7265X_WRITE_REG, 2)] ∧
    (∃ p1 s1 p2 s2, (virtualWriteRegister sampleConsts 0x4F 2 [2, 2, 0, 2, 0]).trace =
        p1 ++ [BusOp.read sampleConsts.AS7265X_STATUS_REG s1,
                BusOp.write sampleConsts.AS7265X_WRITE_REG (0x4F ||| 0x80)] ++
          (p2 ++ [BusOp.read sampleConsts.AS7265X_STATUS_REG s2,
                   BusOp.write sampleConsts.AS7265X_WRITE_REG 2]) ∧
      PollOnly sampleConsts p1 ∧ txClear sampleConsts s1 = true ∧
      PollOnly sampleConsts p2 ∧ txClear sampleConsts s2 = true) ∧
    WriteGated sampleConsts (virtualWriteRegister sampleConsts 0x4F 2 [2, 2, 0, 2, 0]).trace ∧
    readsFrom sampleConsts.AS7265X_READ_REG
      (virtualWriteRegister sampleConsts 0x4F 2 [2, 2, 0, 2, 0]).trace = []) :=
  ⟨by decide, virtualWriteRegister_two_gated_writes sampleConsts 0x4F 2 [2, 2, 0, 2, 0]
    (by decide) (by decide) (by decide)⟩


theorem drainStale_of_rxSet {k : Consts} {b : Nat} (d : Nat) (rest : List Nat)
    (h : rxSet k (b % 256) = true) :
    drainStale k (b :: d :: rest) =
      ⟨some (), [BusOp.read k.AS7265X_STATUS_REG (b % 256),
                  BusOp.read k.AS7265X_READ_REG (d % 256)], rest⟩ := by
  have h' : b % 256 &&& k.AS7265X_RX_VALID ≠ 0 := by simpa [rxSet] using h
  simp [drainStale, readRegister, Run.bind, Run.pure, h']

theorem drainStale_of_rxClear {k : Consts} {b : Nat} (rest : List Nat)
    (h : rxSet k (b % 256) = false) :
    drainStale k (b :: rest) =
      ⟨some (), [BusOp.read k.AS7265X_STATUS_REG (b % 256)], rest⟩ := by
  have h' : b % 256 &&& k.AS7265X_RX_VALID = 0 := by simpa [rxSet] using h
  simp [drainStale, readRegister, Run.bind, Run.pure, h']

theorem drainStale_handshake (k : Consts) (s : List Nat) : Handshake k (drainStale k s).trace := by
  cases s with
  | nil => simpa [drainStale, readRegister, Run.bind] using Handshake.nil
  | cons b rest =>
    cases h : rxSet k (b % 256) with
    | false =>
      rw [drainStale_of_rxClear rest h]
      exact Handshake.status _ _ Handshake.nil
    | true =>
      cases rest with
      | nil =>
        have h' : b % 256 &&& k.AS7265X_RX_VALID ≠ 0 := by simpa [rxSet] using h
        simpa [drainStale, readRegister, Run.bind, h'] using
          Handshake.status (b % 256) [] Handshake.nil
      | cons d rest =>
        rw [drainStale_of_rxSet d rest h]
        exact Handshake.read _ _ _ h Handshake.nil

theorem drainStale_writesOf (k : Consts) (s : List Nat) : writesOf (drainStale k s).trace = [] := by
  cases s with
  | nil => simp [drainStale, readRegister, Run.bind, writesOf]
  | cons b rest =>
    cases h : rxSet k (b % 256) with
    | false => rw [drainStale_of_rxClear rest h]; rfl
    | true =>
      cases rest with
      | nil =>
        have h' : b % 256 &&& k.AS7265X_RX_VALID ≠ 0 := by simpa [rxSet] using h
        simp [drainStale, readRegister, Run.bind, h', writesOf]
      | cons d rest => rw [drainStale_of_rxSet d rest h]; rfl

theorem virtualReadRegister_handshake (k : Consts) (virtualAddr : Nat) (script : List Nat) :
    Handshake k (virtualReadRegister k virtualAddr script).trace := by
  rw [virtualReadRegister_eq]
  exact Handshake.bind (drainStale_handshake k _) fun _ s =>
    Handshake.bind (waitThenWrite_handshake k _ s) fun _ s' => waitThenRead_handshake k s'

theorem virtualReadRegister_done {k : Consts} {virtualAddr v : Nat} {script : List Nat}
    (h : (virtualReadRegister k virtualAddr script).result = some v) :
    ∃ pre post st, (virtualReadRegister k virtualAddr script).trace =
        pre ++ BusOp.write k.AS7265X_WRITE_REG virtualAddr ::
          (post ++ [BusOp.read k.AS7265X_STATUS_REG st, BusOp.read k.AS7265X_READ_REG v]) ∧
      writesOf pre = [] ∧ PollOnly k post ∧ rxSet k st = true ∧ v < 256 := by
  rw [virtualReadRegister_eq] at h ⊢
  obtain ⟨_, -, h1, ht1, -⟩ := Run.bind_done h
  obtain ⟨_, h2, h3, ht2, -⟩ := Run.bind_done h1
  obtain ⟨p1, s1, hw, -, hp1⟩ := waitThenWrite_done h2
  obtain ⟨p2, st, hr, hst, hp2, hv⟩ := waitThenRead_done h3
  refine ⟨(drainStale k script).trace ++ (p1 ++ [BusOp.read k.AS7265X_STATUS_REG s1]), p2, st,
    ?_, ?_, hp2, hst, hv⟩
  · rw [ht1, ht2, hw, hr]; simp
  · simp [writesOf_append, drainStale_writesOf, hp1.writesOf, writesOf]

/-- C2: a run of `virtualReadRegister` that returns `v` has performed exactly one
write, of `virtualAddr` to the WRITE register.  What follows that write is a wait
(STATUS reads and delays only), a STATUS read with RX_VALID set, and one read of
the READ register, which is the last operation of the call and yields `v`; no
other read of the READ register follows the write. -/
theorem virtualReadRegister_one_write_one_read (k : Consts) (virtualAddr v : Nat)
    (script : List Nat) (hk : k.AS7265X_STATUS_REG ≠ k.AS7265X_READ_REG)
    (hterm : (virtualReadRegister k virtualAddr script).result = some v) :
    writesOf (virtualReadRegister k virtualAddr script).trace =
      [(k.AS7265X_WRITE_REG, virtualAddr)] ∧
    (∃ pre post st, (virtualReadRegister k virtualAddr script).trace =
        pre ++ BusOp.write k.AS7265X_WRITE_REG virtualAddr ::
          (post ++ [BusOp.read k.AS7265X_STATUS_REG st, BusOp.read k.AS7265X_READ_REG v]) ∧
      writesOf pre = [] ∧ PollOnly k post ∧ rxSet k st = true ∧
      readsFrom k.AS7265X_READ_REG
        (post ++ [BusOp.read k.AS7265X_STATUS_REG st, BusOp.read k.AS7265X_READ_REG v]) = [v]) ∧
    (virtualReadRegister k virtualAddr script).trace.getLast? =
      some (BusOp.read k.AS7265X_READ_REG v) := by
  obtain ⟨pre, post, st, ht, hpre, hpost, hst, -⟩ := virtualReadRegister_done hterm
  refine ⟨?_, ⟨pre, post, st, ht, hpre, hpost, hst, ?_⟩, ?_⟩
  · rw [ht]
    simp [writesOf_append, hpre, hpost.writesOf, writesOf]
  · simp [readsFrom_append, hpost.readsFrom hk, readsFrom, hk]
  · have hlast : (virtualReadRegister k virtualAddr script).trace =
        (pre ++ BusOp.write k.AS7265X_WRITE_REG virtualAddr ::
          (post ++ [BusOp.read k.AS7265X_STATUS_REG st])) ++
          [BusOp.read k.AS7265X_READ_REG v] := by
      rw [ht]; simp
    rw [hlast, List.getLast?_append]
    rfl

/-- The statement of C2 on a device holding a stale byte, busy once before the
address byte and once before the answer. -/
theorem virtualReadRegister_one_write_one_read_witness :
    (virtualReadRegister sampleConsts 0x08 [3, 0xAA, 2, 0, 0, 1, 0x12]).result = some 0x12 ∧
    (writesOf (virtualReadRegister sampleConsts 0x08 [3, 0xAA, 2, 0, 0, 1, 0x12]).trace =
      [(sampleConsts.AS7265X_WRITE_REG, 0x08)] ∧
    (∃ pre post st, (virtualReadRegister sampleConsts 0x08 [3, 0xAA, 2, 0, 0, 1, 0x12]).trace =
        pre ++ BusOp.write sampleConsts.AS7265X_WRITE_REG 0x08 ::
          (post ++ [BusOp.read sampleConsts.AS7265X_STATUS_REG st,
                     BusOp.read sampleConsts.AS7265X_READ_REG 0x12]) ∧
      writesOf pre = [] ∧ PollOnly sampleConsts post ∧ rxSet sampleConsts st = true ∧
      readsFrom sampleConsts.AS7265X_READ_REG
        (post ++ [BusOp.read sampleConsts.AS7265X_STATUS_REG st,
                   BusOp.read sampleConsts.AS7265X_READ_REG 0x12]) = [0x12]) ∧
    (virtualReadRegister sampleConsts 0x08 [3, 0xAA, 2, 0, 0, 1, 0x12]).trace.getLast? =
      some (BusOp.read sampleConsts.AS7265X_READ_REG 0x12)) :=
  ⟨by decide, virtualReadRegister_one_write_one_read sampleConsts 0x08 0x12
    [3, 0xAA, 2, 0, 0, 1, 0x12] (by decide) (by decide)⟩

theorem compose16 {high low : Nat} (hh : high < 256) (hl : low < 256) :
    ((high <<< 8) % 65536 ||| low) % 65536 = 256 * high + low ∧
    high <<< 8 ||| low = 256 * high + low := by
  have h1 : high <<< 8 = 2 ^ 8 * high := by rw [Nat.shiftLeft_eq, Nat.mul_comm]
  have h2 : 2 ^ 8 * high ||| low = 2 ^ 8 * high + low :=
    (Nat.mul_add_lt_is_or (by simpa using hl) high).symm
  have h3 : 2 ^ 8 * high % 65536 = 2 ^ 8 * high := Nat.mod_eq_of_lt (by omega)
  have h4 : (2 ^ 8 * high + low) % 65536 = 2 ^ 8 * high + low := Nat.mod_eq_of_lt (by omega)
  rw [h1, h3, h2, h4]
  constructor <;> omega

theorem compose32 {chan0 chan1 chan2 chan3 : Nat} (h0 : chan0 < 256) (h1 : chan1 < 256)
    (h2 : chan2 < 256) (h3 : chan3 < 256) :
    ((((0 ||| (chan0 <<< (8 * 3)) % 2 ^ 32) ||| (chan1 <<< (8 * 2)) % 2 ^ 32) |||
      (chan2 <<< (8 * 1)) % 2 ^ 32) ||| (chan3 <<< (8 * 0)) % 2 ^ 32) % 2 ^ 32 =
      chan0 * 2 ^ 24 + chan1 * 2 ^ 16 + chan2 * 2 ^ 8 + chan3 := by
  have e0 : (chan0 <<< (8 * 3)) % 2 ^ 32 = 2 ^ 24 * chan0 := by
    rw [Nat.shiftLeft_eq, Nat.mul_comm]; exact Nat.mod_eq_of_lt (by omega)
  have e1 : (chan1 <<< (8 * 2)) % 2 ^ 32 = 2 ^ 16 * chan1 := by
    rw [Nat.shiftLeft_eq, Nat.mul_comm]; exact Nat.mod_eq_of_lt (by omega)
  have e2 : (chan2 <<< (8 * 1)) % 2 ^ 32 = 2 ^ 8 * chan2 := by
    rw [Nat.shiftLeft_eq, Nat.mul_comm]; exact Nat.mod_eq_of_lt (by omega)
  have e3 : (chan3 <<< (8 * 0)) % 2 ^ 32 = chan3 := by
    rw [Nat.shiftLeft_eq]; simp; omega
  have s1 : 2 ^ 24 * chan0 ||| 2 ^ 16 * chan1 = 2 ^ 16 * (2 ^ 8 * chan0 + chan1) := by
    rw [← Nat.mul_add_lt_is_or (by omega) chan0]; omega
  have s3 : 2 ^ 16 * (2 ^ 8 * chan0 + chan1) ||| 2 ^ 8 * chan2 =
      2 ^ 8 * (2 ^ 16 * chan0 + 2 ^ 8 * chan1 + chan2) := by
    rw [← Nat.mul_add_lt_is_or (by omega) _]; omega
  have s5 : 2 ^ 8 * (2 ^ 16 * chan0 + 2 ^ 8 * chan1 + chan2) ||| chan3 =
      2 ^ 8 * (2 ^ 16 * chan0 + 2 ^ 8 * chan1 + chan2) + chan3 :=
    (Nat.mul_add_lt_is_or (by omega) _).symm
  rw [e0, e1, e2, e3, Nat.zero_or, s1, s3, s5]
  omega


theorem virtualReadRegister_lt {k : Consts} {virtualAddr v : Nat} {s s' : List Nat}
    {tr : List BusOp} (h : virtualReadRegister k virtualAddr s = ⟨some v, tr, s'⟩) :
    v < 256 ∧ writesOf tr = [(k.AS7265X_WRITE_REG, virtualAddr)] := by
  have hres : (virtualReadRegister k virtualAddr s).result = some v := by rw [h]
  obtain ⟨pre, post, st, ht, hpre, hpost, -, hv⟩ := virtualReadRegister_done hres
  refine ⟨hv, ?_⟩
  have htr : tr = (virtualReadRegister k virtualAddr s).trace := by rw [h]
  rw [htr, ht]
  simp [writesOf_append, hpre, hpost.writesOf, writesOf]

theorem selectDevice_writesOf {k : Consts} {device : Nat} {s s' : List Nat} {tr : List BusOp}
    (h : selectDevice k device s = ⟨some (), tr, s'⟩) :
    writesOf tr = [(k.AS7265X_WRITE_REG, (k.AS7265X_DEV_SELECT_CONTROL ||| 1 <<< 7) % 256),
      (k.AS7265X_WRITE_REG, device)] := by
  have hres : (virtualWriteRegister k k.AS7265X_DEV_SELECT_CONTROL device s).result = some () := by
    rw [← selectDevice, h]
  obtain ⟨p1, s1, p2, s2, ht, hp1, -, hp2, -⟩ := virtualWriteRegister_done hres
  have htr : tr = (virtualWriteRegister k k.AS7265X_DEV_SELECT_CONTROL device s).trace := by
    rw [← selectDevice, h]
  rw [htr, ht]
  simp [writesOf_append, hp1.writesOf, hp2.writesOf, writesOf]

/-- C4: when the device answers the virtual read of the base register with `high`
and the next virtual read, of the register after it, with `low`, `getChannel`
returns `(high << 8) | low = 256 * high + low`, a 16-bit value; the writes of the
call are the two of the device selection, then the base register, then the
register after it (the address `channelRegister + 1` as the `uint8_t` the callee
receives).  Bytes `0x12`, `0x34` give `0x1234`. -/
theorem getChannel_composes (k : Consts) (channelRegister device high low : Nat)
    (script s1 s2 s3 : List Nat) (tS tH tL : List BusOp)
    (hsel : selectDevice k device script = ⟨some (), tS, s1⟩)
    (hhigh : virtualReadRegister k channelRegister s1 = ⟨some high, tH, s2⟩)
    (hlow : virtualReadRegister k ((channelRegister + 1) % 256) s2 = ⟨some low, tL, s3⟩) :
    getChannel k channelRegister device script =
      ⟨some (256 * high + low), tS ++ (tH ++ tL), s3⟩ ∧
    high <<< 8 ||| low = 256 * high + low ∧
    256 * high + low < 65536 ∧
    (high = 0x12 → low = 0x34 → 256 * high + low = 0x1234) ∧
    writesOf (tS ++ (tH ++ tL)) =
      [(k.AS7265X_WRITE_REG, (k.AS7265X_DEV_SELECT_CONTROL ||| 1 <<< 7) % 256),
       (k.AS7265X_WRITE_REG, device),
       (k.AS7265X_WRITE_REG, channelRegister),
       (k.AS7265X_WRITE_REG, (channelRegister + 1) % 256)] ∧
    (channelRegister < 255 → (channelRegister + 1) % 256 = channelRegister + 1) := by
  obtain ⟨hh, hwH⟩ := virtualReadRegister_lt hhigh
  obtain ⟨hl, hwL⟩ := virtualReadRegister_lt hlow
  obtain ⟨hc1, hc2⟩ := compose16 hh hl
  refine ⟨?_, hc2, by omega, by omega, ?_, fun h => Nat.mod_eq_of_lt (by omega)⟩
  · simp [getChannel, Run.bind, Run.pure, hsel, hhigh, hlow, hc1]
  · simp [writesOf_append, selectDevice_writesOf hsel, hwH, hwL]

/-- The statement of C4 on a device that answers `0x12` then `0x34`. -/
theorem getChannel_composes_witness :
    getChannel sampleConsts 0x08 2 [0, 0, 0, 0, 1, 0x12, 0, 0, 1, 0x34] =
      ⟨some 0x1234,
        [BusOp.read 0 0, BusOp.write 1 0xCF, BusOp.read 0 0, BusOp.write 1 2] ++
        ([BusOp.read 0 0, BusOp.read 0 0, BusOp.write 1 0x08, BusOp.read 0 1, BusOp.read 2 0x12] ++
         [BusOp.read 0 0, BusOp.read 0 0, BusOp.write 1 0x09, BusOp.read 0 1, BusOp.read 2 0x34]),
        []⟩ :=
  (getChannel_composes sampleConsts 0x08 2 0x12 0x34
    [0, 0, 0, 0, 1, 0x12, 0, 0, 1, 0x34] [0, 0, 1, 0x12, 0, 0, 1, 0x34] [0, 0, 1, 0x34] []
    [BusOp.read 0 0, BusOp.write 1 0xCF, BusOp.read 0 0, BusOp.write 1 2]
    [BusOp.read 0 0, BusOp.read 0 0, BusOp.write 1 0x08, BusOp.read 0 1, BusOp.read 2 0x12]
    [BusOp.read 0 0, BusOp.read 0 0, BusOp.write 1 0x09, BusOp.read 0 1, BusOp.read 2 0x34]
    (by decide) (by decide) (by decide)).1

/-- C5: when the four virtual reads of `calAddress + 0 .. calAddress + 3` are
answered with `b0, b1, b2, b3`, in that order, `getCalibratedValue` returns the
`float` whose storage is the 32-bit word `b0*2^24 + b1*2^16 + b2*2^8 + b3`:
`convertBytesToFloat` copies the word, it converts nothing.  Bytes
`0x3F 0x80 0x00 0x00` give the word `0x3F800000`, which denotes `1.0`. -/
theorem getCalibratedValue_bitcast (k : Consts) (calAddress device b0 b1 b2 b3 : Nat)
    (script s1 s2 s3 s4 s5 : List Nat) (tS t0 t1 t2 t3 : List BusOp)
    (hsel : selectDevice k device script = ⟨some (), tS, s1⟩)
    (h0 : virtualReadRegister k ((calAddress + 0) % 256) s1 = ⟨some b0, t0, s2⟩)
    (h1 : virtualReadRegister k ((calAddress + 1) % 256) s2 = ⟨some b1, t1, s3⟩)
    (h2 : virtualReadRegister k ((calAddress + 2) % 256) s3 = ⟨some b2, t2, s4⟩)
    (h3 : virtualReadRegister k ((calAddress + 3) % 256) s4 = ⟨some b3, t3, s5⟩) :
    getCalibratedValue k calAddress device script =
      ⟨some ⟨b0 * 2 ^ 24 + b1 * 2 ^ 16 + b2 * 2 ^ 8 + b3⟩,
        tS ++ (t0 ++ (t1 ++ (t2 ++ t3))), s5⟩ ∧
    b0 * 2 ^ 24 + b1 * 2 ^ 16 + b2 * 2 ^ 8 + b3 < 2 ^ 32 ∧
    (∀ w, w < 2 ^ 32 → (convertBytesToFloat w).bits = w) ∧
    (b0 = 0x3F → b1 = 0x80 → b2 = 0x00 → b3 = 0x00 →
      b0 * 2 ^ 24 + b1 * 2 ^ 16 + b2 * 2 ^ 8 + b3 = 0x3F800000) ∧
    F32.toRat? ⟨0x3F800000⟩ = some 1 := by
  obtain ⟨hb0, -⟩ := virtualReadRegister_lt h0
  obtain ⟨hb1, -⟩ := virtualReadRegister_lt h1
  obtain ⟨hb2, -⟩ := virtualReadRegister_lt h2
  obtain ⟨hb3, -⟩ := virtualReadRegister_lt h3
  have hc := compose32 hb0 hb1 hb2 hb3
  have hlt : b0 * 2 ^ 24 + b1 * 2 ^ 16 + b2 * 2 ^ 8 + b3 < 2 ^ 32 := by omega
  refine ⟨?_, hlt, fun w hw => by simp only [convertBytesToFloat]; exact Nat.mod_eq_of_lt hw,
    by omega, by norm_num [F32.toRat?]⟩
  simp only [getCalibratedValue, Run.bind, Run.pure, hsel, h0, h1, h2, h3, convertBytesToFloat, hc,
    List.append_nil,
    Nat.mod_eq_of_lt hlt]

/-- The statement of C5 on a device that answers `0x3F 0x80 0x00 0x00`. -/
theorem getCalibratedValue_bitcast_witness :
    (getCalibratedValue sampleConsts 0x14 2
        [0, 0, 0, 0, 1, 0x3F, 0, 0, 1, 0x80, 0, 0, 1, 0, 0, 0, 1, 0]).result =
      some ⟨0x3F * 2 ^ 24 + 0x80 * 2 ^ 16 + 0 * 2 ^ 8 + 0⟩ ∧
    F32.toRat? ⟨0x3F800000⟩ = some 1 :=
  have h := getCalibratedValue_bitcast sampleConsts 0x14 2 0x3F 0x80 0 0
    [0, 0, 0, 0, 1, 0x3F, 0, 0, 1, 0x80, 0, 0, 1, 0, 0, 0, 1, 0]
    [0, 0, 1, 0x3F, 0, 0, 1, 0x80, 0, 0, 1, 0, 0, 0, 1, 0]
    [0, 0, 1, 0x80, 0, 0, 1, 0, 0, 0, 1, 0] [0, 0, 1, 0, 0, 0, 1, 0] [0, 0, 1, 0] []
    [BusOp.read 0 0, BusOp.write 1 0xCF, BusOp.read 0 0, BusOp.write 1 2]
    [BusOp.read 0 0, BusOp.read 0 0, BusOp.write 1 0x14, BusOp.read 0 1, BusOp.read 2 0x3F]
    [BusOp.read 0 0, BusOp.read 0 0, BusOp.write 1 0x15, BusOp.read 0 1, BusOp.read 2 0x80]
    [BusOp.read 0 0, BusOp.read 0 0, BusOp.write 1 0x16, BusOp.read 0 1, BusOp.read 2 0]
    [BusOp.read 0 0, BusOp.read 0 0, BusOp.write 1 0x17, BusOp.read 0 1, BusOp.read 2 0]
    (by decide) (by decide) (by decide) (by decide) (by decide)
  ⟨by rw [h.1], h.2.2.2.2⟩


theorem lor_128_mod {a : Nat} (h : a < 256) : (a ||| 1 <<< 7) % 256 = a ||| 0x80 := by
  have h7 : (1 <<< 7 : Nat) = 0x80 := by decide
  rw [h7]
  exact Nat.mod_eq_of_lt (Nat.or_lt_two_pow (n := 8) h (by decide))

theorem framed_virtualWriteRegister (k : Consts) (virtualAddr dataToWrite : Nat) :
    Framed (virtualWriteRegister k virtualAddr dataToWrite) :=
  framed_bind (framed_pollStatus k _) fun _ =>
    framed_bind (framed_writeRegister _ _) fun _ =>
      framed_bind (framed_pollStatus k _) fun _ => framed_writeRegister _ _

theorem framed_virtualReadRegister (k : Consts) (virtualAddr : Nat) :
    Framed (virtualReadRegister k virtualAddr) := by
  refine framed_bind (framed_readRegister _) fun status => framed_bind ?_ fun _ =>
    framed_bind (framed_pollStatus k _) fun _ =>
      framed_bind (framed_writeRegister _ _) fun _ =>
        framed_bind (framed_pollStatus k _) fun _ => framed_readRegister _
  by_cases h : status &&& k.AS7265X_RX_VALID ≠ 0
  · simp only [if_pos h]
    exact framed_bind (framed_readRegister _) fun _ => framed_pure ()
  · simp only [if_neg h]
    exact framed_pure ()

theorem framed_getChannel (k : Consts) (channelRegister device : Nat) :
    Framed (getChannel k channelRegister device) :=
  framed_bind (framed_virtualWriteRegister k _ _) fun _ =>
    framed_bind (framed_virtualReadRegister k _) fun _ =>
      framed_bind (framed_virtualReadRegister k _) fun _ => framed_pure _

theorem framed_getCalibratedValue (k : Consts) (calAddress device : Nat) :
    Framed (getCalibratedValue k calAddress device) :=
  framed_bind (framed_virtualWriteRegister k _ _) fun _ =>
    framed_bind (framed_virtualReadRegister k _) fun _ =>
      framed_bind (framed_virtualReadRegister k _) fun _ =>
        framed_bind (framed_virtualReadRegister k _) fun _ =>
          framed_bind (framed_virtualReadRegister k _) fun _ => framed_pure _

theorem selectsFirst_of_select {k : Consts} {device : Nat} {script : List Nat}
    (hk : k.AS7265X_STATUS_REG ≠ k.AS7265X_READ_REG)
    (hdev : k.AS7265X_DEV_SELECT_CONTROL < 256)
    (h : (selectDevice k device script).result = some ()) (later : List BusOp) :
    SelectsFirst k device ((selectDevice k device script).trace ++ later) later := by
  obtain ⟨p1, s1, p2, s2, ht, hp1, hs1, hp2, hs2⟩ := virtualWriteRegister_done h
  rw [lor_128_mod hdev] at ht
  refine ⟨p1, s1, p2, s2, ?_, hp1, hs1, hp2, hs2, ?_⟩
  · rw [selectDevice, ht]
  · simp [readsFrom_append, hp1.readsFrom hk, hp2.readsFrom hk, readsFrom, hk]

theorem SelectsFirst.writes {k : Consts} {device : Nat} {tr later : List BusOp}
    (h : SelectsFirst k device tr later) :
    writesOf tr = (k.AS7265X_WRITE_REG, k.AS7265X_DEV_SELECT_CONTROL ||| 0x80) ::
      (k.AS7265X_WRITE_REG, device) :: writesOf later := by
  obtain ⟨p1, s1, p2, s2, ht, hp1, -, hp2, -, -⟩ := h
  rw [ht]
  simp [writesOf_append, hp1.writesOf, hp2.writesOf, writesOf]


theorem virtualReadRegister_writesOf {k : Consts} {virtualAddr v : Nat} {s : List Nat}
    (h : (virtualReadRegister k virtualAddr s).result = some v) :
    writesOf (virtualReadRegister k virtualAddr s).trace = [(k.AS7265X_WRITE_REG, virtualAddr)] := by
  obtain ⟨pre, post, st, ht, hpre, hpost, -, -⟩ := virtualReadRegister_done h
  rw [ht]
  simp [writesOf_append, hpre, hpost.writesOf, writesOf]

theorem getChannel_selects_first {k : Consts} {register X r : Nat} {script : List Nat}
    (hk : k.AS7265X_STATUS_REG ≠ k.AS7265X_READ_REG)
    (hdev : k.AS7265X_DEV_SELECT_CONTROL < 256)
    (h : (getChannel k register X script).result = some r) :
    ∃ later, SelectsFirst k X (getChannel k register X script).trace later ∧
      (writesOf (getChannel k register X script).trace).take 2 =
        [(k.AS7265X_WRITE_REG, k.AS7265X_DEV_SELECT_CONTROL ||| 0x80),
         (k.AS7265X_WRITE_REG, X)] ∧
      writesOf later =
        [(k.AS7265X_WRITE_REG, register), (k.AS7265X_WRITE_REG, (register + 1) % 256)] := by
  unfold getChannel at h ⊢
  obtain ⟨_, hsel, h1, ht, -⟩ := Run.bind_done h
  obtain ⟨hi, hH, h2, ht1, -⟩ := Run.bind_done h1
  obtain ⟨lo, hL, -, ht2, -⟩ := Run.bind_done h2
  have hsf := selectsFirst_of_select hk hdev hsel
  rw [ht]
  refine ⟨_, hsf _, ?_, ?_⟩
  · rw [(hsf _).writes]; rfl
  · rw [ht1, ht2]
    simp [writesOf_append, virtualReadRegister_writesOf hH, virtualReadRegister_writesOf hL,
      Run.pure, writesOf]

theorem getCalibratedValue_selects_first {k : Consts} {register X : Nat} {f : F32}
    {script : List Nat} (hk : k.AS7265X_STATUS_REG ≠ k.AS7265X_READ_REG)
    (hdev : k.AS7265X_DEV_SELECT_CONTROL < 256)
    (h : (getCalibratedValue k register X script).result = some f) :
    ∃ later, SelectsFirst k X (getCalibratedValue k register X script).trace later ∧
      (writesOf (getCalibratedValue k register X script).trace).take 2 =
        [(k.AS7265X_WRITE_REG, k.AS7265X_DEV_SELECT_CONTROL ||| 0x80),
         (k.AS7265X_WRITE_REG, X)] ∧
      writesOf later =
        [(k.AS7265X_WRITE_REG, (register + 0) % 256),
         (k.AS7265X_WRITE_REG, (register + 1) % 256),
         (k.AS7265X_WRITE_REG, (register + 2) % 256),
         (k.AS7265X_WRITE_REG, (register + 3) % 256)] := by
  unfold getCalibratedValue at h ⊢
  obtain ⟨_, hsel, h1, ht, -⟩ := Run.bind_done h
  obtain ⟨c0, hc0, h2, ht1, -⟩ := Run.bind_done h1
  obtain ⟨c1, hc1, h3, ht2, -⟩ := Run.bind_done h2
  obtain ⟨c2, hc2, h4, ht3, -⟩ := Run.bind_done h3
  obtain ⟨c3, hc3, -, ht4, -⟩ := Run.bind_done h4
  have hsf := selectsFirst_of_select hk hdev hsel
  rw [ht]
  refine ⟨_, hsf _, ?_, ?_⟩
  · rw [(hsf _).writes]; rfl
  · rw [ht1, ht2, ht3, ht4]
    simp only [writesOf_append, virtualReadRegister_writesOf hc0,
      virtualReadRegister_writesOf hc1, virtualReadRegister_writesOf hc2,
      virtualReadRegister_writesOf hc3, Run.pure, writesOf]
    rfl

/-- C6: in a run of `getChannel(register, X)` or `getCalibratedValue(register, X)`
that returns, the trace opens with the complete virtual write of `X` to the
device-select register, so the first two writes are
`AS7265X_DEV_SELECT_CONTROL | 0x80` and `X`; no READ-register read and no other
write comes before them, and the read requests (`register`, `register + 1`, ...)
are written after them.  The same holds for a call made right after a call that
selected another device `Y`: nothing of the earlier selection is kept. -/
theorem accessors_select_device_first (k : Consts) (register X : Nat) (script : List Nat)
    (hk : k.AS7265X_STATUS_REG ≠ k.AS7265X_READ_REG)
    (hdev : k.AS7265X_DEV_SELECT_CONTROL < 256) :
    (∀ r, (getChannel k register X script).result = some r →
      ∃ later, SelectsFirst k X (getChannel k register X script).trace later ∧
        (writesOf (getChannel k register X script).trace).take 2 =
          [(k.AS7265X_WRITE_REG, k.AS7265X_DEV_SELECT_CONTROL ||| 0x80),
           (k.AS7265X_WRITE_REG, X)] ∧
        writesOf later =
          [(k.AS7265X_WRITE_REG, register), (k.AS7265X_WRITE_REG, (register + 1) % 256)]) ∧
    (∀ f, (getCalibratedValue k register X script).result = some f →
      ∃ later, SelectsFirst k X (getCalibratedValue k register X script).trace later ∧
        (writesOf (getCalibratedValue k register X script).trace).take 2 =
          [(k.AS7265X_WRITE_REG, k.AS7265X_DEV_SELECT_CONTROL ||| 0x80),
           (k.AS7265X_WRITE_REG, X)] ∧
        writesOf later =
          [(k.AS7265X_WRITE_REG, (register + 0) % 256),
           (k.AS7265X_WRITE_REG, (register + 1) % 256),
           (k.AS7265X_WRITE_REG, (register + 2) % 256),
           (k.AS7265X_WRITE_REG, (register + 3) % 256)]) ∧
    (∀ register0 Y r0 r, (getChannel k register0 Y script).result = some r0 →
      (getChannel k register X (getChannel k register0 Y script).rest).result = some r →
      ∃ later, SelectsFirst k X
        (getChannel k register X (getChannel k register0 Y script).rest).trace later) ∧
    (∀ register0 Y f0 f, (getCalibratedValue k register0 Y script).result = some f0 →
      (getCalibratedValue k register X (getCalibratedValue k register0 Y script).rest).result =
        some f →
      ∃ later, SelectsFirst k X
        (getCalibratedValue k register X
          (getCalibratedValue k register0 Y script).rest).trace later) :=
  ⟨fun _ h => getChannel_selects_first hk hdev h,
   fun _ h => getCalibratedValue_selects_first hk hdev h,
   fun _ _ _ _ _ h => (getChannel_selects_first hk hdev h).imp fun _ hl => hl.1,
   fun _ _ _ _ _ h => (getCalibratedValue_selects_first hk hdev h).imp fun _ hl => hl.1⟩

/-- The statement of C6 for the UV device on short scripts, the second time right
after a call that selected the NIR device. -/
theorem accessors_select_device_first_witness :
    (∃ later, SelectsFirst sampleConsts 2
        (getChannel sampleConsts 0x08 2 [0, 0, 0, 0, 1, 0x12, 0, 0, 1, 0x34]).trace later ∧
      (writesOf (getChannel sampleConsts 0x08 2 [0, 0, 0, 0, 1, 0x12, 0, 0, 1, 0x34]).trace).take 2 =
        [(1, 0x4F ||| 0x80), (1, 2)] ∧
      writesOf later = [(1, 0x08), (1, 0x09)]) ∧
    (∃ later, SelectsFirst sampleConsts 2
        (getCalibratedValue sampleConsts 0x08 2
          [0, 0, 0, 0, 1, 0x12, 0, 0, 1, 0x34, 0, 0, 1, 0x56, 0, 0, 1, 0x78]).trace later ∧
      (writesOf (getCalibratedValue sampleConsts 0x08 2
          [0, 0, 0, 0, 1, 0x12, 0, 0, 1, 0x34, 0, 0, 1, 0x56, 0, 0, 1, 0x78]).trace).take 2 =
        [(1, 0x4F ||| 0x80), (1, 2)] ∧
      writesOf later = [(1, 0x08), (1, 0x09), (1, 0x0A), (1, 0x0B)]) ∧
    (∃ later, SelectsFirst sampleConsts 2
      (getChannel sampleConsts 0x08 2
        (getChannel sampleConsts 0x0A 0
          [0, 0, 0, 0, 1, 0x56, 0, 0, 1, 0x78,
           0, 0, 0, 0, 1, 0x12, 0, 0, 1, 0x34]).rest).trace later) :=
  ⟨(accessors_select_device_first sampleConsts 0x08 2 [0, 0, 0, 0, 1, 0x12, 0, 0, 1, 0x34]
      (by decide) (by decide)).1 0x1234 (by decide),
   (accessors_select_device_first sampleConsts 0x08 2
      [0, 0, 0, 0, 1, 0x12, 0, 0, 1, 0x34, 0, 0, 1, 0x56, 0, 0, 1, 0x78]
      (by decide) (by decide)).2.1 ⟨0x12345678⟩ (by decide),
   (accessors_select_device_first sampleConsts 0x08 2
      [0, 0, 0, 0, 1, 0x56, 0, 0, 1, 0x78, 0, 0, 0, 0, 1, 0x12, 0, 0, 1, 0x34]
      (by decide) (by decide)).2.2.1 0x0A 0 0x5678 0x1234 (by decide) (by decide)⟩

/-- C7: if a call of `getChannel` (or `getCalibratedValue`) fed exactly the bytes
`s` returns `r` with trace `tr`, then on a device that answers `s`, then `s`
again, then anything, the first call returns `r` with trace `tr` and leaves the
second copy of `s`, and the second call, run on what the first left, returns the
same `r` with the same trace `tr`.  The driver keeps no state between the calls:
a run is a function of the arguments and of the bytes read. -/
theorem accessors_repeatable (k : Consts) (register device : Nat) (s w : List Nat) :
    (∀ r tr, getChannel k register device s = ⟨some r, tr, []⟩ →
      getChannel k register device (s ++ (s ++ w)) = ⟨some r, tr, s ++ w⟩ ∧
      getChannel k register device (getChannel k register device (s ++ (s ++ w))).rest =
        ⟨some r, tr, w⟩ ∧
      ((getChannel k register device (s ++ (s ++ w))).bind fun r1 s1 =>
        (getChannel k register device s1).bind fun r2 s2 => Run.pure (r1, r2) s2) =
        ⟨some (r, r), tr ++ tr, w⟩) ∧
    (∀ f tr, getCalibratedValue k register device s = ⟨some f, tr, []⟩ →
      getCalibratedValue k register device (s ++ (s ++ w)) = ⟨some f, tr, s ++ w⟩ ∧
      getCalibratedValue k register device
          (getCalibratedValue k register device (s ++ (s ++ w))).rest = ⟨some f, tr, w⟩ ∧
      ((getCalibratedValue k register device (s ++ (s ++ w))).bind fun f1 s1 =>
        (getCalibratedValue k register device s1).bind fun f2 s2 => Run.pure (f1, f2) s2) =
        ⟨some (f, f), tr ++ tr, w⟩) := by
  constructor
  · intro r tr h
    have hres : (getChannel k register device s).result = some r := by rw [h]
    have e1 : getChannel k register device (s ++ (s ++ w)) = ⟨some r, tr, s ++ w⟩ := by
      rw [framed_getChannel k register device s (s ++ w) r hres, h]; rfl
    have e2 : getChannel k register device (s ++ w) = ⟨some r, tr, w⟩ := by
      rw [framed_getChannel k register device s w r hres, h]; rfl
    refine ⟨e1, by rw [e1]; exact e2, ?_⟩
    simp [Run.bind, Run.pure, e1, e2]
  · intro f tr h
    have hres : (getCalibratedValue k register device s).result = some f := by rw [h]
    have e1 : getCalibratedValue k register device (s ++ (s ++ w)) = ⟨some f, tr, s ++ w⟩ := by
      rw [framed_getCalibratedValue k register device s (s ++ w) f hres, h]; rfl
    have e2 : getCalibratedValue k register device (s ++ w) = ⟨some f, tr, w⟩ := by
      rw [framed_getCalibratedValue k register device s w f hres, h]; rfl
    refine ⟨e1, by rw [e1]; exact e2, ?_⟩
    simp [Run.bind, Run.pure, e1, e2]

/-- The statement of C7 for two calls of `getChannel` and of `getCalibratedValue`,
each fed the same bytes, with one more byte left on the device. -/
theorem accessors_repeatable_witness :
    ((getChannel sampleConsts 0x08 2
        ([0, 0, 0, 0, 1, 0x12, 0, 0, 1, 0x34] ++ ([0, 0, 0, 0, 1, 0x12, 0, 0, 1, 0x34] ++ [7]))).bind
      fun r1 s1 => (getChannel sampleConsts 0x08 2 s1).bind fun r2 s2 => Run.pure (r1, r2) s2).result =
      some (0x1234, 0x1234) ∧
    ((getCalibratedValue sampleConsts 0x14 2
        ([0, 0, 0, 0, 1, 0x3F, 0, 0, 1, 0x80, 0, 0, 1, 0, 0, 0, 1, 0] ++
          ([0, 0, 0, 0, 1, 0x3F, 0, 0, 1, 0x80, 0, 0, 1, 0, 0, 0, 1, 0] ++ [7]))).bind
      fun f1 s1 => (getCalibratedValue sampleConsts 0x14 2 s1).bind
        fun f2 s2 => Run.pure (f1, f2) s2).result =
      some (⟨0x3F800000⟩, ⟨0x3F800000⟩) :=
  ⟨by rw [((accessors_repeatable sampleConsts 0x08 2 [0, 0, 0, 0, 1, 0x12, 0, 0, 1, 0x34] [7]).1
      0x1234 (getChannel sampleConsts 0x08 2 [0, 0, 0, 0, 1, 0x12, 0, 0, 1, 0x34]).trace
      (by decide)).2.2],
   by rw [((accessors_repeatable sampleConsts 0x14 2
      [0, 0, 0, 0, 1, 0x3F, 0, 0, 1, 0x80, 0, 0, 1, 0, 0, 0, 1, 0] [7]).2
      ⟨0x3F800000⟩ (getCalibratedValue sampleConsts 0x14 2
        [0, 0, 0, 0, 1, 0x3F, 0, 0, 1, 0x80, 0, 0, 1, 0, 0, 0, 1, 0]).trace (by decide)).2.2]⟩


theorem Channel.getRaw_eq (k : Consts) (c : Channel) (script : List Nat) :
    c.getRaw k script = getChannel k (c.slot.raw k) (c.band.device k) script := by
  cases c <;> rfl

theorem Channel.getCalibrated_eq (k : Consts) (c : Channel) (script : List Nat) :
    c.getCalibrated k script = getCalibratedValue k (c.slot.cal k) (c.band.device k) script := by
  cases c <;> rfl

theorem Channel.slot_band_injective : Function.Injective fun c : Channel => (c.slot, c.band) := by
  intro c1 c2 h
  cases c1 <;> cases c2 <;> first | rfl | (simp [Channel.slot, Channel.band] at h)

theorem Band.device_injective {k : Consts}
    (h : [k.AS72651_NIR, k.AS72652_VISIBLE, k.AS72653_UV].Nodup) :
    Function.Injective (Band.device k) := by
  simp only [List.nodup_cons, List.mem_cons, List.mem_singleton, not_or, List.not_mem_nil,
    not_false_eq_true, List.nodup_nil, and_true] at h
  intro a b hab
  cases a <;> cases b <;> simp only [Band.device] at hab <;>
    first | rfl | (exfalso; simp_all)

theorem Slot.raw_injective {k : Consts}
    (h : [k.AS7265X_RAW_R_G_A, k.AS7265X_RAW_S_H_B, k.AS7265X_RAW_T_I_C, k.AS7265X_RAW_U_J_D,
      k.AS7265X_RAW_V_K_E, k.AS7265X_RAW_W_L_F].Nodup) :
    Function.Injective (Slot.raw k) := by
  simp only [List.nodup_cons, List.mem_cons, List.mem_singleton, not_or, List.not_mem_nil,
    not_false_eq_true, List.nodup_nil, and_true] at h
  intro a b hab
  cases a <;> cases b <;> simp only [Slot.raw] at hab <;>
    first | rfl | (exfalso; simp_all)

theorem Slot.cal_injective {k : Consts}
    (h : [k.AS7265X_CAL_R_G_A, k.AS7265X_CAL_S_H_B, k.AS7265X_CAL_T_I_C, k.AS7265X_CAL_U_J_D,
      k.AS7265X_CAL_V_K_E, k.AS7265X_CAL_W_L_F].Nodup) :
    Function.Injective (Slot.cal k) := by
  simp only [List.nodup_cons, List.mem_cons, List.mem_singleton, not_or, List.not_mem_nil,
    not_false_eq_true, List.nodup_nil, and_true] at h
  intro a b hab
  cases a <;> cases b <;> simp only [Slot.cal] at hab <;>
    first | rfl | (exfalso; simp_all)

/-- C8: every named accessor is `getChannel` (raw) or `getCalibratedValue`
(calibrated) applied to a fixed register and device: the device of the letter's
band (A-F `AS72653_UV`, G-L `AS72652_VISIBLE`, R-W `AS72651_NIR`), the same for
the raw and the calibrated accessor of a letter, and the register of the letter's
position in its band, the same macro for A/G/R, B/H/S, C/I/T, D/J/U, E/K/V,
F/L/W.  No two letters share both position and band; so, the three device
identifiers being distinct and the six register macros of a kind being distinct,
the eighteen (register, device) pairs of that kind are pairwise distinct. -/
theorem named_accessors_delegate (k : Consts)
    (hdev : [k.AS72651_NIR, k.AS72652_VISIBLE, k.AS72653_UV].Nodup)
    (hraw : [k.AS7265X_RAW_R_G_A, k.AS7265X_RAW_S_H_B, k.AS7265X_RAW_T_I_C,
      k.AS7265X_RAW_U_J_D, k.AS7265X_RAW_V_K_E, k.AS7265X_RAW_W_L_F].Nodup)
    (hcal : [k.AS7265X_CAL_R_G_A, k.AS7265X_CAL_S_H_B, k.AS7265X_CAL_T_I_C,
      k.AS7265X_CAL_U_J_D, k.AS7265X_CAL_V_K_E, k.AS7265X_CAL_W_L_F].Nodup) :
    (∀ (c : Channel) (script : List Nat),
      c.getRaw k script = getChannel k (c.slot.raw k) (c.band.device k) script ∧
      c.getCalibrated k script =
        getCalibratedValue k (c.slot.cal k) (c.band.device k) script) ∧
    Function.Injective (fun c : Channel => (c.slot, c.band)) ∧
    Function.Injective (fun c : Channel => (c.slot.raw k, c.band.device k)) ∧
    Function.Injective (fun c : Channel => (c.slot.cal k, c.band.device k)) := by
  refine ⟨fun c script => ⟨Channel.getRaw_eq k c script, Channel.getCalibrated_eq k c script⟩,
    Channel.slot_band_injective, ?_, ?_⟩
  · intro c1 c2 h
    simp only [Prod.mk.injEq] at h
    exact Channel.slot_band_injective
      (Prod.ext (Slot.raw_injective hraw h.1) (Band.device_injective hdev h.2))
  · intro c1 c2 h
    simp only [Prod.mk.injEq] at h
    exact Channel.slot_band_injective
      (Prod.ext (Slot.cal_injective hcal h.1) (Band.device_injective hdev h.2))

/-- The statement of C8 for the register map of the data sheet. -/
theorem named_accessors_delegate_witness :
    (∀ (c : Channel) (script : List Nat),
      c.getRaw sampleConsts script =
        getChannel sampleConsts (c.slot.raw sampleConsts) (c.band.device sampleConsts) script ∧
      c.getCalibrated sampleConsts script =
        getCalibratedValue sampleConsts (c.slot.cal sampleConsts)
          (c.band.device sampleConsts) script) ∧
    Function.Injective (fun c : Channel => (c.slot, c.band)) ∧
    Function.Injective (fun c : Channel => (c.slot.raw sampleConsts, c.band.device sampleConsts)) ∧
    Function.Injective (fun c : Channel => (c.slot.cal sampleConsts, c.band.device sampleConsts)) :=
  named_accessors_delegate sampleConsts (by decide) (by decide) (by decide)


theorem pollStatus_head (k : Consts) (ready : Nat → Bool) (e : Nat) (rest : List Nat) :
    ∃ t, (pollStatus k ready (e :: rest)).trace = BusOp.read k.AS7265X_STATUS_REG (e % 256) :: t := by
  by_cases h : ready (e % 256) = true
  · exact ⟨[], by simp [pollStatus, h]⟩
  · exact ⟨_, by simp only [pollStatus, h]; rfl⟩

theorem Run.bind_trace_prefix {α β : Type} (r : Run α) (f : α → List Nat → Run β) :
    ∃ t, (r.bind f).trace = r.trace ++ t := by
  cases h : r.result with
  | none => exact ⟨[], by simp [Run.bind, h]⟩
  | some a => exact ⟨(f a r.rest).trace, by simp only [Run.bind, h]⟩

theorem afterDrain_head (k : Consts) (virtualAddr e : Nat) (rest : List Nat) :
    ∃ t, ((waitThenWrite k virtualAddr (e :: rest)).bind fun _ s4 => waitThenRead k s4).trace =
      BusOp.read k.AS7265X_STATUS_REG (e % 256) :: t := by
  obtain ⟨t1, h1⟩ := Run.bind_trace_prefix (waitThenWrite k virtualAddr (e :: rest))
    (fun _ s4 => waitThenRead k s4)
  obtain ⟨t2, h2⟩ := Run.bind_trace_prefix (pollStatus k (txClear k) (e :: rest))
    (fun _ s => writeRegister k.AS7265X_WRITE_REG virtualAddr s)
  obtain ⟨t3, h3⟩ := pollStatus_head k (txClear k) e rest
  refine ⟨t3 ++ t2 ++ t1, ?_⟩
  rw [h1, waitThenWrite, h2, h3]
  simp

/-- C9: the first operation of `virtualReadRegister` is a STATUS read.  When the
byte it returns has RX_VALID set, whatever its TX_VALID bit, the second operation
is the read of the READ register that drains the stale byte, before any poll of
TX_VALID, delay or write, and the third is a new STATUS read, the first of the
wait for TX_VALID.  When it has RX_VALID clear the second operation is already
that new STATUS read.  So the drain read happens exactly when the first STATUS
byte has RX_VALID set. -/
theorem virtualReadRegister_drains_first (k : Consts) (virtualAddr b c e : Nat)
    (rest : List Nat) (hk : k.AS7265X_STATUS_REG ≠ k.AS7265X_READ_REG) :
    (rxSet k (b % 256) = true → txClear k (b % 256) = false →
      (virtualReadRegister k virtualAddr (b :: c :: e :: rest)).trace[1]? =
        some (BusOp.read k.AS7265X_READ_REG (c % 256))) ∧
    (rxSet k (b % 256) = true →
      (virtualReadRegister k virtualAddr (b :: c :: e :: rest)).trace.take 3 =
        [BusOp.read k.AS7265X_STATUS_REG (b % 256), BusOp.read k.AS7265X_READ_REG (c % 256),
         BusOp.read k.AS7265X_STATUS_REG (e % 256)]) ∧
    (rxSet k (b % 256) = false →
      (virtualReadRegister k virtualAddr (b :: c :: e :: rest)).trace.take 2 =
        [BusOp.read k.AS7265X_STATUS_REG (b % 256), BusOp.read k.AS7265X_STATUS_REG (c % 256)]) ∧
    ((∃ v, (virtualReadRegister k virtualAddr (b :: c :: e :: rest)).trace[1]? =
        some (BusOp.read k.AS7265X_READ_REG v)) ↔ rxSet k (b % 256) = true) := by
  have hset : rxSet k (b % 256) = true →
      ∃ t, (virtualReadRegister k virtualAddr (b :: c :: e :: rest)).trace =
        BusOp.read k.AS7265X_STATUS_REG (b % 256) :: BusOp.read k.AS7265X_READ_REG (c % 256) ::
          BusOp.read k.AS7265X_STATUS_REG (e % 256) :: t := by
    intro h
    obtain ⟨t, ht⟩ := afterDrain_head k virtualAddr e rest
    refine ⟨t, ?_⟩
    rw [virtualReadRegister_eq, Run.bind_of_some (a := ()) (by rw [drainStale_of_rxSet c _ h])]
    simp only [drainStale_of_rxSet c (e :: rest) h, ht]
    rfl
  have hclear : rxSet k (b % 256) = false →
      ∃ t, (virtualReadRegister k virtualAddr (b :: c :: e :: rest)).trace =
        BusOp.read k.AS7265X_STATUS_REG (b % 256) ::
          BusOp.read k.AS7265X_STATUS_REG (c % 256) :: t := by
    intro h
    obtain ⟨t, ht⟩ := afterDrain_head k virtualAddr c (e :: rest)
    refine ⟨t, ?_⟩
    rw [virtualReadRegister_eq, Run.bind_of_some (a := ()) (by rw [drainStale_of_rxClear _ h])]
    simp only [drainStale_of_rxClear (c :: e :: rest) h, ht]
    rfl
  refine ⟨fun h _ => ?_, fun h => ?_, fun h => ?_, ⟨fun ⟨v, hv⟩ => ?_, fun h => ?_⟩⟩
  · obtain ⟨t, ht⟩ := hset h
    rw [ht]; rfl
  · obtain ⟨t, ht⟩ := hset h
    rw [ht]; rfl
  · obtain ⟨t, ht⟩ := hclear h
    rw [ht]; rfl
  · cases h : rxSet k (b % 256) with
    | true => rfl
    | false =>
      obtain ⟨t, ht⟩ := hclear h
      rw [ht] at hv
      simp at hv
      exact absurd hv.1 hk
  · obtain ⟨t, ht⟩ := hset h
    exact ⟨c % 256, by rw [ht]; rfl⟩

/-- The statement of C9 on a first STATUS byte with both flags set, and what
happens on one with both flags clear. -/
theorem virtualReadRegister_drains_first_witness :
    (rxSet sampleConsts (3 % 256) = true ∧ txClear sampleConsts (3 % 256) = false) ∧
    (virtualReadRegister sampleConsts 0x08 (3 :: 0xAA :: 2 :: [0, 0, 1, 0x12])).trace[1]? =
      some (BusOp.read sampleConsts.AS7265X_READ_REG (0xAA % 256)) ∧
    (virtualReadRegister sampleConsts 0x08 (0 :: 0 :: 0 :: [1, 0x12])).trace.take 2 =
      [BusOp.read sampleConsts.AS7265X_STATUS_REG (0 % 256),
       BusOp.read sampleConsts.AS7265X_STATUS_REG (0 % 256)] :=
  ⟨by decide,
   (virtualReadRegister_drains_first sampleConsts 0x08 3 0xAA 2 [0, 0, 1, 0x12] (by decide)).1
     (by decide) (by decide),
   (virtualReadRegister_drains_first sampleConsts 0x08 0 0 0 [1, 0x12] (by decide)).2.2.1
     (by decide)⟩


theorem getChannel_handshake (k : Consts) (channelRegister device : Nat) (script : List Nat) :
    Handshake k (getChannel k channelRegister device script).trace :=
  Handshake.bind (virtualWriteRegister_handshake k _ _ _) fun _ s1 =>
    Handshake.bind (virtualReadRegister_handshake k _ s1) fun _ s2 =>
      Handshake.bind (virtualReadRegister_handshake k _ s2) fun _ _ => Handshake.nil

theorem getCalibratedValue_handshake (k : Consts) (calAddress device : Nat) (script : List Nat) :
    Handshake k (getCalibratedValue k calAddress device script).trace :=
  Handshake.bind (virtualWriteRegister_handshake k _ _ _) fun _ s1 =>
    Handshake.bind (virtualReadRegister_handshake k _ s1) fun _ s2 =>
      Handshake.bind (virtualReadRegister_handshake k _ s2) fun _ s3 =>
        Handshake.bind (virtualReadRegister_handshake k _ s3) fun _ s4 =>
          Handshake.bind (virtualReadRegister_handshake k _ s4) fun _ _ => Handshake.nil

theorem DriverOp.trace_handshake (k : Consts) (op : DriverOp) (script : List Nat) :
    Handshake k (op.trace k script) := by
  cases op with
  | virtualWriteRegister a d => exact virtualWriteRegister_handshake k a d script
  | virtualReadRegister a => exact virtualReadRegister_handshake k a script
  | selectDevice d => exact virtualWriteRegister_handshake k _ d script
  | getChannel r d => exact getChannel_handshake k r d script
  | getCalibratedValue r d => exact getCalibratedValue_handshake k r d script
  | getRaw c =>
    simp only [DriverOp.trace, Channel.getRaw_eq]
    exact getChannel_handshake k _ _ script
  | getCalibrated c =>
    simp only [DriverOp.trace, Channel.getCalibrated_eq]
    exact getCalibratedValue_handshake k _ _ script

theorem virtualReadRegister_answer {k : Consts} {virtualAddr v : Nat} {s : List Nat}
    (h : (virtualReadRegister k virtualAddr s).result = some v) :
    AnswerOf k virtualAddr v (virtualReadRegister k virtualAddr s).trace ∧ v < 256 := by
  obtain ⟨pre, post, st, ht, hpre, hpost, hst, hv⟩ := virtualReadRegister_done h
  exact ⟨⟨pre, post, st, ht, hpre, hpost, hst⟩, hv⟩

theorem getChannel_answers {k : Consts} {channelRegister device r : Nat} {script : List Nat}
    (h : (getChannel k channelRegister device script).result = some r) :
    ∃ tS tH tL high low,
      (getChannel k channelRegister device script).trace = tS ++ (tH ++ tL) ∧
      tS = (selectDevice k device script).trace ∧
      AnswerOf k channelRegister high tH ∧
      AnswerOf k ((channelRegister + 1) % 256) low tL ∧
      r = 256 * high + low := by
  unfold getChannel at h ⊢
  obtain ⟨_, -, h1, ht, -⟩ := Run.bind_done h
  obtain ⟨high, hH, h2, ht1, -⟩ := Run.bind_done h1
  obtain ⟨low, hL, h3, ht2, -⟩ := Run.bind_done h2
  obtain ⟨aH, hh⟩ := virtualReadRegister_answer hH
  obtain ⟨aL, hl⟩ := virtualReadRegister_answer hL
  refine ⟨_, _, _, high, low, ?_, rfl, aH, aL, ?_⟩
  · rw [ht, ht1, ht2]; simp [Run.pure]
  · simp only [Run.pure, Option.some.injEq] at h3
    rw [← h3, (compose16 hh hl).1]

theorem getCalibratedValue_answers {k : Consts} {calAddress device : Nat} {f : F32}
    {script : List Nat}
    (h : (getCalibratedValue k calAddress device script).result = some f) :
    ∃ tS t0 t1 t2 t3 b0 b1 b2 b3,
      (getCalibratedValue k calAddress device script).trace = tS ++ (t0 ++ (t1 ++ (t2 ++ t3))) ∧
      tS = (selectDevice k device script).trace ∧
      AnswerOf k ((calAddress + 0) % 256) b0 t0 ∧
      AnswerOf k ((calAddress + 1) % 256) b1 t1 ∧
      AnswerOf k ((calAddress + 2) % 256) b2 t2 ∧
      AnswerOf k ((calAddress + 3) % 256) b3 t3 ∧
      f.bits = b0 * 2 ^ 24 + b1 * 2 ^ 16 + b2 * 2 ^ 8 + b3 := by
  unfold getCalibratedValue at h ⊢
  obtain ⟨_, -, h1, ht, -⟩ := Run.bind_done h
  obtain ⟨b0, hr0, h2, ht1, -⟩ := Run.bind_done h1
  obtain ⟨b1, hr1, h3, ht2, -⟩ := Run.bind_done h2
  obtain ⟨b2, hr2, h4, ht3, -⟩ := Run.bind_done h3
  obtain ⟨b3, hr3, h5, ht4, -⟩ := Run.bind_done h4
  obtain ⟨a0, hb0⟩ := virtualReadRegister_answer hr0
  obtain ⟨a1, hb1⟩ := virtualReadRegister_answer hr1
  obtain ⟨a2, hb2⟩ := virtualReadRegister_answer hr2
  obtain ⟨a3, hb3⟩ := virtualReadRegister_answer hr3
  refine ⟨_, _, _, _, _, b0, b1, b2, b3, ?_, rfl, a0, a1, a2, a3, ?_⟩
  · rw [ht, ht1, ht2, ht3, ht4]; simp [Run.pure]
  · simp only [Run.pure, Option.some.injEq] at h5
    have hc := compose32 hb0 hb1 hb2 hb3
    rw [← h5]
    simp only [convertBytesToFloat, hc]

/-- C10: in the trace of every driver operation (the five protocol functions and
the thirty-six named accessors), run against any script and whether or not it
returns, every write goes to the WRITE register right after a STATUS read with
TX_VALID clear, and every read of the READ register comes right after a STATUS
read with RX_VALID set.  When an operation returns, each byte that enters its
result is the last operation of the answer to its own request: the request is
written first, only STATUS reads and delays follow, and the READ register is read
right after a STATUS read with RX_VALID set. -/
theorem driver_handshake_invariant (k : Consts)
    (hk : k.AS7265X_STATUS_REG ≠ k.AS7265X_READ_REG) :
    (∀ (op : DriverOp) (script : List Nat),
      WriteGated k (op.trace k script) ∧ ReadGated k (op.trace k script)) ∧
    (∀ virtualAddr script v, (virtualReadRegister k virtualAddr script).result = some v →
      AnswerOf k virtualAddr v (virtualReadRegister k virtualAddr script).trace) ∧
    (∀ channelRegister device script r,
      (getChannel k channelRegister device script).result = some r →
      ∃ tS tH tL high low,
        (getChannel k channelRegister device script).trace = tS ++ (tH ++ tL) ∧
        tS = (selectDevice k device script).trace ∧
        AnswerOf k channelRegister high tH ∧
        AnswerOf k ((channelRegister + 1) % 256) low tL ∧
        r = 256 * high + low) ∧
    (∀ calAddress device script f,
      (getCalibratedValue k calAddress device script).result = some f →
      ∃ tS t0 t1 t2 t3 b0 b1 b2 b3,
        (getCalibratedValue k calAddress device script).trace =
          tS ++ (t0 ++ (t1 ++ (t2 ++ t3))) ∧
        tS = (selectDevice k device script).trace ∧
        AnswerOf k ((calAddress + 0) % 256) b0 t0 ∧
        AnswerOf k ((calAddress + 1) % 256) b1 t1 ∧
        AnswerOf k ((calAddress + 2) % 256) b2 t2 ∧
        AnswerOf k ((calAddress + 3) % 256) b3 t3 ∧
        f.bits = b0 * 2 ^ 24 + b1 * 2 ^ 16 + b2 * 2 ^ 8 + b3) ∧
    (∀ (c : Channel) script,
      c.getRaw k script = getChannel k (c.slot.raw k) (c.band.device k) script ∧
      c.getCalibrated k script =
        getCalibratedValue k (c.slot.cal k) (c.band.device k) script) :=
  ⟨fun op script => ⟨(DriverOp.trace_handshake k op script).writeGated,
      (DriverOp.trace_handshake k op script).readGated hk⟩,
    fun _ _ _ h => (virtualReadRegister_answer h).1,
    fun _ _ _ _ h => getChannel_answers h,
    fun _ _ _ _ h => getCalibratedValue_answers h,
    fun c script => ⟨Channel.getRaw_eq k c script, Channel.getCalibrated_eq k c script⟩⟩

/-- The statement of C10 on runs of `getRawA`, one that returns and one cut short
while waiting for RX_VALID. -/
theorem driver_handshake_invariant_witness :
    (WriteGated sampleConsts
        ((DriverOp.getRaw Channel.A).trace sampleConsts [2, 0, 0, 3, 7, 0, 1, 0x12, 0, 0, 1, 0x34]) ∧
      ReadGated sampleConsts
        ((DriverOp.getRaw Channel.A).trace sampleConsts [2, 0, 0, 3, 7, 0, 1, 0x12, 0, 0, 1, 0x34])) ∧
    (WriteGated sampleConsts ((DriverOp.getRaw Channel.A).trace sampleConsts [2, 0, 0, 3, 7, 0, 0]) ∧
      ReadGated sampleConsts ((DriverOp.getRaw Channel.A).trace sampleConsts [2, 0, 0, 3, 7, 0, 0])) ∧
    AnswerOf sampleConsts 0x08 0x12
      (virtualReadRegister sampleConsts 0x08 [3, 0xAA, 2, 0, 0, 1, 0x12]).trace :=
  ⟨(driver_handshake_invariant sampleConsts (by decide)).1 _ _,
   (driver_handshake_invariant sampleConsts (by decide)).1 _ _,
   (driver_handshake_invariant sampleConsts (by decide)).2.1 0x08
     [3, 0xAA, 2, 0, 0, 1, 0x12] 0x12 (by decide)⟩


theorem pollStatus_busy {k : Consts} {ready : Nat → Bool} {busy : List Nat}
    (h : ∀ x ∈ busy, ready (x % 256) = false) :
    pollStatus k ready busy = ⟨none, busyPolls k busy, []⟩ := by
  induction busy with
  | nil => rfl
  | cons x t ih =>
    have hx : ready (x % 256) = false := h x (List.mem_cons_self _ _)
    have ht := ih fun y hy => h y (List.mem_cons_of_mem _ hy)
    simp [pollStatus, hx, ht, busyPolls]

theorem pollStatus_ready_after {k : Consts} {ready : Nat → Bool} {busy : List Nat} {b : Nat}
    (rest : List Nat) (h : ∀ x ∈ busy, ready (x % 256) = false) (hb : ready (b % 256) = true) :
    pollStatus k ready (busy ++ b :: rest) =
      ⟨some (), busyPolls k busy ++ [BusOp.read k.AS7265X_STATUS_REG (b % 256)], rest⟩ := by
  induction busy with
  | nil => simp [pollStatus, hb, busyPolls]
  | cons x t ih =>
    have hx : ready (x % 256) = false := h x (List.mem_cons_self _ _)
    have ht := ih fun y hy => h y (List.mem_cons_of_mem _ hy)
    simp [pollStatus, hx, ht, busyPolls]

theorem pollStatus_returns {k : Consts} {ready : Nat → Bool} {s : List Nat}
    (h : (pollStatus k ready s).result = some ()) :
    ∃ busy b, s = busy ++ b :: (pollStatus k ready s).rest ∧
      (∀ x ∈ busy, ready (x % 256) = false) ∧ ready (b % 256) = true := by
  induction s with
  | nil => simp [pollStatus] at h
  | cons x t ih =>
    by_cases hx : ready (x % 256) = true
    · exact ⟨[], x, by simp [pollStatus, hx], by simp, hx⟩
    · simp only [pollStatus, hx] at h
      obtain ⟨busy, b, hs, hbusy, hb⟩ := ih h
      refine ⟨x :: busy, b, ?_, ?_, hb⟩
      · simp only [pollStatus, hx, List.cons_append]
        exact congrArg _ hs
      · intro y hy
        rcases List.mem_cons.mp hy with rfl | hy
        · simpa using hx
        · exact hbusy y hy

theorem writesOf_busyPolls (k : Consts) (busy : List Nat) : writesOf (busyPolls k busy) = [] := by
  induction busy with
  | nil => rfl
  | cons x t ih => simp [busyPolls, writesOf, ih]

theorem delaysOf_append (t1 t2 : List BusOp) : delaysOf (t1 ++ t2) = delaysOf t1 ++ delaysOf t2 := by
  induction t1 with
  | nil => rfl
  | cons op t ih => cases op <;> simp [delaysOf, ih]

theorem delaysOf_busyPolls (k : Consts) (busy : List Nat) :
    delaysOf (busyPolls k busy) = List.replicate busy.length k.AS7265X_POLLING_DELAY := by
  induction busy with
  | nil => rfl
  | cons x t ih => simp [busyPolls, delaysOf, ih, List.replicate_succ]

theorem readsFrom_status_busyPolls (k : Consts) (busy : List Nat) :
    readsFrom k.AS7265X_STATUS_REG (busyPolls k busy) = busy.map (· % 256) := by
  induction busy with
  | nil => rfl
  | cons x t ih => simp [busyPolls, readsFrom, ih]


theorem virtualWriteRegister_responds {k : Consts} {busy1 busy2 : List Nat} {b1 b2 : Nat}
    (virtualAddr dataToWrite : Nat) (rest : List Nat)
    (h1 : TxWait k busy1 b1) (h2 : TxWait k busy2 b2) :
    virtualWriteRegister k virtualAddr dataToWrite (writeScript busy1 b1 busy2 b2 rest) =
      ⟨some (), writeTrace k virtualAddr dataToWrite busy1 b1 busy2 b2, rest⟩ := by
  simp [virtualWriteRegister, writeScript, writeTrace, Run.bind, writeRegister,
    pollStatus_ready_after _ h1.1 h1.2, pollStatus_ready_after _ h2.1 h2.2]

theorem drainStale_responds {k : Consts} {b0 : Nat} {dr : List Nat} (s : List Nat)
    (hdr : DrainBytes k b0 dr) :
    drainStale k (b0 :: (dr ++ s)) =
      ⟨some (), BusOp.read k.AS7265X_STATUS_REG (b0 % 256) ::
        dr.map (fun d => BusOp.read k.AS7265X_READ_REG (d % 256)), s⟩ := by
  unfold DrainBytes at hdr
  cases h : rxSet k (b0 % 256) with
  | false =>
    rw [h] at hdr
    have hnil : dr = [] := List.length_eq_zero.mp (by simpa using hdr)
    subst hnil
    simpa using drainStale_of_rxClear s h
  | true =>
    rw [h] at hdr
    obtain ⟨d, rfl⟩ := List.length_eq_one.mp (by simpa using hdr)
    simpa using drainStale_of_rxSet d s h

theorem virtualReadRegister_responds {k : Consts} {b0 b1 b2 : Nat} {dr busy1 busy2 : List Nat}
    (virtualAddr v : Nat) (rest : List Nat)
    (hdr : DrainBytes k b0 dr) (h1 : TxWait k busy1 b1) (h2 : RxWait k busy2 b2) :
    virtualReadRegister k virtualAddr (readScript b0 dr busy1 b1 busy2 b2 v rest) =
      ⟨some (v % 256), readTrace k virtualAddr b0 dr busy1 b1 busy2 b2 v, rest⟩ := by
  rw [virtualReadRegister_eq, readScript, drainStale_responds _ hdr]
  simp [waitThenWrite, waitThenRead, readTrace, Run.bind, writeRegister, readRegister,
    pollStatus_ready_after _ h1.1 h1.2, pollStatus_ready_after _ h2.1 h2.2]

theorem virtualWriteRegister_returns {k : Consts} {virtualAddr dataToWrite : Nat}
    {script : List Nat}
    (h : (virtualWriteRegister k virtualAddr dataToWrite script).result = some ()) :
    ∃ busy1 b1 busy2 b2,
      script = writeScript busy1 b1 busy2 b2
        (virtualWriteRegister k virtualAddr dataToWrite script).rest ∧
      TxWait k busy1 b1 ∧ TxWait k busy2 b2 := by
  have h' := h
  unfold virtualWriteRegister at h'
  obtain ⟨_, hp1, h1, -, -⟩ := Run.bind_done h'
  obtain ⟨_, -, h2, -, -⟩ := Run.bind_done h1
  obtain ⟨_, hp2, -, -, -⟩ := Run.bind_done h2
  simp only [writeRegister] at hp2
  obtain ⟨busy1, b1, hs1, hb1, hbb1⟩ := pollStatus_returns hp1
  obtain ⟨busy2, b2, hs2, hb2, hbb2⟩ := pollStatus_returns hp2
  have hrest : (virtualWriteRegister k virtualAddr dataToWrite script).rest =
      (pollStatus k (txClear k) (pollStatus k (txClear k) script).rest).rest := by
    simp [virtualWriteRegister, Run.bind, writeRegister, hp1, hp2]
  refine ⟨busy1, b1, busy2, b2, ?_, ⟨hb1, hbb1⟩, ⟨hb2, hbb2⟩⟩
  rw [hrest, writeScript, ← hs2, ← hs1]

theorem drainStale_returns {k : Consts} {script : List Nat}
    (h : (drainStale k script).result = some ()) :
    ∃ b0 dr, script = b0 :: (dr ++ (drainStale k script).rest) ∧ DrainBytes k b0 dr := by
  cases script with
  | nil => simp [drainStale, readRegister, Run.bind] at h
  | cons b0 s1 =>
    cases hrx : rxSet k (b0 % 256) with
    | false =>
      refine ⟨b0, [], ?_, by simp [DrainBytes, hrx]⟩
      rw [drainStale_of_rxClear s1 hrx]; rfl
    | true =>
      cases s1 with
      | nil =>
        have h' : b0 % 256 &&& k.AS7265X_RX_VALID ≠ 0 := by simpa [rxSet] using hrx
        simp [drainStale, readRegister, Run.bind, h'] at h
      | cons d s2 =>
        refine ⟨b0, [d], ?_, by simp [DrainBytes, hrx]⟩
        rw [drainStale_of_rxSet d s2 hrx]; rfl

theorem virtualReadRegister_returns {k : Consts} {virtualAddr r : Nat} {script : List Nat}
    (h : (virtualReadRegister k virtualAddr script).result = some r) :
    ∃ b0 dr busy1 b1 busy2 b2 v,
      script = readScript b0 dr busy1 b1 busy2 b2 v
        (virtualReadRegister k virtualAddr script).rest ∧
      DrainBytes k b0 dr ∧ TxWait k busy1 b1 ∧ RxWait k busy2 b2 ∧ r = v % 256 := by
  have h' := h
  rw [virtualReadRegister_eq] at h'
  obtain ⟨_, hd, h1, -, -⟩ := Run.bind_done h'
  obtain ⟨_, hw, h2, -, -⟩ := Run.bind_done h1
  obtain ⟨_, hp1, -, -, -⟩ := Run.bind_done hw
  have hwrest : (waitThenWrite k virtualAddr (drainStale k script).rest).rest =
      (pollStatus k (txClear k) (drainStale k script).rest).rest := by
    simp [waitThenWrite, Run.bind, writeRegister, hp1]
  rw [hwrest] at h2
  obtain ⟨_, hp2, h3, -, -⟩ := Run.bind_done h2
  obtain ⟨b0, dr, hs0, hdr⟩ := drainStale_returns hd
  obtain ⟨busy1, b1, hs1, hb1, hbb1⟩ := pollStatus_returns hp1
  obtain ⟨busy2, b2, hs2, hb2, hbb2⟩ := pollStatus_returns hp2
  cases hs3 : (pollStatus k (rxSet k)
      (pollStatus k (txClear k) (drainStale k script).rest).rest).rest with
  | nil => simp [hs3, readRegister] at h3
  | cons v rest =>
    simp only [hs3, readRegister, Option.some.injEq] at h3
    have hrest : (virtualReadRegister k virtualAddr script).rest = rest := by
      simp [virtualReadRegister_eq, waitThenWrite, waitThenRead, Run.bind, writeRegister,
        readRegister, hd, hp1, hp2, hs3]
    refine ⟨b0, dr, busy1, b1, busy2, b2, v, ?_, hdr, ⟨hb1, hbb1⟩, ⟨hb2, hbb2⟩, h3.symm⟩
    rw [hrest, readScript, ← hs3, ← hs2, ← hs1, ← hs0]


theorem writesOf_eq_nil_of_no_write {tr : List BusOp} (h : ∀ a v, BusOp.write a v ∉ tr) :
    writesOf tr = [] := by
  induction tr with
  | nil => rfl
  | cons op t ih =>
    have ht := ih fun a v hm => h a v (List.mem_cons_of_mem _ hm)
    cases op with
    | read a v => simpa [writesOf] using ht
    | write a v => exact absurd (List.mem_cons_self _ _) (h a v)
    | delay ms => simpa [writesOf] using ht

theorem no_write_of_tx_always_set {k : Consts} {tr : List BusOp} (hs : Handshake k tr)
    (h : ∀ s, BusOp.read k.AS7265X_STATUS_REG s ∈ tr → txClear k s = false) :
    ∀ a v, BusOp.write a v ∉ tr := by
  intro a v hm
  obtain ⟨i, hi⟩ := List.mem_iff_getElem?.mp hm
  obtain ⟨-, s, -, hp, hclear⟩ := hs.writeGated i a v hi
  have := h s (List.mem_iff_getElem?.mpr ⟨_, hp⟩)
  rw [hclear] at this
  exact absurd this (by decide)


theorem virtualReadRegister_stuck_tx {k : Consts} {b0 : Nat} {dr busy : List Nat}
    (virtualAddr : Nat) (hdr : DrainBytes k b0 dr)
    (h : ∀ x ∈ busy, txClear k (x % 256) = false) :
    virtualReadRegister k virtualAddr (b0 :: (dr ++ busy)) =
      ⟨none, BusOp.read k.AS7265X_STATUS_REG (b0 % 256) ::
        (dr.map (fun d => BusOp.read k.AS7265X_READ_REG (d % 256)) ++ busyPolls k busy), []⟩ := by
  rw [virtualReadRegister_eq, drainStale_responds _ hdr]
  simp [waitThenWrite, Run.bind, pollStatus_busy h]

theorem virtualReadRegister_stuck_rx {k : Consts} {b0 b1 : Nat} {dr busy1 busy2 : List Nat}
    (virtualAddr : Nat) (hdr : DrainBytes k b0 dr) (h1 : TxWait k busy1 b1)
    (h2 : ∀ x ∈ busy2, rxSet k (x % 256) = false) :
    virtualReadRegister k virtualAddr (b0 :: (dr ++ (busy1 ++ b1 :: busy2))) =
      ⟨none, BusOp.read k.AS7265X_STATUS_REG (b0 % 256) ::
        (dr.map (fun d => BusOp.read k.AS7265X_READ_REG (d % 256)) ++
          (busyPolls k busy1 ++
            [BusOp.read k.AS7265X_STATUS_REG (b1 % 256),
             BusOp.write k.AS7265X_WRITE_REG virtualAddr] ++ busyPolls k busy2)), []⟩ := by
  rw [virtualReadRegister_eq, drainStale_responds _ hdr]
  simp [waitThenWrite, waitThenRead, Run.bind, writeRegister,
    pollStatus_ready_after _ h1.1 h1.2, pollStatus_busy h2]

theorem length_busyPolls (k : Consts) (busy : List Nat) :
    (busyPolls k busy).length = 2 * busy.length := by
  induction busy with
  | nil => rfl
  | cons x t ih => simp [busyPolls, ih]; omega

/-- C11: a device that never shows TX_VALID clear is never written to and
`virtualWriteRegister` and `virtualReadRegister` never return: whatever the number
`n` of bytes the device has answered so far, all with TX_VALID set, the run has
consumed them all, has performed `n` polls each followed by a delay and no write,
and is still waiting.  In the same way `virtualReadRegister` never returns a value
when, after the read address has been written, no STATUS read shows RX_VALID
set.  Stated both on the trace (no STATUS read of the trace shows the flag) and
on the script; the loops have no bound on the number of polls. -/
theorem unresponsive_device_hangs (k : Consts) (virtualAddr dataToWrite : Nat) :
    (∀ script,
      (∀ s, BusOp.read k.AS7265X_STATUS_REG s ∈
          (virtualWriteRegister k virtualAddr dataToWrite script).trace → txClear k s = false) →
      (virtualWriteRegister k virtualAddr dataToWrite script).result = none ∧
      writesOf (virtualWriteRegister k virtualAddr dataToWrite script).trace = []) ∧
    (∀ script,
      (∀ s, BusOp.read k.AS7265X_STATUS_REG s ∈
          (virtualReadRegister k virtualAddr script).trace → txClear k s = false) →
      (virtualReadRegister k virtualAddr script).result = none ∧
      writesOf (virtualReadRegister k virtualAddr script).trace = []) ∧
    (∀ busy, (∀ x ∈ busy, txClear k (x % 256) = false) →
      virtualWriteRegister k virtualAddr dataToWrite busy = ⟨none, busyPolls k busy, []⟩ ∧
      writesOf (busyPolls k busy) = [] ∧
      (busyPolls k busy).length = 2 * busy.length) ∧
    (∀ b0 dr busy, DrainBytes k b0 dr → (∀ x ∈ busy, txClear k (x % 256) = false) →
      virtualReadRegister k virtualAddr (b0 :: (dr ++ busy)) =
        ⟨none, BusOp.read k.AS7265X_STATUS_REG (b0 % 256) ::
          (dr.map (fun d => BusOp.read k.AS7265X_READ_REG (d % 256)) ++ busyPolls k busy), []⟩) ∧
    (∀ b0 dr busy1 b1 busy2, DrainBytes k b0 dr → TxWait k busy1 b1 →
      (∀ x ∈ busy2, rxSet k (x % 256) = false) →
      virtualReadRegister k virtualAddr (b0 :: (dr ++ (busy1 ++ b1 :: busy2))) =
        ⟨none, BusOp.read k.AS7265X_STATUS_REG (b0 % 256) ::
          (dr.map (fun d => BusOp.read k.AS7265X_READ_REG (d % 256)) ++
            (busyPolls k busy1 ++
              [BusOp.read k.AS7265X_STATUS_REG (b1 % 256),
               BusOp.write k.AS7265X_WRITE_REG virtualAddr] ++ busyPolls k busy2)), []⟩) ∧
    (∀ script,
      (∀ (i j s : Nat), (virtualReadRegister k virtualAddr script).trace[i]? =
          some (BusOp.write k.AS7265X_WRITE_REG virtualAddr) → i < j →
        (virtualReadRegister k virtualAddr script).trace[j]? =
          some (BusOp.read k.AS7265X_STATUS_REG s) → rxSet k s = false) →
      (virtualReadRegister k virtualAddr script).result = none) := by
  refine ⟨fun script h => ?_, fun script h => ?_, fun busy h => ?_,
    fun b0 dr busy hdr h => virtualReadRegister_stuck_tx virtualAddr hdr h,
    fun b0 dr busy1 b1 busy2 hdr h1 h2 => virtualReadRegister_stuck_rx virtualAddr hdr h1 h2,
    fun script h => ?_⟩
  · have hno := no_write_of_tx_always_set (virtualWriteRegister_handshake k _ _ script) h
    refine ⟨?_, writesOf_eq_nil_of_no_write hno⟩
    cases hres : (virtualWriteRegister k virtualAddr dataToWrite script).result with
    | none => rfl
    | some u =>
      obtain ⟨p1, s1, p2, s2, ht, -⟩ := virtualWriteRegister_done hres
      exact absurd (by rw [ht]; simp) (hno k.AS7265X_WRITE_REG dataToWrite)
  · have hno := no_write_of_tx_always_set (virtualReadRegister_handshake k _ script) h
    refine ⟨?_, writesOf_eq_nil_of_no_write hno⟩
    cases hres : (virtualReadRegister k virtualAddr script).result with
    | none => rfl
    | some v =>
      obtain ⟨pre, post, st, ht, -⟩ := virtualReadRegister_done hres
      exact absurd (by rw [ht]; simp) (hno k.AS7265X_WRITE_REG virtualAddr)
  · refine ⟨?_, writesOf_busyPolls k busy, length_busyPolls k busy⟩
    simp [virtualWriteRegister, Run.bind, pollStatus_busy h]
  · cases hres : (virtualReadRegister k virtualAddr script).result with
    | none => rfl
    | some v =>
      obtain ⟨pre, post, st, ht, -, -, hst, -⟩ := virtualReadRegister_done hres
      have hi : (virtualReadRegister k virtualAddr script).trace[pre.length]? =
          some (BusOp.write k.AS7265X_WRITE_REG virtualAddr) := by
        rw [ht, List.getElem?_append_right (Nat.le_refl _), Nat.sub_self]
        exact List.getElem?_cons_zero
      have hj : (virtualReadRegister k virtualAddr script).trace[pre.length + 1 + post.length]? =
          some (BusOp.read k.AS7265X_STATUS_REG st) := by
        rw [ht, List.getElem?_append_right (by omega)]
        have e : pre.length + 1 + post.length - pre.length = post.length + 1 := by omega
        rw [e, List.getElem?_cons_succ, List.getElem?_append_right (by omega)]
        simp
      have := h _ _ st hi (by omega) hj
      rw [hst] at this
      exact absurd this (by decide)

/-- The statement of C11 on a device that answers TX_VALID set five times, and on
one that accepts the read address and then answers RX_VALID clear three times. -/
theorem unresponsive_device_hangs_witness :
    (virtualWriteRegister sampleConsts 0x4F 2 [2, 2, 2, 2, 2] =
        ⟨none, busyPolls sampleConsts [2, 2, 2, 2, 2], []⟩ ∧
      writesOf (busyPolls sampleConsts [2, 2, 2, 2, 2]) = [] ∧
      (busyPolls sampleConsts [2, 2, 2, 2, 2]).length = 2 * [2, 2, 2, 2, 2].length) ∧
    ((virtualReadRegister sampleConsts 0x08 [2, 2, 2]).result = none ∧
      writesOf (virtualReadRegister sampleConsts 0x08 [2, 2, 2]).trace = []) ∧
    (virtualReadRegister sampleConsts 0x08 [0, 0, 0, 0, 0]).result = none :=
  ⟨(unresponsive_device_hangs sampleConsts 0x4F 2).2.2.1 [2, 2, 2, 2, 2] (by decide),
   (unresponsive_device_hangs sampleConsts 0x08 0).2.1 [2, 2, 2] (by
      intro s hs
      have ht : (virtualReadRegister sampleConsts 0x08 [2, 2, 2]).trace =
          [BusOp.read 0 2, BusOp.read 0 2, BusOp.delay 5, BusOp.read 0 2, BusOp.delay 5] := by
        decide
      rw [ht] at hs
      simp [sampleConsts] at hs
      subst hs
      decide),
   (unresponsive_device_hangs sampleConsts 0x08 0).2.2.2.2.2 [0, 0, 0, 0, 0] (by
      intro i j s _ _ hj
      have ht : (virtualReadRegister sampleConsts 0x08 [0, 0, 0, 0, 0]).trace =
          [BusOp.read 0 0, BusOp.read 0 0, BusOp.write 1 8, BusOp.read 0 0, BusOp.delay 5,
           BusOp.read 0 0, BusOp.delay 5, BusOp.read 0 0, BusOp.delay 5] := by
        decide
      have hm := List.getElem?_mem hj
      rw [ht] at hm
      simp [sampleConsts] at hm
      subst hm
      decide)⟩


theorem readsFrom_status_drained {k : Consts} (hk : k.AS7265X_STATUS_REG ≠ k.AS7265X_READ_REG)
    (dr : List Nat) :
    readsFrom k.AS7265X_STATUS_REG (dr.map fun d => BusOp.read k.AS7265X_READ_REG (d % 256)) = [] := by
  induction dr with
  | nil => rfl
  | cons d t ih => simp [readsFrom, ih, Ne.symm hk]

theorem delaysOf_drained (k : Consts) (dr : List Nat) :
    delaysOf (dr.map fun d => BusOp.read k.AS7265X_READ_REG (d % 256)) = [] := by
  induction dr with
  | nil => rfl
  | cons d t ih => simp [delaysOf, ih]

/-- C12: a wait loop whose exit condition is first met by the `n + 1`-th STATUS
byte polled returns after exactly `n + 1` STATUS reads and `n` delays of
`AS7265X_POLLING_DELAY` ms, one after each unsuccessful poll, so each between two
consecutive polls.  Hence `virtualWriteRegister` and `virtualReadRegister` return
on every device on which each of their waits meets its condition (and only on
those).  On a device that meets each condition at the first poll they make no
delay: `virtualWriteRegister` reads STATUS twice, `virtualReadRegister` three
times. -/
theorem polling_cost (k : Consts) (hk : k.AS7265X_STATUS_REG ≠ k.AS7265X_READ_REG) :
    (∀ (ready : Nat → Bool) (busy : List Nat) (b : Nat) (rest : List Nat),
      (∀ x ∈ busy, ready (x % 256) = false) → ready (b % 256) = true →
      pollStatus k ready (busy ++ b :: rest) =
        ⟨some (), busyPolls k busy ++ [BusOp.read k.AS7265X_STATUS_REG (b % 256)], rest⟩ ∧
      (readsFrom k.AS7265X_STATUS_REG
        (busyPolls k busy ++ [BusOp.read k.AS7265X_STATUS_REG (b % 256)])).length =
          busy.length + 1 ∧
      delaysOf (busyPolls k busy ++ [BusOp.read k.AS7265X_STATUS_REG (b % 256)]) =
        List.replicate busy.length k.AS7265X_POLLING_DELAY) ∧
    (∀ virtualAddr dataToWrite busy1 b1 busy2 b2 rest, TxWait k busy1 b1 → TxWait k busy2 b2 →
      virtualWriteRegister k virtualAddr dataToWrite (writeScript busy1 b1 busy2 b2 rest) =
        ⟨some (), writeTrace k virtualAddr dataToWrite busy1 b1 busy2 b2, rest⟩) ∧
    (∀ virtualAddr b0 dr busy1 b1 busy2 b2 v rest,
      DrainBytes k b0 dr → TxWait k busy1 b1 → RxWait k busy2 b2 →
      virtualReadRegister k virtualAddr (readScript b0 dr busy1 b1 busy2 b2 v rest) =
        ⟨some (v % 256), readTrace k virtualAddr b0 dr busy1 b1 busy2 b2 v, rest⟩) ∧
    (∀ virtualAddr dataToWrite script,
      (virtualWriteRegister k virtualAddr dataToWrite script).result = some () →
      ∃ busy1 b1 busy2 b2,
        script = writeScript busy1 b1 busy2 b2
          (virtualWriteRegister k virtualAddr dataToWrite script).rest ∧
        TxWait k busy1 b1 ∧ TxWait k busy2 b2) ∧
    (∀ virtualAddr script r, (virtualReadRegister k virtualAddr script).result = some r →
      ∃ b0 dr busy1 b1 busy2 b2 v,
        script = readScript b0 dr busy1 b1 busy2 b2 v
          (virtualReadRegister k virtualAddr script).rest ∧
        DrainBytes k b0 dr ∧ TxWait k busy1 b1 ∧ RxWait k busy2 b2 ∧ r = v % 256) ∧
    (∀ virtualAddr dataToWrite b1 b2 rest,
      txClear k (b1 % 256) = true → txClear k (b2 % 256) = true →
      (virtualWriteRegister k virtualAddr dataToWrite (b1 :: b2 :: rest)).result = some () ∧
      delaysOf (virtualWriteRegister k virtualAddr dataToWrite (b1 :: b2 :: rest)).trace = [] ∧
      (readsFrom k.AS7265X_STATUS_REG
        (virtualWriteRegister k virtualAddr dataToWrite (b1 :: b2 :: rest)).trace).length = 2) ∧
    (∀ virtualAddr b0 dr b1 b2 v rest, DrainBytes k b0 dr →
      txClear k (b1 % 256) = true → rxSet k (b2 % 256) = true →
      (virtualReadRegister k virtualAddr (b0 :: (dr ++ b1 :: b2 :: v :: rest))).result =
        some (v % 256) ∧
      delaysOf (virtualReadRegister k virtualAddr (b0 :: (dr ++ b1 :: b2 :: v :: rest))).trace = [] ∧
      (readsFrom k.AS7265X_STATUS_REG
        (virtualReadRegister k virtualAddr (b0 :: (dr ++ b1 :: b2 :: v :: rest))).trace).length =
          3) := by
  refine ⟨fun ready busy b rest h hb => ⟨pollStatus_ready_after rest h hb, ?_, ?_⟩,
    fun va d busy1 b1 busy2 b2 rest h1 h2 => virtualWriteRegister_responds va d rest h1 h2,
    fun va b0 dr busy1 b1 busy2 b2 v rest hdr h1 h2 =>
      virtualReadRegister_responds va v rest hdr h1 h2,
    fun va d script h => virtualWriteRegister_returns h,
    fun va script r h => virtualReadRegister_returns h,
    fun va d b1 b2 rest h1 h2 => ?_, fun va b0 dr b1 b2 v rest hdr h1 h2 => ?_⟩
  · simp [readsFrom_append, readsFrom_status_busyPolls, readsFrom]
  · simp [delaysOf_append, delaysOf_busyPolls, delaysOf]
  · have hw1 : TxWait k [] b1 := ⟨by simp, h1⟩
    have hw2 : TxWait k [] b2 := ⟨by simp, h2⟩
    have e := virtualWriteRegister_responds va d rest hw1 hw2
    simp only [writeScript, List.nil_append] at e
    rw [e]
    simp [writeTrace, busyPolls, delaysOf, readsFrom]
  · have hw1 : TxWait k [] b1 := ⟨by simp, h1⟩
    have hw2 : RxWait k [] b2 := ⟨by simp, h2⟩
    have e := virtualReadRegister_responds va v rest hdr hw1 hw2
    simp only [readScript, List.nil_append] at e
    rw [e]
    simp [readTrace, busyPolls, delaysOf, readsFrom, delaysOf_append, readsFrom_append,
      readsFrom_status_drained hk, delaysOf_drained, Ne.symm hk]

/-- The statement of C12 on a wait that succeeds at the third poll and on devices
that answer every first poll. -/
theorem polling_cost_witness :
    (pollStatus sampleConsts (txClear sampleConsts) ([2, 2] ++ 0 :: [7]) =
        ⟨some (), busyPolls sampleConsts [2, 2] ++ [BusOp.read 0 (0 % 256)], [7]⟩ ∧
      (readsFrom sampleConsts.AS7265X_STATUS_REG
        (busyPolls sampleConsts [2, 2] ++ [BusOp.read 0 (0 % 256)])).length = [2, 2].length + 1 ∧
      delaysOf (busyPolls sampleConsts [2, 2] ++ [BusOp.read 0 (0 % 256)]) =
        List.replicate [2, 2].length 5) ∧
    ((virtualWriteRegister sampleConsts 0x4F 2 (0 :: 0 :: [])).result = some () ∧
      delaysOf (virtualWriteRegister sampleConsts 0x4F 2 (0 :: 0 :: [])).trace = [] ∧
      (readsFrom sampleConsts.AS7265X_STATUS_REG
        (virtualWriteRegister sampleConsts 0x4F 2 (0 :: 0 :: [])).trace).length = 2) ∧
    ((virtualReadRegister sampleConsts 0x08 (3 :: ([0xAA] ++ 0 :: 1 :: 0x12 :: []))).result =
        some (0x12 % 256) ∧
      delaysOf (virtualReadRegister sampleConsts 0x08
        (3 :: ([0xAA] ++ 0 :: 1 :: 0x12 :: []))).trace = [] ∧
      (readsFrom sampleConsts.AS7265X_STATUS_REG
        (virtualReadRegister sampleConsts 0x08
          (3 :: ([0xAA] ++ 0 :: 1 :: 0x12 :: []))).trace).length = 3) :=
  ⟨(polling_cost sampleConsts (by decide)).1 (txClear sampleConsts) [2, 2] 0 [7]
      (by decide) (by decide),
   (polling_cost sampleConsts (by decide)).2.2.2.2.2.1 0x4F 2 0 0 [] (by decide) (by decide),
   (polling_cost sampleConsts (by decide)).2.2.2.2.2.2 0x08 3 [0xAA] 0 1 0x12 []
      (by unfold DrainBytes; decide) (by decide) (by decide)⟩


set_option maxRecDepth 100000 in
theorem bit7_clear_iff {b : Nat} (h : b < 256) : b &&& 0x80 = 0 ↔ b < 128 := by
  have : ∀ x < 256, (x &&& 0x80 = 0 ↔ x < 128) := by decide
  exact this b h


theorem virtualWriteRegister_writesOf {k : Consts} {virtualAddr dataToWrite : Nat}
    {s : List Nat} (h : (virtualWriteRegister k virtualAddr dataToWrite s).result = some ()) :
    writesOf (virtualWriteRegister k virtualAddr dataToWrite s).trace =
      [(k.AS7265X_WRITE_REG, (virtualAddr ||| 1 <<< 7) % 256),
       (k.AS7265X_WRITE_REG, dataToWrite)] := by
  obtain ⟨p1, s1, p2, s2, ht, hp1, -, hp2, -⟩ := virtualWriteRegister_done h
  rw [ht]
  simp [writesOf_append, hp1.writesOf, hp2.writesOf, writesOf]

theorem getChannel_requests {k : Consts} {channelRegister device r : Nat} {script : List Nat}
    (h : (getChannel k channelRegister device script).result = some r) :
    (writesOf (getChannel k channelRegister device script).trace).drop 2 =
      [(k.AS7265X_WRITE_REG, channelRegister),
       (k.AS7265X_WRITE_REG, (channelRegister + 1) % 256)] := by
  unfold getChannel at h ⊢
  obtain ⟨_, hsel, h1, ht, -⟩ := Run.bind_done h
  obtain ⟨hi, hH, h2, ht1, -⟩ := Run.bind_done h1
  obtain ⟨lo, hL, -, ht2, -⟩ := Run.bind_done h2
  have hselw : writesOf (selectDevice k device script).trace = _ :=
    virtualWriteRegister_writesOf hsel
  rw [ht, ht1, ht2]
  simp only [writesOf_append, hselw,
    virtualReadRegister_writesOf hH, virtualReadRegister_writesOf hL, Run.pure, writesOf]
  rfl

theorem getCalibratedValue_requests {k : Consts} {calAddress device : Nat} {f : F32}
    {script : List Nat}
    (h : (getCalibratedValue k calAddress device script).result = some f) :
    (writesOf (getCalibratedValue k calAddress device script).trace).drop 2 =
      [(k.AS7265X_WRITE_REG, (calAddress + 0) % 256),
       (k.AS7265X_WRITE_REG, (calAddress + 1) % 256),
       (k.AS7265X_WRITE_REG, (calAddress + 2) % 256),
       (k.AS7265X_WRITE_REG, (calAddress + 3) % 256)] := by
  unfold getCalibratedValue at h ⊢
  obtain ⟨_, hsel, h1, ht, -⟩ := Run.bind_done h
  obtain ⟨c0, hc0, h2, ht1, -⟩ := Run.bind_done h1
  obtain ⟨c1, hc1, h3, ht2, -⟩ := Run.bind_done h2
  obtain ⟨c2, hc2, h4, ht3, -⟩ := Run.bind_done h3
  obtain ⟨c3, hc3, -, ht4, -⟩ := Run.bind_done h4
  have hselw : writesOf (selectDevice k device script).trace = _ :=
    virtualWriteRegister_writesOf hsel
  rw [ht, ht1, ht2, ht3, ht4]
  simp only [writesOf_append, hselw,
    virtualReadRegister_writesOf hc0, virtualReadRegister_writesOf hc1,
    virtualReadRegister_writesOf hc2, virtualReadRegister_writesOf hc3, Run.pure, writesOf]
  rfl

theorem shape_busyPolls (k : Consts) {l l' : List Nat} (h : l.length = l'.length) :
    (busyPolls k l).map BusOp.shape = (busyPolls k l').map BusOp.shape := by
  induction l generalizing l' with
  | nil =>
    cases l' with
    | nil => rfl
    | cons x t => simp at h
  | cons x t ih =>
    cases l' with
    | nil => simp at h
    | cons x' t' =>
      have := @ih t' (by simpa using h)
      simp [busyPolls, BusOp.shape, this]

theorem shape_drained (k : Consts) {l l' : List Nat} (h : l.length = l'.length) :
    (l.map fun d => BusOp.read k.AS7265X_READ_REG (d % 256)).map BusOp.shape =
      (l'.map fun d => BusOp.read k.AS7265X_READ_REG (d % 256)).map BusOp.shape := by
  induction l generalizing l' with
  | nil =>
    cases l' with
    | nil => rfl
    | cons x t => simp at h
  | cons x t ih =>
    cases l' with
    | nil => simp at h
    | cons x' t' =>
      have := @ih t' (by simpa using h)
      simpa [BusOp.shape] using this

theorem SameFlags.all_busy {k : Consts} {ready : Nat → Bool} {l l' : List Nat}
    (hready : ∀ b b', SameFlags k b b' → ready (b % 256) = ready (b' % 256))
    (h : List.Forall₂ (SameFlags k) l l') (hl : ∀ x ∈ l, ready (x % 256) = false) :
    ∀ x ∈ l', ready (x % 256) = false := by
  induction h with
  | nil => intro x hx; simp at hx
  | cons hab _ ih =>
    intro x hx
    rcases List.mem_cons.mp hx with rfl | hx
    · rw [← hready _ _ hab]
      exact hl _ (List.mem_cons_self _ _)
    · exact ih (fun y hy => hl y (List.mem_cons_of_mem _ hy)) x hx

/-- C14: take two devices on which `virtualReadRegister` is answered the same
final READ-register byte `v`, whose STATUS bytes agree pairwise on TX_VALID and
RX_VALID (other bits may differ), and whose stale bytes, the ones returned to the
preliminary drain read, are arbitrary.  If the call returns on the first it returns
on the second, both return `v`, and both perform the same operations in the same
order (the traces are equal once the bytes read are left out).  Every script on
which the call returns has the form taken for the first device. -/
theorem stale_byte_does_not_leak (k : Consts) (virtualAddr b0 b0' b1 b1' b2 b2' v : Nat)
    (dr dr' busy1 busy1' busy2 busy2' rest rest' : List Nat)
    (h0 : SameFlags k b0 b0') (hlen : dr.length = dr'.length)
    (h1 : List.Forall₂ (SameFlags k) busy1 busy1') (hb1 : SameFlags k b1 b1')
    (h2 : List.Forall₂ (SameFlags k) busy2 busy2') (hb2 : SameFlags k b2 b2')
    (hdr : DrainBytes k b0 dr) (hw : TxWait k busy1 b1) (hr : RxWait k busy2 b2) :
    virtualReadRegister k virtualAddr (readScript b0 dr busy1 b1 busy2 b2 v rest) =
      ⟨some (v % 256), readTrace k virtualAddr b0 dr busy1 b1 busy2 b2 v, rest⟩ ∧
    virtualReadRegister k virtualAddr (readScript b0' dr' busy1' b1' busy2' b2' v rest') =
      ⟨some (v % 256), readTrace k virtualAddr b0' dr' busy1' b1' busy2' b2' v, rest'⟩ ∧
    (readTrace k virtualAddr b0 dr busy1 b1 busy2 b2 v).map BusOp.shape =
      (readTrace k virtualAddr b0' dr' busy1' b1' busy2' b2' v).map BusOp.shape ∧
    (∀ script r, (virtualReadRegister k virtualAddr script).result = some r →
      ∃ c0 cdr cbusy1 c1 cbusy2 c2 cv,
        script = readScript c0 cdr cbusy1 c1 cbusy2 c2 cv
          (virtualReadRegister k virtualAddr script).rest ∧
        DrainBytes k c0 cdr ∧ TxWait k cbusy1 c1 ∧ RxWait k cbusy2 c2 ∧ r = cv % 256) := by
  have hdr' : DrainBytes k b0' dr' := by
    unfold DrainBytes at hdr ⊢
    rw [← hlen, ← h0.2]; exact hdr
  have hw' : TxWait k busy1' b1' :=
    ⟨SameFlags.all_busy (fun _ _ h => h.1) h1 hw.1, by rw [← hb1.1]; exact hw.2⟩
  have hr' : RxWait k busy2' b2' :=
    ⟨SameFlags.all_busy (fun _ _ h => h.2) h2 hr.1, by rw [← hb2.2]; exact hr.2⟩
  refine ⟨virtualReadRegister_responds _ v rest hdr hw hr,
    virtualReadRegister_responds _ v rest' hdr' hw' hr', ?_,
    fun _ _ h => virtualReadRegister_returns h⟩
  simp only [readTrace, List.map_cons, List.map_append, List.map_nil, BusOp.shape,
    shape_busyPolls k h1.length_eq, shape_busyPolls k h2.length_eq, shape_drained k hlen]

/-- The statement of C14 on two devices with different stale bytes and different
unused STATUS bits. -/
theorem stale_byte_does_not_leak_witness :
    (virtualReadRegister sampleConsts 0x08 (readScript 3 [0xAA] [2] 0 [0] 1 0x12 [])).result =
      some (0x12 % 256) ∧
    (virtualReadRegister sampleConsts 0x08 (readScript 0xF3 [0x55] [0x82] 0x40 [0x10] 0x21 0x12 [9])).result =
      some (0x12 % 256) ∧
    (readTrace sampleConsts 0x08 3 [0xAA] [2] 0 [0] 1 0x12).map BusOp.shape =
      (readTrace sampleConsts 0x08 0xF3 [0x55] [0x82] 0x40 [0x10] 0x21 0x12).map BusOp.shape :=
  have h := stale_byte_does_not_leak sampleConsts 0x08 3 0xF3 0 0x40 1 0x21 0x12
    [0xAA] [0x55] [2] [0x82] [0] [0x10] [] [9]
    (by unfold SameFlags; decide) rfl
    (List.Forall₂.cons (by unfold SameFlags; decide) List.Forall₂.nil)
    (by unfold SameFlags; decide)
    (List.Forall₂.cons (by unfold SameFlags; decide) List.Forall₂.nil)
    (by unfold SameFlags; decide)
    (by unfold DrainBytes; decide) (by unfold TxWait; decide) (by unfold RxWait; decide)
  ⟨by rw [h.1], by rw [h.2.1], h.2.2.1⟩


theorem getChannel_of_runs {k : Consts} {channelRegister device high low : Nat}
    {script s1 s2 s3 : List Nat} {tS tH tL : List BusOp}
    (hsel : selectDevice k device script = ⟨some (), tS, s1⟩)
    (hhigh : virtualReadRegister k channelRegister s1 = ⟨some high, tH, s2⟩)
    (hlow : virtualReadRegister k ((channelRegister + 1) % 256) s2 = ⟨some low, tL, s3⟩) :
    getChannel k channelRegister device script =
      ⟨some (colorDataOf high low), tS ++ (tH ++ tL), s3⟩ := by
  simp [getChannel, Run.bind, Run.pure, hsel, hhigh, hlow, colorDataOf]

theorem getCalibratedValue_of_runs {k : Consts} {calAddress device b0 b1 b2 b3 : Nat}
    {script s1 s2 s3 s4 s5 : List Nat} {tS t0 t1 t2 t3 : List BusOp}
    (hsel : selectDevice k device script = ⟨some (), tS, s1⟩)
    (h0 : virtualReadRegister k ((calAddress + 0) % 256) s1 = ⟨some b0, t0, s2⟩)
    (h1 : virtualReadRegister k ((calAddress + 1) % 256) s2 = ⟨some b1, t1, s3⟩)
    (h2 : virtualReadRegister k ((calAddress + 2) % 256) s3 = ⟨some b2, t2, s4⟩)
    (h3 : virtualReadRegister k ((calAddress + 3) % 256) s4 = ⟨some b3, t3, s5⟩) :
    getCalibratedValue k calAddress device script =
      ⟨some (convertBytesToFloat (calBytesOf b0 b1 b2 b3)),
        tS ++ (t0 ++ (t1 ++ (t2 ++ t3))), s5⟩ := by
  simp only [getCalibratedValue, Run.bind, Run.pure, hsel, h0, h1, h2, h3, calBytesOf,
    List.append_nil]

theorem colorDataOf_eq {high low : Nat} (hh : high < 256) (hl : low < 256) :
    colorDataOf high low = 256 * high + low :=
  (compose16 hh hl).1

theorem calBytesOf_eq {b0 b1 b2 b3 : Nat} (h0 : b0 < 256) (h1 : b1 < 256) (h2 : b2 < 256)
    (h3 : b3 < 256) : calBytesOf b0 b1 b2 b3 = b0 * 2 ^ 24 + b1 * 2 ^ 16 + b2 * 2 ^ 8 + b3 := by
  have h := compose32 h0 h1 h2 h3
  have hlt : calBytesOf b0 b1 b2 b3 < 2 ^ 32 := by
    unfold calBytesOf
    have e0 : (b0 <<< (8 * 3)) % 2 ^ 32 < 2 ^ 32 := Nat.mod_lt _ (by decide)
    have e1 : (b1 <<< (8 * 2)) % 2 ^ 32 < 2 ^ 32 := Nat.mod_lt _ (by decide)
    have e2 : (b2 <<< (8 * 1)) % 2 ^ 32 < 2 ^ 32 := Nat.mod_lt _ (by decide)
    have e3 : (b3 <<< (8 * 0)) % 2 ^ 32 < 2 ^ 32 := Nat.mod_lt _ (by decide)
    exact Nat.or_lt_two_pow (Nat.or_lt_two_pow (Nat.or_lt_two_pow
      (Nat.or_lt_two_pow (by decide) e0) e1) e2) e3
  rw [← h]
  exact (Nat.mod_eq_of_lt hlt).symm

theorem and_0xFF (x : Nat) : x &&& 0xFF = x % 256 := by
  have h := Nat.and_pow_two_sub_one_eq_mod x 8
  simpa using h

theorem colorDataOf_bytes {high low : Nat} (hh : high < 256) (hl : low < 256) :
    colorDataOf high low >>> 8 = high ∧ colorDataOf high low &&& 0xFF = low := by
  rw [colorDataOf_eq hh hl, and_0xFF, Nat.shiftRight_eq_div_pow]
  constructor <;> omega

theorem calBytesOf_bytes {b0 b1 b2 b3 : Nat} (h0 : b0 < 256) (h1 : b1 < 256) (h2 : b2 < 256)
    (h3 : b3 < 256) :
    (calBytesOf b0 b1 b2 b3 >>> 24) &&& 0xFF = b0 ∧
    (calBytesOf b0 b1 b2 b3 >>> 16) &&& 0xFF = b1 ∧
    (calBytesOf b0 b1 b2 b3 >>> 8) &&& 0xFF = b2 ∧
    calBytesOf b0 b1 b2 b3 &&& 0xFF = b3 := by
  rw [calBytesOf_eq h0 h1 h2 h3]
  simp only [and_0xFF, Nat.shiftRight_eq_div_pow]
  refine ⟨?_, ?_, ?_, ?_⟩ <;> omega


theorem virtualReadRegister_prompt {k : Consts} (hrx : k.AS7265X_RX_VALID ≠ 0)
    (hrx' : k.AS7265X_RX_VALID < 256) (virtualAddr v : Nat) (rest : List Nat) :
    virtualReadRegister k virtualAddr (readScript 0 [] [] 0 [] k.AS7265X_RX_VALID v rest) =
      ⟨some (v % 256), readTrace k virtualAddr 0 [] [] 0 [] k.AS7265X_RX_VALID v, rest⟩ := by
  refine virtualReadRegister_responds virtualAddr v rest ?_ ?_ ?_
  · simp [DrainBytes, rxSet]
  · simp [TxWait, txClear]
  · simp [RxWait, rxSet, Nat.mod_eq_of_lt hrx', hrx]

theorem selectDevice_prompt (k : Consts) (device : Nat) (rest : List Nat) :
    selectDevice k device (writeScript [] 0 [] 0 rest) =
      ⟨some (), writeTrace k k.AS7265X_DEV_SELECT_CONTROL device [] 0 [] 0, rest⟩ := by
  refine virtualWriteRegister_responds _ device rest ?_ ?_ <;> simp [TxWait, txClear]

theorem getChannel_reaches {k : Consts} (hrx : k.AS7265X_RX_VALID ≠ 0)
    (hrx' : k.AS7265X_RX_VALID < 256) (channelRegister device : Nat) {r : Nat}
    (hr : r < 65536) :
    ∃ script, (getChannel k channelRegister device script).result = some r := by
  refine ⟨writeScript [] 0 [] 0 (readScript 0 [] [] 0 [] k.AS7265X_RX_VALID (r / 256)
    (readScript 0 [] [] 0 [] k.AS7265X_RX_VALID (r % 256) [])), ?_⟩
  rw [getChannel_of_runs (selectDevice_prompt k device _)
    (virtualReadRegister_prompt hrx hrx' _ _ _) (virtualReadRegister_prompt hrx hrx' _ _ _)]
  have h1 : r / 256 % 256 < 256 := Nat.mod_lt _ (by decide)
  have h2 : r % 256 % 256 < 256 := Nat.mod_lt _ (by decide)
  simp only [colorDataOf_eq h1 h2, Option.some.injEq]
  omega

theorem getCalibratedValue_reaches {k : Consts} (hrx : k.AS7265X_RX_VALID ≠ 0)
    (hrx' : k.AS7265X_RX_VALID < 256) (calAddress device : Nat) {w : Nat}
    (hw : w < 2 ^ 32) :
    ∃ script, (getCalibratedValue k calAddress device script).result = some ⟨w⟩ := by
  refine ⟨writeScript [] 0 [] 0 (readScript 0 [] [] 0 [] k.AS7265X_RX_VALID (w / 2 ^ 24)
    (readScript 0 [] [] 0 [] k.AS7265X_RX_VALID (w / 2 ^ 16)
      (readScript 0 [] [] 0 [] k.AS7265X_RX_VALID (w / 2 ^ 8)
        (readScript 0 [] [] 0 [] k.AS7265X_RX_VALID w [])))), ?_⟩
  rw [getCalibratedValue_of_runs (selectDevice_prompt k device _)
    (virtualReadRegister_prompt hrx hrx' _ _ _) (virtualReadRegister_prompt hrx hrx' _ _ _)
    (virtualReadRegister_prompt hrx hrx' _ _ _) (virtualReadRegister_prompt hrx hrx' _ _ _)]
  have h0 : w / 2 ^ 24 % 256 < 256 := Nat.mod_lt _ (by decide)
  have h1 : w / 2 ^ 16 % 256 < 256 := Nat.mod_lt _ (by decide)
  have h2 : w / 2 ^ 8 % 256 < 256 := Nat.mod_lt _ (by decide)
  have h3 : w % 256 < 256 := Nat.mod_lt _ (by decide)
  simp only [convertBytesToFloat, calBytesOf_eq h0 h1 h2 h3, Option.some.injEq, F32.mk.injEq]
  omega

/-- C15: the reassembly loses nothing.  The 16-bit result `r` of `getChannel`
built from the bytes `high`, `low` has `r >> 8 = high` and `r & 0xFF = low`; the
32-bit word `w` built by `getCalibratedValue` from `b0 .. b3` has
`(w >> 24) & 0xFF = b0`, `(w >> 16) & 0xFF = b1`, `(w >> 8) & 0xFF = b2`,
`w & 0xFF = b3`, and is stored unchanged in the `float`.  So different byte tuples
give different words, every 16-bit value and every 32-bit pattern is the word of
some byte tuple, and, RX_VALID being a non-zero byte mask, each is returned by
`getChannel`, respectively `getCalibratedValue`, on some device. -/
theorem reassembly_lossless (k : Consts) :
    (∀ channelRegister device high low script s1 s2 s3 tS tH tL,
      selectDevice k device script = ⟨some (), tS, s1⟩ →
      virtualReadRegister k channelRegister s1 = ⟨some high, tH, s2⟩ →
      virtualReadRegister k ((channelRegister + 1) % 256) s2 = ⟨some low, tL, s3⟩ →
      (getChannel k channelRegister device script).result = some (colorDataOf high low) ∧
      colorDataOf high low >>> 8 = high ∧ colorDataOf high low &&& 0xFF = low) ∧
    (∀ calAddress device b0 b1 b2 b3 script s1 s2 s3 s4 s5 tS t0 t1 t2 t3,
      selectDevice k device script = ⟨some (), tS, s1⟩ →
      virtualReadRegister k ((calAddress + 0) % 256) s1 = ⟨some b0, t0, s2⟩ →
      virtualReadRegister k ((calAddress + 1) % 256) s2 = ⟨some b1, t1, s3⟩ →
      virtualReadRegister k ((calAddress + 2) % 256) s3 = ⟨some b2, t2, s4⟩ →
      virtualReadRegister k ((calAddress + 3) % 256) s4 = ⟨some b3, t3, s5⟩ →
      (getCalibratedValue k calAddress device script).result =
        some (convertBytesToFloat (calBytesOf b0 b1 b2 b3)) ∧
      (convertBytesToFloat (calBytesOf b0 b1 b2 b3)).bits = calBytesOf b0 b1 b2 b3 ∧
      (calBytesOf b0 b1 b2 b3 >>> 24) &&& 0xFF = b0 ∧
      (calBytesOf b0 b1 b2 b3 >>> 16) &&& 0xFF = b1 ∧
      (calBytesOf b0 b1 b2 b3 >>> 8) &&& 0xFF = b2 ∧
      calBytesOf b0 b1 b2 b3 &&& 0xFF = b3) ∧
    (∀ high low high' low', high < 256 → low < 256 → high' < 256 → low' < 256 →
      colorDataOf high low = colorDataOf high' low' → high = high' ∧ low = low') ∧
    (∀ b0 b1 b2 b3 c0 c1 c2 c3, b0 < 256 → b1 < 256 → b2 < 256 → b3 < 256 →
      c0 < 256 → c1 < 256 → c2 < 256 → c3 < 256 →
      calBytesOf b0 b1 b2 b3 = calBytesOf c0 c1 c2 c3 →
      b0 = c0 ∧ b1 = c1 ∧ b2 = c2 ∧ b3 = c3) ∧
    (∀ r, r < 65536 → ∃ high low, high < 256 ∧ low < 256 ∧ colorDataOf high low = r) ∧
    (∀ w, w < 2 ^ 32 → ∃ b0 b1 b2 b3, b0 < 256 ∧ b1 < 256 ∧ b2 < 256 ∧ b3 < 256 ∧
      calBytesOf b0 b1 b2 b3 = w) ∧
    (k.AS7265X_RX_VALID ≠ 0 → k.AS7265X_RX_VALID < 256 →
      ∀ channelRegister device r, r < 65536 →
        ∃ script, (getChannel k channelRegister device script).result = some r) ∧
    (k.AS7265X_RX_VALID ≠ 0 → k.AS7265X_RX_VALID < 256 →
      ∀ calAddress device w, w < 2 ^ 32 →
        ∃ script, (getCalibratedValue k calAddress device script).result = some ⟨w⟩) := by
  refine ⟨?_, ?_, ?_, ?_, ?_, ?_,
    fun hrx hrx' reg dev r hr => getChannel_reaches hrx hrx' reg dev hr,
    fun hrx hrx' reg dev w hw => getCalibratedValue_reaches hrx hrx' reg dev hw⟩
  · intro reg dev high low script s1 s2 s3 tS tH tL hsel hhigh hlow
    obtain ⟨hh, -⟩ := virtualReadRegister_lt hhigh
    obtain ⟨hl, -⟩ := virtualReadRegister_lt hlow
    obtain ⟨e1, e2⟩ := colorDataOf_bytes hh hl
    exact ⟨by rw [getChannel_of_runs hsel hhigh hlow], e1, e2⟩
  · intro reg dev b0 b1 b2 b3 script s1 s2 s3 s4 s5 tS t0 t1 t2 t3 hsel h0 h1 h2 h3
    obtain ⟨hb0, -⟩ := virtualReadRegister_lt h0
    obtain ⟨hb1, -⟩ := virtualReadRegister_lt h1
    obtain ⟨hb2, -⟩ := virtualReadRegister_lt h2
    obtain ⟨hb3, -⟩ := virtualReadRegister_lt h3
    obtain ⟨e0, e1, e2, e3⟩ := calBytesOf_bytes hb0 hb1 hb2 hb3
    refine ⟨by rw [getCalibratedValue_of_runs hsel h0 h1 h2 h3], ?_, e0, e1, e2, e3⟩
    simp only [convertBytesToFloat]
    apply Nat.mod_eq_of_lt
    rw [calBytesOf_eq hb0 hb1 hb2 hb3]
    omega
  · intro high low high' low' hh hl hh' hl' h
    rw [colorDataOf_eq hh hl, colorDataOf_eq hh' hl'] at h
    constructor <;> omega
  · intro b0 b1 b2 b3 c0 c1 c2 c3 hb0 hb1 hb2 hb3 hc0 hc1 hc2 hc3 h
    rw [calBytesOf_eq hb0 hb1 hb2 hb3, calBytesOf_eq hc0 hc1 hc2 hc3] at h
    refine ⟨?_, ?_, ?_, ?_⟩ <;> omega
  · intro r hr
    have h1 : r / 256 < 256 := by omega
    have h2 : r % 256 < 256 := by omega
    exact ⟨r / 256, r % 256, h1, h2, by rw [colorDataOf_eq h1 h2]; omega⟩
  · intro w hw
    have h0 : w / 2 ^ 24 < 256 := by omega
    have h1 : w / 2 ^ 16 % 256 < 256 := by omega
    have h2 : w / 2 ^ 8 % 256 < 256 := by omega
    have h3 : w % 256 < 256 := by omega
    exact ⟨w / 2 ^ 24, w / 2 ^ 16 % 256, w / 2 ^ 8 % 256, w % 256, h0, h1, h2, h3,
      by rw [calBytesOf_eq h0 h1 h2 h3]; omega⟩

/-- The statement of C15 at the values `0x1234` and `0x3F800000`. -/
theorem reassembly_lossless_witness :
    (∃ script, (getChannel sampleConsts 0x08 2 script).result = some 0x1234) ∧
    (∃ script, (getCalibratedValue sampleConsts 0x14 2 script).result = some ⟨0x3F800000⟩) ∧
    (colorDataOf 0x12 0x34 >>> 8 = 0x12 ∧ colorDataOf 0x12 0x34 &&& 0xFF = 0x34) :=
  ⟨(reassembly_lossless sampleConsts).2.2.2.2.2.2.1 (by decide) (by decide) 0x08 2 0x1234
      (by decide),
   (reassembly_lossless sampleConsts).2.2.2.2.2.2.2 (by decide) (by decide) 0x14 2 0x3F800000
      (by decide),
   ((reassembly_lossless sampleConsts).1 0x08 2 0x12 0x34
      [0, 0, 0, 0, 1, 0x12, 0, 0, 1, 0x34] [0, 0, 1, 0x12, 0, 0, 1, 0x34] [0, 0, 1, 0x34] []
      [BusOp.read 0 0, BusOp.write 1 0xCF, BusOp.read 0 0, BusOp.write 1 2]
      [BusOp.read 0 0, BusOp.read 0 0, BusOp.write 1 0x08, BusOp.read 0 1, BusOp.read 2 0x12]
      [BusOp.read 0 0, BusOp.read 0 0, BusOp.write 1 0x09, BusOp.read 0 1, BusOp.read 2 0x34]
      (by decide) (by decide) (by decide)).2⟩


theorem Run.bind_trace_of_some {α β : Type} {r : Run α} {a : α} (h : r.result = some a)
    (f : α → List Nat → Run β) : (r.bind f).trace = r.trace ++ (f a r.rest).trace := by
  simp [Run.bind, h]

theorem writesWithin_bind {α β : Type} {r : Run α} {f : α → List Nat → Run β}
    {L M : List (Nat × Nat)} (h1 : WritesWithin r L) (h2 : ∀ a s, WritesWithin (f a s) M) :
    WritesWithin (r.bind f) (L ++ M) := by
  cases hr : r.result with
  | none =>
    rw [Run.bind_of_none hr]
    exact ⟨h1.1.trans (List.prefix_append _ _), fun a ha => by simp at ha⟩
  | some a =>
    rw [Run.bind_of_some hr]
    refine ⟨?_, fun b hb => ?_⟩
    · simp only [writesOf_append, h1.2 a hr]
      exact (List.prefix_append_right_inj _).mpr (h2 a r.rest).1
    · simp only [writesOf_append, h1.2 a hr, (h2 a r.rest).2 b hb]

theorem writesWithin_of_pollOnly {k : Consts} {α : Type} {r : Run α} (h : PollOnly k r.trace) :
    WritesWithin r [] :=
  ⟨by rw [h.writesOf], fun _ _ => h.writesOf⟩

theorem writesWithin_pollStatus (k : Consts) (ready : Nat → Bool) (s : List Nat) :
    WritesWithin (pollStatus k ready s) [] :=
  writesWithin_of_pollOnly (pollStatus_pollOnly k ready s)

theorem writesWithin_readRegister (addr : Nat) (s : List Nat) :
    WritesWithin (readRegister addr s) [] := by
  cases s with
  | nil => exact ⟨by simp [readRegister, writesOf], fun a ha => by simp [readRegister] at ha⟩
  | cons b rest => exact ⟨by simp [readRegister, writesOf], fun _ _ => by simp [readRegister, writesOf]⟩

theorem writesWithin_writeRegister (addr val : Nat) (s : List Nat) :
    WritesWithin (writeRegister addr val s) [(addr, val)] :=
  ⟨by simp [writeRegister, writesOf], fun _ _ => by simp [writeRegister, writesOf]⟩

theorem writesWithin_pure {α : Type} (a : α) (s : List Nat) : WritesWithin (Run.pure a s) [] :=
  ⟨by simp [Run.pure, writesOf], fun _ _ => by simp [Run.pure, writesOf]⟩

theorem writesWithin_virtualReadRegister (k : Consts) (virtualAddr : Nat) (s : List Nat) :
    WritesWithin (virtualReadRegister k virtualAddr s) [(k.AS7265X_WRITE_REG, virtualAddr)] := by
  have h : WritesWithin (virtualReadRegister k virtualAddr s)
      ([] ++ ([] ++ ([] ++ ([(k.AS7265X_WRITE_REG, virtualAddr)] ++ ([] ++ []))))) := by
    refine writesWithin_bind (writesWithin_readRegister _ _) fun status s1 =>
      writesWithin_bind ?_ fun _ s2 =>
        writesWithin_bind (writesWithin_pollStatus k _ s2) fun _ s3 =>
          writesWithin_bind (writesWithin_writeRegister _ _ s3) fun _ s4 =>
            writesWithin_bind (writesWithin_pollStatus k _ s4) fun _ s5 =>
              writesWithin_readRegister _ s5
    by_cases hst : status &&& k.AS7265X_RX_VALID ≠ 0
    · simp only [if_pos hst]
      exact writesWithin_bind (L := []) (M := []) (writesWithin_readRegister _ _)
        fun _ s => writesWithin_pure () s
    · simp only [if_neg hst]
      exact writesWithin_pure () s1
  simpa using h



theorem writesWithin_virtualWriteRegister (k : Consts) (virtualAddr dataToWrite : Nat)
    (s : List Nat) :
    WritesWithin (virtualWriteRegister k virtualAddr dataToWrite s)
      [(k.AS7265X_WRITE_REG, (virtualAddr ||| 1 <<< 7) % 256),
       (k.AS7265X_WRITE_REG, dataToWrite)] := by
  have h : WritesWithin (virtualWriteRegister k virtualAddr dataToWrite s)
      ([] ++ ([(k.AS7265X_WRITE_REG, (virtualAddr ||| 1 <<< 7) % 256)] ++
        ([] ++ [(k.AS7265X_WRITE_REG, dataToWrite)]))) :=
    writesWithin_bind (writesWithin_pollStatus k _ s) fun _ s1 =>
      writesWithin_bind (writesWithin_writeRegister _ _ s1) fun _ s2 =>
        writesWithin_bind (writesWithin_pollStatus k _ s2) fun _ s3 =>
          writesWithin_writeRegister _ _ s3
  simpa using h

theorem writesWithin_getChannel (k : Consts) (channelRegister device : Nat) (s : List Nat) :
    WritesWithin (getChannel k channelRegister device s)
      [(k.AS7265X_WRITE_REG, (k.AS7265X_DEV_SELECT_CONTROL ||| 1 <<< 7) % 256),
       (k.AS7265X_WRITE_REG, device),
       (k.AS7265X_WRITE_REG, channelRegister),
       (k.AS7265X_WRITE_REG, (channelRegister + 1) % 256)] := by
  have h : WritesWithin (getChannel k channelRegister device s)
      ([(k.AS7265X_WRITE_REG, (k.AS7265X_DEV_SELECT_CONTROL ||| 1 <<< 7) % 256),
        (k.AS7265X_WRITE_REG, device)] ++
        ([(k.AS7265X_WRITE_REG, channelRegister)] ++
          ([(k.AS7265X_WRITE_REG, (channelRegister + 1) % 256)] ++ []))) :=
    writesWithin_bind (writesWithin_virtualWriteRegister k _ _ s) fun _ s1 =>
      writesWithin_bind (writesWithin_virtualReadRegister k _ s1) fun _ s2 =>
        writesWithin_bind (writesWithin_virtualReadRegister k _ s2) fun _ s3 =>
          writesWithin_pure _ s3
  simpa using h

theorem writesWithin_getCalibratedValue (k : Consts) (calAddress device : Nat) (s : List Nat) :
    WritesWithin (getCalibratedValue k calAddress device s)
      [(k.AS7265X_WRITE_REG, (k.AS7265X_DEV_SELECT_CONTROL ||| 1 <<< 7) % 256),
       (k.AS7265X_WRITE_REG, device),
       (k.AS7265X_WRITE_REG, (calAddress + 0) % 256),
       (k.AS7265X_WRITE_REG, (calAddress + 1) % 256),
       (k.AS7265X_WRITE_REG, (calAddress + 2) % 256),
       (k.AS7265X_WRITE_REG, (calAddress + 3) % 256)] := by
  have h : WritesWithin (getCalibratedValue k calAddress device s)
      ([(k.AS7265X_WRITE_REG, (k.AS7265X_DEV_SELECT_CONTROL ||| 1 <<< 7) % 256),
        (k.AS7265X_WRITE_REG, device)] ++
        ([(k.AS7265X_WRITE_REG, (calAddress + 0) % 256)] ++
          ([(k.AS7265X_WRITE_REG, (calAddress + 1) % 256)] ++
            ([(k.AS7265X_WRITE_REG, (calAddress + 2) % 256)] ++
              ([(k.AS7265X_WRITE_REG, (calAddress + 3) % 256)] ++ []))))) :=
    writesWithin_bind (writesWithin_virtualWriteRegister k _ _ s) fun _ s1 =>
      writesWithin_bind (writesWithin_virtualReadRegister k _ s1) fun _ s2 =>
        writesWithin_bind (writesWithin_virtualReadRegister k _ s2) fun _ s3 =>
          writesWithin_bind (writesWithin_virtualReadRegister k _ s3) fun _ s4 =>
            writesWithin_bind (writesWithin_virtualReadRegister k _ s4) fun _ s5 =>
              writesWithin_pure _ s5
  simpa only [List.append_nil, List.cons_append, List.nil_append] using h

theorem writesOf_drained (k : Consts) (dr : List Nat) :
    writesOf (dr.map fun d => BusOp.read k.AS7265X_READ_REG (d % 256)) = [] := by
  induction dr with
  | nil => rfl
  | cons d t ih => simpa [writesOf] using ih

theorem virtualReadRegister_sends {k : Consts} (virtualAddr : Nat) {s : List Nat}
    (h : SendsRequest k s) :
    writesOf (virtualReadRegister k virtualAddr s).trace =
      [(k.AS7265X_WRITE_REG, virtualAddr)] := by
  obtain ⟨b0, dr, busy1, b1, rest, rfl, hdr, hw⟩ := h
  have hpre := (writesWithin_virtualReadRegister k virtualAddr
    (b0 :: (dr ++ (busy1 ++ b1 :: rest)))).1
  apply hpre.eq_of_length_le
  have hww : (waitThenWrite k virtualAddr (busy1 ++ b1 :: rest)).result = some () := by
    simp [waitThenWrite, Run.bind, writeRegister, pollStatus_ready_after _ hw.1 hw.2]
  have htr : writesOf (waitThenWrite k virtualAddr (busy1 ++ b1 :: rest)).trace =
      [(k.AS7265X_WRITE_REG, virtualAddr)] := by
    obtain ⟨polls, st, ht, -, hp⟩ := waitThenWrite_done hww
    rw [ht]
    simp [writesOf_append, hp.writesOf, writesOf]
  rw [virtualReadRegister_eq,
    Run.bind_trace_of_some (a := ()) (by rw [drainStale_responds _ hdr]),
    drainStale_responds _ hdr, Run.bind_trace_of_some hww]
  simp [writesOf, writesOf_append, htr, writesOf_drained]


theorem writes_after_returned {k : Consts} {β : Type} {virtualAddr v : Nat} {s : List Nat}
    (h : (virtualReadRegister k virtualAddr s).result = some v) (f : Nat → List Nat → Run β) :
    writesOf ((virtualReadRegister k virtualAddr s).bind f).trace =
      (k.AS7265X_WRITE_REG, virtualAddr) ::
        writesOf (f v (virtualReadRegister k virtualAddr s).rest).trace := by
  rw [Run.bind_trace_of_some h, writesOf_append, virtualReadRegister_writesOf h]
  rfl

theorem writes_after_sent {k : Consts} {β : Type} (virtualAddr : Nat) {s : List Nat}
    (h : SendsRequest k s) (f : Nat → List Nat → Run β) :
    ∃ t, writesOf ((virtualReadRegister k virtualAddr s).bind f).trace =
      (k.AS7265X_WRITE_REG, virtualAddr) :: t := by
  obtain ⟨t, ht⟩ := Run.bind_trace_prefix (virtualReadRegister k virtualAddr s) f
  exact ⟨writesOf t, by rw [ht, writesOf_append, virtualReadRegister_sends virtualAddr h]; rfl⟩

theorem writes_after_select {k : Consts} {β : Type} {device : Nat} {s : List Nat}
    (h : (selectDevice k device s).result = some ()) (f : Unit → List Nat → Run β) :
    writesOf ((selectDevice k device s).bind f).trace =
      (k.AS7265X_WRITE_REG, (k.AS7265X_DEV_SELECT_CONTROL ||| 1 <<< 7) % 256) ::
        (k.AS7265X_WRITE_REG, device) ::
          writesOf (f () (selectDevice k device s).rest).trace := by
  have hw : writesOf (selectDevice k device s).trace = _ := virtualWriteRegister_writesOf h
  rw [Run.bind_trace_of_some h, writesOf_append, hw]
  rfl

theorem getCalibratedValue_sends {k : Consts} {base device i : Nat} {script s : List Nat}
    (hi : i < 4) (hs : scriptAtRead k base device script i = some s)
    (hreq : SendsRequest k s) :
    (writesOf (getCalibratedValue k base device script).trace)[2 + i]? =
      some (k.AS7265X_WRITE_REG, (base + i) % 256) := by
  unfold getCalibratedValue
  match i, hi with
  | 0, _ =>
    simp only [scriptAtRead, Option.map_eq_some'] at hs
    obtain ⟨_, hsel, rfl⟩ := hs
    obtain ⟨t, ht⟩ := writes_after_sent ((base + 0) % 256) hreq _
    rw [writes_after_select hsel, ht]
    simp
  | 1, _ =>
    simp only [scriptAtRead, Option.bind_eq_some, Option.map_eq_some'] at hs
    obtain ⟨_, ⟨_, hsel, rfl⟩, _, h0, rfl⟩ := hs
    obtain ⟨t, ht⟩ := writes_after_sent ((base + 1) % 256) hreq _
    rw [writes_after_select hsel, writes_after_returned h0, ht]
    simp
  | 2, _ =>
    simp only [scriptAtRead, Option.bind_eq_some, Option.map_eq_some'] at hs
    obtain ⟨_, ⟨_, ⟨_, hsel, rfl⟩, _, h0, rfl⟩, _, h1, rfl⟩ := hs
    obtain ⟨t, ht⟩ := writes_after_sent ((base + 2) % 256) hreq _
    rw [writes_after_select hsel, writes_after_returned h0, writes_after_returned h1, ht]
    simp
  | 3, _ =>
    simp only [scriptAtRead, Option.bind_eq_some, Option.map_eq_some'] at hs
    obtain ⟨_, ⟨_, ⟨_, ⟨_, hsel, rfl⟩, _, h0, rfl⟩, _, h1, rfl⟩, _, h2, rfl⟩ := hs
    obtain ⟨t, ht⟩ := writes_after_sent ((base + 3) % 256) hreq _
    rw [writes_after_select hsel, writes_after_returned h0, writes_after_returned h1,
      writes_after_returned h2, ht]
    simp

theorem getChannel_sends {k : Consts} {base device i : Nat} {script s : List Nat}
    (hbase : base < 256) (hi : i < 2) (hs : scriptAtRead k base device script i = some s)
    (hreq : SendsRequest k s) :
    (writesOf (getChannel k base device script).trace)[2 + i]? =
      some (k.AS7265X_WRITE_REG, (base + i) % 256) := by
  have e0 : (base + 0) % 256 = base := Nat.mod_eq_of_lt hbase
  unfold getChannel
  match i, hi with
  | 0, _ =>
    simp only [scriptAtRead, Option.map_eq_some'] at hs
    obtain ⟨_, hsel, rfl⟩ := hs
    obtain ⟨t, ht⟩ := writes_after_sent base hreq _
    rw [writes_after_select hsel, ht, e0]
    simp
  | 1, _ =>
    simp only [scriptAtRead, Option.bind_eq_some, Option.map_eq_some', e0] at hs
    obtain ⟨_, ⟨_, hsel, rfl⟩, _, h0, rfl⟩ := hs
    obtain ⟨t, ht⟩ := writes_after_sent ((base + 1) % 256) hreq _
    rw [writes_after_select hsel, writes_after_returned h0, ht]
    simp


theorem getElem?_of_prefix {α : Type} {l m : List α} (h : l <+: m) {j : Nat} {x : α}
    (hx : l[j]? = some x) : m[j]? = some x := by
  obtain ⟨t, rfl⟩ := h
  obtain ⟨hj, -⟩ := List.getElem?_eq_some.mp hx
  rw [List.getElem?_append_left hj]
  exact hx

/-- C13: for a base address `base` (a `uint8_t`), in every run of `getChannel`,
returned or not, the writes are an initial part of: the two bytes of the device
selection, then the requests `(base + i) mod 256` for `i = 0, 1`; the same for
`getCalibratedValue` with `i = 0..3`.  So the `i`-th request sent is
`(base + i) mod 256`, and it is sent as soon as the calls before it have returned
and the wait for TX_VALID of the `i`-th virtual read has ended, whether or not the
call returns later.  The requests are all the consecutive addresses `base + i`
with bit 7 clear exactly when `base ≤ 126`, respectively `base ≤ 124`.  From base
127 the second request of `getChannel` is `0x80`, from base 255 it is `0x00`. -/
theorem request_addresses_wrap (k : Consts) (base device : Nat) (script : List Nat)
    (hbase : base < 256) :
    writesOf (getChannel k base device script).trace <+:
      [(k.AS7265X_WRITE_REG, (k.AS7265X_DEV_SELECT_CONTROL ||| 1 <<< 7) % 256),
       (k.AS7265X_WRITE_REG, device),
       (k.AS7265X_WRITE_REG, (base + 0) % 256), (k.AS7265X_WRITE_REG, (base + 1) % 256)] ∧
    writesOf (getCalibratedValue k base device script).trace <+:
      [(k.AS7265X_WRITE_REG, (k.AS7265X_DEV_SELECT_CONTROL ||| 1 <<< 7) % 256),
       (k.AS7265X_WRITE_REG, device),
       (k.AS7265X_WRITE_REG, (base + 0) % 256), (k.AS7265X_WRITE_REG, (base + 1) % 256),
       (k.AS7265X_WRITE_REG, (base + 2) % 256), (k.AS7265X_WRITE_REG, (base + 3) % 256)] ∧
    (∀ i x, (writesOf (getChannel k base device script).trace)[2 + i]? = some x →
      x = (k.AS7265X_WRITE_REG, (base + i) % 256)) ∧
    (∀ i x, (writesOf (getCalibratedValue k base device script).trace)[2 + i]? = some x →
      x = (k.AS7265X_WRITE_REG, (base + i) % 256)) ∧
    (∀ i s, i < 2 → scriptAtRead k base device script i = some s → SendsRequest k s →
      (writesOf (getChannel k base device script).trace)[2 + i]? =
        some (k.AS7265X_WRITE_REG, (base + i) % 256)) ∧
    (∀ i s, i < 4 → scriptAtRead k base device script i = some s → SendsRequest k s →
      (writesOf (getCalibratedValue k base device script).trace)[2 + i]? =
        some (k.AS7265X_WRITE_REG, (base + i) % 256)) ∧
    (∀ r, (getChannel k base device script).result = some r →
      (writesOf (getChannel k base device script).trace).drop 2 =
        [(k.AS7265X_WRITE_REG, (base + 0) % 256), (k.AS7265X_WRITE_REG, (base + 1) % 256)]) ∧
    (∀ f, (getCalibratedValue k base device script).result = some f →
      (writesOf (getCalibratedValue k base device script).trace).drop 2 =
        [(k.AS7265X_WRITE_REG, (base + 0) % 256), (k.AS7265X_WRITE_REG, (base + 1) % 256),
         (k.AS7265X_WRITE_REG, (base + 2) % 256), (k.AS7265X_WRITE_REG, (base + 3) % 256)]) ∧
    ((∀ i, i < 2 → (base + i) % 256 = base + i ∧ (base + i) % 256 &&& 0x80 = 0) ↔ base ≤ 126) ∧
    ((∀ i, i < 4 → (base + i) % 256 = base + i ∧ (base + i) % 256 &&& 0x80 = 0) ↔ base ≤ 124) ∧
    (base = 127 → (base + 1) % 256 = 0x80) ∧
    (base = 255 → (base + 1) % 256 = 0x00) := by
  have e0 : (base + 0) % 256 = base := Nat.mod_eq_of_lt hbase
  have hch : writesOf (getChannel k base device script).trace <+:
      [(k.AS7265X_WRITE_REG, (k.AS7265X_DEV_SELECT_CONTROL ||| 1 <<< 7) % 256),
       (k.AS7265X_WRITE_REG, device),
       (k.AS7265X_WRITE_REG, (base + 0) % 256), (k.AS7265X_WRITE_REG, (base + 1) % 256)] := by
    rw [e0]
    exact (writesWithin_getChannel k base device script).1
  have hcal := (writesWithin_getCalibratedValue k base device script).1
  refine ⟨hch, hcal, fun i x hx => ?_, fun i x hx => ?_,
    fun i s hi hs hreq => getChannel_sends hbase hi hs hreq,
    fun i s hi hs hreq => getCalibratedValue_sends hi hs hreq,
    fun r h => ?_, fun f h => getCalibratedValue_requests h, ⟨fun h => ?_, fun h i hi => ?_⟩,
    ⟨fun h => ?_, fun h i hi => ?_⟩, fun h => by subst h; rfl, fun h => by subst h; rfl⟩
  · have hfull := getElem?_of_prefix hch hx
    match i with
    | 0 => simpa using hfull.symm
    | 1 => simpa using hfull.symm
    | j + 2 =>
      have hlen := (List.getElem?_eq_some.mp hfull).1
      simp only [List.length_cons, List.length_nil] at hlen
      omega
  · have hfull := getElem?_of_prefix hcal hx
    match i with
    | 0 => simpa using hfull.symm
    | 1 => simpa using hfull.symm
    | 2 => simpa using hfull.symm
    | 3 => simpa using hfull.symm
    | j + 4 =>
      have hlen := (List.getElem?_eq_some.mp hfull).1
      simp only [List.length_cons, List.length_nil] at hlen
      omega
  · rw [getChannel_requests h, Nat.add_zero base, Nat.mod_eq_of_lt hbase]
  · obtain ⟨h1, h2⟩ := h 1 (by omega)
    have := (bit7_clear_iff (Nat.mod_lt _ (by omega))).mp h2
    omega
  · have hlt : base + i < 128 := by omega
    have hmod : (base + i) % 256 = base + i := Nat.mod_eq_of_lt (by omega)
    exact ⟨hmod, by rw [hmod]; exact (bit7_clear_iff (by omega)).mpr hlt⟩
  · obtain ⟨h1, h2⟩ := h 3 (by omega)
    have := (bit7_clear_iff (Nat.mod_lt _ (by omega))).mp h2
    omega
  · have hlt : base + i < 128 := by omega
    have hmod : (base + i) % 256 = base + i := Nat.mod_eq_of_lt (by omega)
    exact ⟨hmod, by rw [hmod]; exact (bit7_clear_iff (by omega)).mpr hlt⟩

/-- The statement of C13 evaluated: `getChannel` from base 127 and from base 255,
`getCalibratedValue` from base 0x14 on a run that returns, and from base 0xFD on a
run that hangs waiting for RX_VALID after its fourth request. -/
theorem request_addresses_wrap_witness :
    (writesOf (getChannel sampleConsts 127 2 [0, 0, 0, 0, 1, 0x12, 0, 0, 1, 0x34]).trace).drop 2 =
      [(1, (127 + 0) % 256), (1, (127 + 1) % 256)] ∧
    (writesOf (getChannel sampleConsts 255 2 [0, 0, 0, 0, 1, 0x12, 0, 0, 1, 0x34]).trace).drop 2 =
      [(1, (255 + 0) % 256), (1, (255 + 1) % 256)] ∧
    (writesOf (getCalibratedValue sampleConsts 0x14 2
        [0, 0, 0, 0, 1, 0x3F, 0, 0, 1, 0x80, 0, 0, 1, 0, 0, 0, 1, 0]).trace).drop 2 =
      [(1, (0x14 + 0) % 256), (1, (0x14 + 1) % 256), (1, (0x14 + 2) % 256),
       (1, (0x14 + 3) % 256)] ∧
    ((getCalibratedValue sampleConsts 0xFD 2
        [0, 0, 0, 0, 1, 0x11, 0, 0, 1, 0x22, 0, 0, 1, 0x33, 0, 0, 0, 0]).result = none ∧
      (writesOf (getCalibratedValue sampleConsts 0xFD 2
        [0, 0, 0, 0, 1, 0x11, 0, 0, 1, 0x22, 0, 0, 1, 0x33, 0, 0, 0, 0]).trace)[2 + 3]? =
        some (1, (0xFD + 3) % 256) ∧
      (writesOf (getCalibratedValue sampleConsts 0xFD 2
        [0, 0, 0, 0, 1, 0x11, 0, 0, 1, 0x22, 0, 0, 1, 0x33, 0, 0, 0, 0]).trace)[2 + 2]? =
        some (1, (0xFD + 2) % 256)) ∧
    (127 + 1) % 256 = 0x80 ∧ (255 + 1) % 256 = 0x00 :=
  ⟨(request_addresses_wrap sampleConsts 127 2 [0, 0, 0, 0, 1, 0x12, 0, 0, 1, 0x34]
      (by decide)).2.2.2.2.2.2.1 0x1234 (by decide),
   (request_addresses_wrap sampleConsts 255 2 [0, 0, 0, 0, 1, 0x12, 0, 0, 1, 0x34]
      (by decide)).2.2.2.2.2.2.1 0x1234 (by decide),
   (request_addresses_wrap sampleConsts 0x14 2
      [0, 0, 0, 0, 1, 0x3F, 0, 0, 1, 0x80, 0, 0, 1, 0, 0, 0, 1, 0]
      (by decide)).2.2.2.2.2.2.2.1 ⟨0x3F800000⟩ (by decide),
   ⟨by decide,
    (request_addresses_wrap sampleConsts 0xFD 2
      [0, 0, 0, 0, 1, 0x11, 0, 0, 1, 0x22, 0, 0, 1, 0x33, 0, 0, 0, 0]
      (by decide)).2.2.2.2.2.1 3 [0, 0, 0, 0] (by decide) (by decide)
      ⟨0, [], [], 0, [0, 0], rfl, by unfold DrainBytes; decide, by unfold TxWait; decide⟩,
    (request_addresses_wrap sampleConsts 0xFD 2
      [0, 0, 0, 0, 1, 0x11, 0, 0, 1, 0x22, 0, 0, 1, 0x33, 0, 0, 0, 0]
      (by decide)).2.2.2.2.2.1 2 [0, 0, 1, 0x33, 0, 0, 0, 0] (by decide) (by decide)
      ⟨0, [], [], 0, [1, 0x33, 0, 0, 0, 0], rfl, by unfold DrainBytes; decide,
        by unfold TxWait; decide⟩⟩,
   (request_addresses_wrap sampleConsts 127 2 [] (by decide)).2.2.2.2.2.2.2.2.2.2.1 rfl,
   (request_addresses_wrap sampleConsts 255 2 [] (by decide)).2.2.2.2.2.2.2.2.2.2.2 rfl⟩

end AS7265x
